import Mathlib

/-!
Verification of the OCR supplier-invoice extraction pipeline
(`opti_saas_lib`): a shallow embedding in Lean 4 of the zone detector,
fragment merger, multi-line detector, line scorer, line-item extractor
cascade (with loose fallback), totals validator, contact extractor and
the numeric/text utilities, together with theorems settling the spec
claims about them.

Modelling conventions:
* JavaScript strings are modelled as `List Char`; regular expressions are
  transcribed into an explicit `RE` syntax tree and executed by a fuel-based
  backtracking engine (`reRun`) mirroring ECMAScript leftmost-match,
  greedy/lazy semantics.  Case-insensitive patterns fold characters through
  `upChar` (ECMAScript `Canonicalize`).
* JavaScript numbers are modelled as exact rationals (the kernel-reducible
  type `Q` below).  All numeric literals appearing in the claims are
  decimally exact and the compared quantities are far from tolerance
  boundaries, so binary floating point and exact rational arithmetic agree
  on every comparison performed here.
* The singleton `PatternCache.AMOUNT_PATTERN` regex carries the `/g` flag,
  so in JavaScript its `lastIndex` survives between `.test()` calls; the
  embedding models each `.test()` call as stateless (fresh `lastIndex = 0`).
  All concrete inputs used in counterexamples below were chosen so that no
  stale `lastIndex` is live at any `.test()` call site on their execution
  path, hence the stateless model agrees with the stateful code there.
-/

/-- Characters counted as whitespace by ECMAScript `\s` (ASCII part plus
no-break space; the inputs considered never contain other Unicode spaces). -/
def isWsC (c : Char) : Bool :=
  c = ' ' || c = '\t' || c = '\n' || c = '\r' || c = '\x0b' || c = '\x0c' || c = ' '

/-- ECMAScript word character (`\w`): ASCII letters, digits, underscore. -/
def isWordC (c : Char) : Bool :=
  ('a' ≤ c && c ≤ 'z') || ('A' ≤ c && c ≤ 'Z') || ('0' ≤ c && c ≤ '9') || c = '_'

/-- ASCII letter test. -/
def isAsciiLetter (c : Char) : Bool :=
  ('a' ≤ c && c ≤ 'z') || ('A' ≤ c && c ≤ 'Z')

/-- Uppercase folding for ASCII and Latin-1 letters: the `Canonicalize`
operation used by ECMAScript case-insensitive matching on the character
repertoire occurring in this code base. -/
def upChar (c : Char) : Char :=
  if 'a' ≤ c && c ≤ 'z' then Char.ofNat (c.toNat - 32)
  else if 'à' ≤ c && c ≤ 'þ' && c ≠ '÷' then Char.ofNat (c.toNat - 32)
  else c

/-- Lowercase folding for ASCII and Latin-1 letters (JavaScript
`toLowerCase` on the repertoire occurring in this code base). -/
def lowChar (c : Char) : Char :=
  if 'A' ≤ c && c ≤ 'Z' then Char.ofNat (c.toNat + 32)
  else if 'À' ≤ c && c ≤ 'Þ' && c ≠ '×' then Char.ofNat (c.toNat + 32)
  else c

/-- Strings are lists of characters throughout the embedding. -/
abbrev Str := List Char

/-- JavaScript `String.prototype.trim` (both ends, `\s` class). -/
def jsTrim (s : Str) : Str :=
  ((s.dropWhile isWsC).reverse.dropWhile isWsC).reverse

/-- JavaScript `toLowerCase` on a string. -/
def lowStr (s : Str) : Str := s.map lowChar

/-- JavaScript `split('\n')`. -/
def splitNl (s : Str) : List Str := s.splitOn '\n'

/-- JavaScript `join('\n')`. -/
def joinNl (ls : List Str) : Str := List.intercalate ['\n'] ls

/-- JavaScript `String.prototype.startsWith` (structural, so that proofs
can evaluate it by kernel reduction). -/
def startsList : Str → Str → Bool
  | _, [] => true
  | [], _ :: _ => false
  | c :: ct, p :: pt => c = p && startsList ct pt

/-- JavaScript `String.prototype.includes` (substring containment). -/
def containsSub : Str → Str → Bool
  | hay, needle =>
    if startsList hay needle then true
    else
      match hay with
      | [] => false
      | _ :: t => containsSub t needle

/-- Slice of a list between two positions (`substring i j`). -/
def sliceL (s : Str) (i j : Nat) : Str := (s.drop i).take (j - i)

-- ═════════════════════════════════════════════════════════════════════════
-- Regular-expression engine (ECMAScript subset)
-- ═════════════════════════════════════════════════════════════════════════

/-- Syntax of the regular-expression fragment used by the source patterns:
character classes, sequencing, alternation, counted greedy/lazy repetition,
capture groups, lookahead, word boundaries and string anchors. -/
inductive RE where
  | eps : RE
  | cls (p : Char → Bool) : RE
  | seq (a b : RE) : RE
  | alt (a b : RE) : RE
  | rep (a : RE) (lo : Nat) (hi : Option Nat) (lazyq : Bool) : RE
  | grp (i : Nat) (a : RE) : RE
  | la (a : RE) (positive : Bool) : RE
  | wb (positive : Bool) : RE
  | bos : RE
  | eos : RE
  | bol : RE
  | eol : RE

/-- Capture-group store: group `i` holds the last substring it matched. -/
abbrev Caps := List (Option Str)

/-- Functional update of the capture store. -/
def capsSet (cs : Caps) (i : Nat) (v : Str) : Caps := cs.set i (some v)

/-- Word-boundary test at a position (ECMAScript `\b`). -/
def wordBoundaryAt (inp : Str) (i : Nat) : Bool :=
  let a := match inp.get? (i - 1) with
    | some c => i ≠ 0 && isWordC c
    | none => false
  let b := match inp.get? i with
    | some c => isWordC c
    | none => false
  a ≠ b

/-- Backtracking matcher in continuation-passing style.  `reRun inp fuel r i
caps k` tries to match `r` at position `i` of `inp` and passes the end
position and captures to `k`; alternatives are tried left to right, greedy
repetitions longest-first, lazy ones shortest-first, and an iteration of an
unbounded repetition that consumes no input terminates the loop (the
ECMAScript empty-match rule).  `fuel` bounds the call depth; all uses below
supply fuel that is ample for the pattern/input sizes involved. -/
def reRun (inp : Str) : Nat → RE → Nat → Caps →
    (Nat → Caps → Option (Nat × Caps)) → Option (Nat × Caps)
  | 0, _, _, _, _ => none
  | Nat.succ fuel, r, i, caps, k =>
    match r with
    | .eps => k i caps
    | .cls p =>
      match inp.get? i with
      | some c => if p c then k (i + 1) caps else none
      | none => none
    | .seq a b =>
      reRun inp fuel a i caps (fun j caps2 => reRun inp fuel b j caps2 k)
    | .alt a b =>
      match reRun inp fuel a i caps k with
      | some res => some res
      | none => reRun inp fuel b i caps k
    | .grp g a =>
      reRun inp fuel a i caps (fun j caps2 => k j (capsSet caps2 g (sliceL inp i j)))
    | .la a positive =>
      match reRun inp fuel a i caps (fun j caps2 => some (j, caps2)) with
      | some (_, caps2) => if positive then k i caps2 else none
      | none => if positive then none else k i caps
    | .wb positive =>
      if wordBoundaryAt inp i = positive then k i caps else none
    | .bos => if i = 0 then k i caps else none
    | .eos => if i = inp.length then k i caps else none
    | .bol =>
      if i = 0 || (inp.get? (i - 1) = some '\n') then k i caps else none
    | .eol =>
      if i = inp.length || (inp.get? i = some '\n') then k i caps else none
    | .rep a lo hi lazyq =>
      match lo with
      | Nat.succ lo2 =>
        reRun inp fuel a i caps (fun j caps2 =>
          reRun inp fuel (.rep a lo2 (hi.map (· - 1)) lazyq) j caps2 k)
      | 0 =>
        match hi with
        | some 0 => k i caps
        | _ =>
          let tryMore : Unit → Option (Nat × Caps) := fun _ =>
            reRun inp fuel a i caps (fun j caps2 =>
              if j = i then none
              else reRun inp fuel (.rep a 0 (hi.map (· - 1)) lazyq) j caps2 k)
          if lazyq then
            match k i caps with
            | some res => some res
            | none => tryMore ()
          else
            match tryMore () with
            | some res => some res
            | none => k i caps

/-- Fuel ample for every pattern/input pair occurring in this development. -/
def reFuel (inp : Str) : Nat := 256 * (inp.length + 2)

/-- A match: start and end positions plus the capture store. -/
structure MatchRes where
  mstart : Nat
  mend : Nat
  caps : Caps
deriving DecidableEq

/-- Tries to match `r` exactly at position `start`. -/
def reMatchAt (r : RE) (ng : Nat) (inp : Str) (start : Nat) : Option MatchRes :=
  match reRun inp (reFuel inp) r start (List.replicate ng none)
      (fun j caps => some (j, caps)) with
  | some (j, caps) => some ⟨start, j, caps⟩
  | none => none

/-- Leftmost-match search (`String.prototype.match` without `/g`): tries
successive start positions. -/
def reSearchAux (r : RE) (ng : Nat) (inp : Str) : Nat → Nat → Option MatchRes
  | _, 0 => none
  | start, Nat.succ rem =>
    match reMatchAt r ng inp start with
    | some m => some m
    | none => reSearchAux r ng inp (start + 1) rem

/-- First match of `r` in `inp`, if any. -/
def reSearch (r : RE) (ng : Nat) (inp : Str) : Option MatchRes :=
  reSearchAux r ng inp 0 (inp.length + 1)

/-- `RegExp.prototype.test` (stateless; cf. header note on `/g`). -/
def reTest (r : RE) (inp : Str) : Bool := (reSearch r 0 inp).isSome

/-- All non-overlapping matches (`String.prototype.match` with `/g`);
every pattern used globally here matches at least one character, so each
step advances. -/
def reFindAllAux (r : RE) (inp : Str) : Nat → Nat → List MatchRes
  | _, 0 => []
  | start, Nat.succ rem =>
    if start > inp.length then []
    else
      match reSearchAux r 0 inp start (inp.length + 1 - start) with
      | none => []
      | some m =>
        let next := if m.mend > m.mstart then m.mend else m.mend + 1
        m :: reFindAllAux r inp next rem

/-- List of all global matches of `r` in `inp`. -/
def reFindAll (r : RE) (inp : Str) : List MatchRes :=
  reFindAllAux r inp 0 (inp.length + 1)

/-- The full text (`match[0]`) of a match. -/
def mTxt (inp : Str) (m : MatchRes) : Str := sliceL inp m.mstart m.mend

/-- Capture group `i` (`match[i]`, 1-based), `none` when the group did not
participate. -/
def mGrp (m : MatchRes) (i : Nat) : Option Str := (m.caps.get? (i - 1)).join

/-- Capture group `i` defaulted to the empty string (`match[i] || ''`). -/
def mGrpD (m : MatchRes) (i : Nat) : Str := (mGrp m i).getD []

-- ═════════════════════════════════════════════════════════════════════════
-- RE construction helpers
-- ═════════════════════════════════════════════════════════════════════════

/-- Sequencing of a pattern list. -/
def rcat : List RE → RE
  | [] => .eps
  | [r] => r
  | r :: rs => .seq r (rcat rs)

/-- Alternation of a pattern list (left to right). -/
def ralts : List RE → RE
  | [] => .cls (fun _ => false)
  | [r] => r
  | r :: rs => .alt r (ralts rs)

/-- Literal character. -/
def rchr (c : Char) : RE := .cls (fun x => x = c)

/-- Literal character, case-insensitive. -/
def rchri (c : Char) : RE := .cls (fun x => upChar x = upChar c)

/-- Literal string. -/
def rstr (s : String) : RE := rcat (s.data.map rchr)

/-- Literal string, case-insensitive. -/
def rstri (s : String) : RE := rcat (s.data.map rchri)

/-- Character class from an explicit character list. -/
def rcls (s : String) : RE := .cls (fun c => s.data.contains c)

/-- Negated character class from an explicit character list. -/
def rncls (s : String) : RE := .cls (fun c => !(s.data.contains c))

/-- Digit class `\d`. -/
def rdigit : RE := .cls Char.isDigit

/-- Whitespace class `\s`. -/
def rws : RE := .cls isWsC

/-- Dot: any character but a line terminator. -/
def rdot : RE := .cls (fun c => c ≠ '\n' && c ≠ '\r')

/-- `.` under the `/s` (dotall) flag. -/
def rdotAll : RE := .cls (fun _ => true)

/-- Greedy `*`. -/
def rstar (r : RE) : RE := .rep r 0 none false

/-- Greedy `+`. -/
def rplus (r : RE) : RE := .rep r 1 none false

/-- Lazy `+?`. -/
def rplusL (r : RE) : RE := .rep r 1 none true

/-- Lazy `*?`. -/
def rstarL (r : RE) : RE := .rep r 0 none true

/-- Greedy `?`. -/
def ropt (r : RE) : RE := .rep r 0 (some 1) false

/-- Greedy counted repetition `{lo,hi}`. -/
def repN (r : RE) (lo hi : Nat) : RE := .rep r lo (some hi) false

/-- Greedy open-ended repetition `{lo,}`. -/
def repMin (r : RE) (lo : Nat) : RE := .rep r lo none false

-- ═════════════════════════════════════════════════════════════════════════
-- Exact rational numbers with kernel-reducible arithmetic
-- ═════════════════════════════════════════════════════════════════════════

/-- Fuel-driven Euclidean gcd.  Unlike `Nat.gcd` (well-founded recursion)
this reduces inside the kernel; the fuel passed by `ngcd` always suffices,
so it computes the true gcd. -/
def ngcdF : Nat → Nat → Nat → Nat
  | 0, a, b => a + b
  | Nat.succ f, a, b => if a = 0 then b else ngcdF f (b % a) a

/-- Greatest common divisor via `ngcdF` with ample fuel. -/
def ngcd (a b : Nat) : Nat := ngcdF (2 * (a + b) + 2) a b

/-- Exact rationals (numerator, positive denominator, kept in lowest
terms by the smart constructor `Q.norm`): the model of JavaScript numbers
(cf. header note on floating point vs exact arithmetic). -/
structure Q where
  num : Int
  den : Nat
deriving DecidableEq

/-- Normalising constructor. -/
def Q.norm (n : Int) (d : Nat) : Q :=
  if d = 0 then ⟨0, 1⟩
  else
    let g := ngcd n.natAbs d
    if g = 0 then ⟨0, 1⟩ else ⟨n / (g : Int), d / g⟩

instance (n : Nat) : OfNat Q n := ⟨⟨Int.ofNat n, 1⟩⟩

/-- Addition. -/
def Q.add (a b : Q) : Q :=
  Q.norm (a.num * (b.den : Int) + b.num * (a.den : Int)) (a.den * b.den)

/-- Subtraction. -/
def Q.sub (a b : Q) : Q :=
  Q.norm (a.num * (b.den : Int) - b.num * (a.den : Int)) (a.den * b.den)

/-- Multiplication. -/
def Q.mul (a b : Q) : Q := Q.norm (a.num * b.num) (a.den * b.den)

/-- Negation. -/
def Q.negq (a : Q) : Q := ⟨-a.num, a.den⟩

/-- Division; division by zero yields `0` (it is never reached on the code
paths modelled here). -/
def Q.divq (a b : Q) : Q :=
  if b.num = 0 then ⟨0, 1⟩
  else if b.num < 0 then Q.norm (-(a.num * (b.den : Int))) (a.den * b.num.natAbs)
  else Q.norm (a.num * (b.den : Int)) (a.den * b.num.natAbs)

instance : Add Q := ⟨Q.add⟩
instance : Sub Q := ⟨Q.sub⟩
instance : Mul Q := ⟨Q.mul⟩
instance : Neg Q := ⟨Q.negq⟩
instance : Div Q := ⟨Q.divq⟩

instance : LE Q := ⟨fun a b => a.num * (b.den : Int) ≤ b.num * (a.den : Int)⟩
instance : LT Q := ⟨fun a b => a.num * (b.den : Int) < b.num * (a.den : Int)⟩

instance (a b : Q) : Decidable (a ≤ b) :=
  inferInstanceAs (Decidable (a.num * (b.den : Int) ≤ b.num * (a.den : Int)))

instance (a b : Q) : Decidable (a < b) :=
  inferInstanceAs (Decidable (a.num * (b.den : Int) < b.num * (a.den : Int)))

/-- `Math.abs`. -/
def Q.qabs (a : Q) : Q := if a.num < 0 then ⟨-a.num, a.den⟩ else a

/-- `Math.max`. -/
def Q.qmax (a b : Q) : Q := if a ≤ b then b else a

/-- `Math.min`. -/
def Q.qmin (a b : Q) : Q := if a ≤ b then a else b

/-- `Math.floor`, as an integer. -/
def Q.qfloor (a : Q) : Int := Int.fdiv a.num (a.den : Int)

/-- `Math.round` (JavaScript rounds half towards positive infinity). -/
def Q.qround (a : Q) : Int := Int.fdiv (2 * a.num + (a.den : Int)) (2 * (a.den : Int))

/-- Natural powers. -/
def Q.npow (a : Q) : Nat → Q
  | 0 => 1
  | Nat.succ n => Q.mul a (Q.npow a n)

/-- Powers of ten with integer exponent (`parseFloat` exponents). -/
def qpow10 (e : Int) : Q :=
  if e < 0 then Q.divq 1 (Q.npow 10 e.natAbs) else Q.npow 10 e.natAbs

/-- `Number.isInteger` (valid on the normalised values produced here). -/
def Q.isInt (a : Q) : Bool := a.den = 1

-- ═════════════════════════════════════════════════════════════════════════
-- Numeric utilities (src/unnamed/part_003: parseNumber, cleanNumeric, …)
-- ═════════════════════════════════════════════════════════════════════════

/-- Value of a digit string. -/
def digitsVal (ds : Str) : Q :=
  ds.foldl (fun a c => a * 10 + Q.norm (Int.ofNat (c.toNat - 48)) 1) 0

/-- Value of a digit string as a natural number (exponents). -/
def digitsValN (ds : Str) : Nat := ds.foldl (fun a c => a * 10 + (c.toNat - 48)) 0

/-- JavaScript `parseFloat`: longest valid decimal prefix after optional
whitespace and sign; `none` models `NaN`.  (The `Infinity` literal never
occurs in the strings this code feeds to `parseFloat`.) -/
def jsParseFloat (s : Str) : Option Q :=
  let s1 := s.dropWhile isWsC
  let sgn : Q × Str := match s1 with
    | '-' :: r => (-1, r)
    | '+' :: r => (1, r)
    | _ => (1, s1)
  let ip := sgn.2.takeWhile Char.isDigit
  let s3 := sgn.2.dropWhile Char.isDigit
  let fp : Str × Str := match s3 with
    | '.' :: r => (r.takeWhile Char.isDigit, r.dropWhile Char.isDigit)
    | _ => ([], s3)
  if ip.isEmpty && fp.1.isEmpty then none
  else
    let base : Q := digitsVal ip + digitsVal fp.1 / Q.npow 10 fp.1.length
    let expo : Int := match fp.2 with
      | c :: r =>
        if c = 'e' || c = 'E' then
          let es : Int × Str := match r with
            | '-' :: rr => (-1, rr)
            | '+' :: rr => (1, rr)
            | _ => (1, r)
          let ed := es.2.takeWhile Char.isDigit
          if ed.isEmpty then 0 else es.1 * (digitsValN ed : Int)
        else 0
      | [] => 0
    some (sgn.1 * base * qpow10 expo)

/-- JavaScript `parseInt(s, 10)`; `none` models `NaN`. -/
def jsParseInt (s : Str) : Option Int :=
  let s1 := s.dropWhile isWsC
  let sgn : Int × Str := match s1 with
    | '-' :: r => (-1, r)
    | '+' :: r => (1, r)
    | _ => (1, s1)
  let ds := sgn.2.takeWhile Char.isDigit
  if ds.isEmpty then none else some (sgn.1 * (digitsValN ds : Int))

/-- JavaScript `String.prototype.lastIndexOf` for a single character. -/
def lastIdxOf (s : Str) (c : Char) : Int :=
  match (s.reverse.findIdx? (· = c)) with
  | some k => ((s.length - 1 - k : Nat) : Int)
  | none => -1

/-- Replaces the first occurrence of a character (`replace(',', '.')`). -/
def replaceFirst : Str → Char → Char → Str
  | [], _, _ => []
  | c :: r, a, b => if c = a then b :: r else c :: replaceFirst r a b

/-- The separator-normalisation step of `parseNumber` (src/unnamed/part_003
lines 287–298): strip whitespace, then resolve French vs English decimal
separators by comparing the last comma and dot positions. -/
def parseNumberCleaned (value : Str) : Str :=
  let cleaned := value.filter (fun c => !(isWsC c))
  let lastComma := lastIdxOf cleaned ','
  let lastDot := lastIdxOf cleaned '.'
  if lastComma > lastDot then
    replaceFirst (cleaned.filter (fun c => c ≠ '.')) ',' '.'
  else if lastDot > lastComma then
    cleaned.filter (fun c => c ≠ ',')
  else if lastComma ≠ -1 then
    replaceFirst cleaned ',' '.'
  else cleaned

/-- Embedding of `parseNumber` (src/unnamed/part_003 lines 284–302):
normalise separators, `parseFloat`, with `0` for `NaN` and for the empty
string. -/
def parseNumber (value : Str) : Q :=
  if value.isEmpty then 0
  else
    match jsParseFloat (parseNumberCleaned value) with
    | some q => q
    | none => 0

/-- Embedding of `cleanNumeric`: commas to dots, then keep only digits and
dots. -/
def cleanNumeric (value : Str) : Str :=
  if value.isEmpty then []
  else (value.map (fun c => if c = ',' then '.' else c)).filter
    (fun c => c.isDigit || c = '.')

/-- Embedding of `calculateNetPrice`. -/
def calculateNetPrice (unitPrice discountPercent : Q) : Q :=
  unitPrice * (1 - discountPercent / 100)

-- ═════════════════════════════════════════════════════════════════════════
-- cleanOcrText (src/unnamed/part_003 lines 366–385)
-- ═════════════════════════════════════════════════════════════════════════

/-- Per-character OCR misread substitutions (the three accent→digit/letter
`replace` calls of `cleanOcrText`). -/
def accentFold (c : Char) : Char :=
  if c = 'î' || c = 'ì' || c = 'í' || c = 'ï' then '1'
  else if c = 'ô' || c = 'ò' || c = 'ó' || c = 'ö' then '0'
  else if c = 'û' || c = 'ù' || c = 'ú' || c = 'ü' then 'u'
  else c

/-- The character class `[}\]|)]` of the digit-adjacent bracket rules. -/
def isBrA (c : Char) : Bool := c = '\x7d' || c = ']' || c = '|' || c = ')'

/-- The character class `[|}\])\[{(]` of the isolated-specials rule. -/
def isBrB (c : Char) : Bool :=
  c = '|' || c = '\x7d' || c = ']' || c = ')' || c = '[' || c = '\x7b' || c = '('

/-- Dropping a matching prefix never lengthens a list. -/
theorem memDropWhile {p : Char → Bool} {c : Char} {s : Str}
    (h : c ∈ s.dropWhile p) : c ∈ s :=
  (List.dropWhile_suffix p).sublist.subset h

/-- Global replace `(\\d)[}\\]|)]+ → $1`, as a single pass carrying the flag
"the previous surviving character was a digit": a bracket character is
dropped exactly when it continues a bracket run directly following a digit,
which is precisely the set of characters the global regex deletes. -/
def dropBrAfterGo : Bool → Str → Str
  | _, [] => []
  | prevD, c :: rest =>
    if prevD && isBrA c then dropBrAfterGo prevD rest
    else c :: dropBrAfterGo c.isDigit rest

/-- Entry point of the digit-then-brackets rule. -/
def dropBrAfterDigit (s : Str) : Str := dropBrAfterGo false s

/-- Global replace `[}\\]|)]+(\\d) → $1`: a bracket character is dropped
exactly when its bracket run is immediately followed by a digit (the
leftmost-match behaviour of the global regex). -/
def dropBrBeforeDigit : Str → Str
  | [] => []
  | c :: rest =>
    if isBrA c &&
        (match rest.dropWhile isBrA with
          | d :: _ => d.isDigit
          | [] => false) then
      dropBrBeforeDigit rest
    else c :: dropBrBeforeDigit rest

/-- One leftmost match of `\\s+[|}\\])\\[{(]+\\s+` at the head of the list:
returns the remainder after the match if it succeeds.  (The source regex
requires a nonempty whitespace run, then a nonempty run of the special
characters, then whitespace; greediness makes each run maximal.) -/
def isoMatchAt : Str → Option Str
  | [] => none
  | c :: rest =>
    if isWsC c then
      match (c :: rest).dropWhile isWsC with
      | [] => none
      | b :: r1t =>
        if isBrB b then
          match (b :: r1t).dropWhile isBrB with
          | [] => none
          | d :: r2t => if isWsC d then some ((d :: r2t).dropWhile isWsC) else none
        else none
    else none

/-- Fuel-driven scan for the global replace `\\s+[|}\\])\\[{(]+\\s+ → ' '`
that resumes right after each match.  Every step consumes at least one
input character, so fuel equal to the input length makes the cutoff branch
unreachable and the function agrees with the unbounded scan. -/
def isolatedSpecialsF : Nat → Str → Str
  | 0, s => s
  | Nat.succ fuel, s =>
    match s with
    | [] => []
    | c :: rest =>
      match isoMatchAt (c :: rest) with
      | some r3 => ' ' :: isolatedSpecialsF fuel r3
      | none => c :: isolatedSpecialsF fuel rest

/-- Entry point of the isolated-specials rule. -/
def isolatedSpecials (s : Str) : Str := isolatedSpecialsF s.length s

/-- Global replace `\\s+ → ' '` as a single pass carrying the flag "inside
a whitespace run": the first character of each run emits a space, the rest
of the run is dropped. -/
def collapseWsGo : Bool → Str → Str
  | _, [] => []
  | inWs, c :: rest =>
    if isWsC c then
      if inWs then collapseWsGo true rest
      else ' ' :: collapseWsGo true rest
    else c :: collapseWsGo false rest

/-- Entry point of the whitespace-normalisation rule. -/
def collapseWs (s : Str) : Str := collapseWsGo false s

/-- The per-line body of `cleanOcrText`, applying the replaces in source
order and trimming. -/
def cleanOcrLine (l : Str) : Str :=
  jsTrim (collapseWs (isolatedSpecials (dropBrBeforeDigit (dropBrAfterDigit
    (l.map accentFold)))))

/-- Embedding of `cleanOcrText`: split on newlines, clean each line, join. -/
def cleanOcrText (s : Str) : Str := joinNl ((splitNl s).map cleanOcrLine)

-- ═════════════════════════════════════════════════════════════════════════
-- Structure of cleanOcrText output (for the idempotence claim)
-- ═════════════════════════════════════════════════════════════════════════

/-- Head (if any) fails the predicate. -/
def headNot (p : Char → Bool) (s : Str) : Prop := ∀ c ∈ s.head?, p c = false

/-- Every whitespace character of the string is a plain space. -/
def onlySpaces (s : Str) : Prop := ∀ c ∈ s, isWsC c = true → c = ' '

/-- No two adjacent whitespace characters. -/
def wsSeparated (s : Str) : Prop :=
  List.Chain' (fun a b => isWsC a = false ∨ isWsC b = false) s

/-- Strings free of the bracket/pipe artifact characters and of the accented
characters rewritten by `cleanOcrText`. -/
def noOcrArtifacts (s : Str) : Prop :=
  ∀ c ∈ s, isBrB c = false ∧ accentFold c = c

theorem headNot_dropWhile (p : Char → Bool) (s : Str) :
    headNot p (s.dropWhile p) := by
  intro c hc
  have hd := List.head?_dropWhile_not p s
  cases hh : (s.dropWhile p).head? with
  | none => rw [hh] at hc; cases hc
  | some d =>
    rw [hh] at hc hd
    have : d = c := by simpa using hc
    subst this
    exact hd

theorem dropWhile_eq_self_of_headNot {p : Char → Bool} {s : Str}
    (h : headNot p s) : s.dropWhile p = s := by
  cases s with
  | nil => rfl
  | cons a t =>
    have ha : p a = false := h a (by simp)
    exact List.dropWhile_cons_of_neg (by simp [ha])

theorem collapseWsGo_mem : ∀ (s : Str) (b : Bool) (c : Char),
    c ∈ collapseWsGo b s → (c ∈ s ∧ isWsC c = false) ∨ c = ' ' := by
  intro s
  induction s with
  | nil => intro b c h; simp only [collapseWsGo] at h; cases h
  | cons a t ih =>
    intro b c h
    simp only [collapseWsGo] at h
    by_cases hws : isWsC a
    · rw [if_pos hws] at h
      by_cases hb : b = true
      · rw [if_pos hb] at h
        rcases ih true c h with ⟨hm, hw⟩ | hsp
        · exact Or.inl ⟨List.mem_cons_of_mem _ hm, hw⟩
        · exact Or.inr hsp
      · rw [if_neg hb] at h
        rcases List.mem_cons.mp h with rfl | h2
        · exact Or.inr rfl
        · rcases ih true c h2 with ⟨hm, hw⟩ | hsp
          · exact Or.inl ⟨List.mem_cons_of_mem _ hm, hw⟩
          · exact Or.inr hsp
    · rw [if_neg hws] at h
      rcases List.mem_cons.mp h with rfl | h2
      · exact Or.inl ⟨List.mem_cons_self _ _, by simpa using hws⟩
      · rcases ih false c h2 with ⟨hm, hw⟩ | hsp
        · exact Or.inl ⟨List.mem_cons_of_mem _ hm, hw⟩
        · exact Or.inr hsp

theorem collapseWs_onlySp (s : Str) : onlySpaces (collapseWs s) := by
  intro c hc hws
  rcases collapseWsGo_mem s false c hc with ⟨_, hw⟩ | hsp
  · rw [hws] at hw; cases hw
  · exact hsp

theorem collapseWsGo_chain : ∀ (s : Str) (b : Bool),
    wsSeparated (collapseWsGo b s) ∧
      (b = true → headNot isWsC (collapseWsGo b s)) := by
  intro s
  induction s with
  | nil =>
    intro b
    refine ⟨by simp only [collapseWsGo]; exact List.chain'_nil, ?_⟩
    intro _ c hc
    simp only [collapseWsGo] at hc
    cases hc
  | cons a t ih =>
    intro b
    by_cases hws : isWsC a
    · by_cases hb : b = true
      · constructor
        · simp only [collapseWsGo, if_pos hws, if_pos hb]
          exact (ih true).1
        · intro _
          simp only [collapseWsGo, if_pos hws, if_pos hb]
          exact (ih true).2 rfl
      · constructor
        · simp only [collapseWsGo, if_pos hws, if_neg hb]
          exact List.chain'_cons'.mpr
            ⟨fun y hy => Or.inr ((ih true).2 rfl y hy), (ih true).1⟩
        · intro hb2; exact absurd hb2 hb
    · constructor
      · simp only [collapseWsGo, if_neg hws]
        exact List.chain'_cons'.mpr
          ⟨fun y _ => Or.inl (by simpa using hws), (ih false).1⟩
      · intro _ c hc
        simp only [collapseWsGo, if_neg hws] at hc
        have : a = c := by simpa using hc
        subst this
        simpa using hws

theorem collapseWs_chain (s : Str) : wsSeparated (collapseWs s) :=
  (collapseWsGo_chain s false).1

theorem collapseWsGo_id : ∀ (s : Str) (b : Bool), onlySpaces s →
    wsSeparated s → (b = true → headNot isWsC s) → collapseWsGo b s = s := by
  intro s
  induction s with
  | nil => intro b _ _ _; simp only [collapseWsGo]
  | cons a t ih =>
    intro b h1 h2 h3
    by_cases hws : isWsC a
    · have hb : b = false := by
        by_contra hb
        have hb2 : b = true := by
          cases b
          · exact absurd rfl hb
          · rfl
        have := h3 hb2 a (by simp)
        rw [hws] at this
        cases this
      subst hb
      have hc : a = ' ' := h1 a (List.mem_cons_self _ _) hws
      have hrest : headNot isWsC t := by
        intro y hy
        rcases (List.chain'_cons'.mp h2).1 y hy with h | h
        · rw [hws] at h; cases h
        · exact h
      simp only [collapseWsGo, if_pos hws, if_neg (by simp : ¬(false = true))]
      rw [ih true (fun d hd hw => h1 d (List.mem_cons_of_mem _ hd) hw)
        (List.chain'_cons'.mp h2).2 (fun _ => hrest), hc]
    · simp only [collapseWsGo, if_neg hws]
      rw [ih false (fun d hd hw => h1 d (List.mem_cons_of_mem _ hd) hw)
        (List.chain'_cons'.mp h2).2 (fun hb => absurd hb (by simp))]

theorem collapseWs_id (s : Str) (h1 : onlySpaces s) (h2 : wsSeparated s) :
    collapseWs s = s :=
  collapseWsGo_id s false h1 h2 (fun hb => absurd hb (by simp))

theorem jsTrim_headNot (s : Str) :
    headNot isWsC (jsTrim s) ∧ headNot isWsC (jsTrim s).reverse := by
  constructor
  · intro c hc
    unfold jsTrim at hc
    rw [List.head?_reverse] at hc
    have hc2 : (((s.dropWhile isWsC).reverse).dropWhile isWsC).getLast? = some c := by
      simpa using hc
    obtain ⟨t, ht⟩ := List.dropWhile_suffix (l := (s.dropWhile isWsC).reverse) isWsC
    have h1 : ((s.dropWhile isWsC).reverse).getLast? = some c := by
      rw [← ht, List.getLast?_append, hc2]
      rfl
    rw [List.getLast?_reverse] at h1
    exact headNot_dropWhile isWsC s c (by simp [h1])
  · intro c hc
    unfold jsTrim at hc
    rw [List.reverse_reverse] at hc
    exact headNot_dropWhile isWsC _ c hc

theorem jsTrim_id {s : Str} (h1 : headNot isWsC s)
    (h2 : headNot isWsC s.reverse) : jsTrim s = s := by
  unfold jsTrim
  rw [dropWhile_eq_self_of_headNot h1, dropWhile_eq_self_of_headNot h2,
    List.reverse_reverse]

theorem memTrim {c : Char} {s : Str} (h : c ∈ jsTrim s) : c ∈ s := by
  unfold jsTrim at h
  rw [List.mem_reverse] at h
  have h2 := memDropWhile h
  rw [List.mem_reverse] at h2
  exact memDropWhile h2

theorem wsSeparated_trim {s : Str} (h : wsSeparated s) :
    wsSeparated (jsTrim s) := by
  unfold jsTrim
  have s1 : wsSeparated (s.dropWhile isWsC) := h.suffix (List.dropWhile_suffix _)
  have s2 : wsSeparated ((s.dropWhile isWsC).reverse) :=
    List.chain'_reverse.mpr (s1.imp (fun _ _ hh => hh.symm))
  have s3 : wsSeparated (((s.dropWhile isWsC).reverse).dropWhile isWsC) :=
    s2.suffix (List.dropWhile_suffix _)
  exact List.chain'_reverse.mpr (s3.imp (fun _ _ hh => hh.symm))

theorem brA_of_brB {c : Char} (h : isBrB c = false) : isBrA c = false := by
  unfold isBrA
  unfold isBrB at h
  simp only [Bool.or_eq_false_iff] at h ⊢
  tauto

theorem map_accentFold_id {s : Str} (h : ∀ c ∈ s, accentFold c = c) :
    s.map accentFold = s :=
  (List.map_congr_left h).trans (List.map_id s)

theorem dropBrAfterGo_id : ∀ (s : Str) (b : Bool),
    (∀ c ∈ s, isBrA c = false) → dropBrAfterGo b s = s := by
  intro s
  induction s with
  | nil => intro b _; simp only [dropBrAfterGo]
  | cons a t ih =>
    intro b h
    have ha : isBrA a = false := h a (List.mem_cons_self _ _)
    simp only [dropBrAfterGo, ha, Bool.and_false, Bool.false_eq_true, if_false]
    rw [ih a.isDigit (fun d hd => h d (List.mem_cons_of_mem _ hd))]

theorem dropBrAfterDigit_id (s : Str) (h : ∀ c ∈ s, isBrA c = false) :
    dropBrAfterDigit s = s :=
  dropBrAfterGo_id s false h

theorem dropBrBeforeDigit_id : ∀ (s : Str), (∀ c ∈ s, isBrA c = false) →
    dropBrBeforeDigit s = s := by
  intro s
  induction s with
  | nil => intro _; simp only [dropBrBeforeDigit]
  | cons a t ih =>
    intro h
    have ha : isBrA a = false := h a (List.mem_cons_self _ _)
    simp only [dropBrBeforeDigit, ha, Bool.false_and, Bool.false_eq_true, if_false]
    rw [ih (fun d hd => h d (List.mem_cons_of_mem _ hd))]

theorem isoMatchAt_none_of_noBr {l : Str} (h : ∀ c ∈ l, isBrB c = false) :
    isoMatchAt l = none := by
  cases l with
  | nil => rfl
  | cons c rest =>
    rw [isoMatchAt]
    by_cases hws : isWsC c
    · rw [if_pos hws]
      cases hdw : (c :: rest).dropWhile isWsC with
      | nil => rfl
      | cons b r1t =>
        have hb : b ∈ c :: rest := by
          apply memDropWhile (p := isWsC)
          rw [hdw]
          exact List.mem_cons_self _ _
        exact if_neg (by simp [h b hb])
    · rw [if_neg hws]

theorem isolatedSpecialsF_id : ∀ (fuel : Nat) (s : Str),
    (∀ c ∈ s, isBrB c = false) → isolatedSpecialsF fuel s = s := by
  intro fuel
  induction fuel with
  | zero => intro s _; simp only [isolatedSpecialsF]
  | succ f ih =>
    intro s h
    cases s with
    | nil => simp only [isolatedSpecialsF]
    | cons c rest =>
      simp only [isolatedSpecialsF]
      rw [isoMatchAt_none_of_noBr h]
      rw [ih rest (fun d hd => h d (List.mem_cons_of_mem _ hd))]

theorem isolatedSpecials_id (s : Str) (h : ∀ c ∈ s, isBrB c = false) :
    isolatedSpecials s = s :=
  isolatedSpecialsF_id s.length s h

/-- On artifact-free input, `cleanOcrLine` is just whitespace
normalisation plus trim. -/
theorem cleanOcrLine_safe_eq {l : Str} (h : noOcrArtifacts l) :
    cleanOcrLine l = jsTrim (collapseWs l) := by
  unfold cleanOcrLine
  rw [map_accentFold_id (fun c hc => (h c hc).2),
    dropBrAfterDigit_id l (fun c hc => brA_of_brB (h c hc).1),
    dropBrBeforeDigit_id l (fun c hc => brA_of_brB (h c hc).1),
    isolatedSpecials_id l (fun c hc => (h c hc).1)]

theorem cleanOcrLine_mem_of_safe {c : Char} {l : Str}
    (hs : noOcrArtifacts l) (h : c ∈ cleanOcrLine l) : c ∈ l ∨ c = ' ' := by
  rw [cleanOcrLine_safe_eq hs] at h
  rcases collapseWsGo_mem _ false _ (memTrim h) with ⟨hm, _⟩ | hsp
  · exact Or.inl hm
  · exact Or.inr hsp

/-- One application of the per-line cleaner is a fixed point on
artifact-free lines. -/
theorem cleanOcrLine_idem {l : Str} (h : noOcrArtifacts l) :
    cleanOcrLine (cleanOcrLine l) = cleanOcrLine l := by
  have ht : noOcrArtifacts (cleanOcrLine l) := by
    intro c hc
    rcases cleanOcrLine_mem_of_safe h hc with hc2 | hc2
    · exact h c hc2
    · subst hc2; exact ⟨by decide, by decide⟩
  rw [cleanOcrLine_safe_eq ht, cleanOcrLine_safe_eq h]
  have hsp : onlySpaces (jsTrim (collapseWs l)) := fun c hc hw =>
    collapseWs_onlySp l c (memTrim hc) hw
  have hch : wsSeparated (jsTrim (collapseWs l)) :=
    wsSeparated_trim (collapseWs_chain l)
  rw [collapseWs_id _ hsp hch]
  exact jsTrim_id (jsTrim_headNot (collapseWs l)).1 (jsTrim_headNot (collapseWs l)).2

theorem memJoinNl : ∀ {ls : List Str} {l : Str} {c : Char}, l ∈ ls →
    c ∈ l → c ∈ joinNl ls := by
  intro ls
  induction ls with
  | nil => intro l c h; cases h
  | cons a t ih =>
    intro l c hl hc
    cases t with
    | nil =>
      have : l = a := by simpa using hl
      subst this
      simpa [joinNl, List.intercalate] using hc
    | cons b t2 =>
      have hj : joinNl (a :: b :: t2) = a ++ '\n' :: joinNl (b :: t2) := by
        simp [joinNl, List.intercalate]
      rcases List.mem_cons.mp hl with rfl | hl2
      · rw [hj]; exact List.mem_append_left _ hc
      · rw [hj]
        exact List.mem_append_right _ (List.mem_cons_of_mem _ (ih hl2 hc))

theorem cleanOcrLine_no_newline {l l2 : Str} (h : l2 = cleanOcrLine l) :
    '\n' ∉ l2 := by
  intro hmem
  subst h
  unfold cleanOcrLine at hmem
  have h1 := memTrim hmem
  have h2 := collapseWs_onlySp _ _ h1 (by decide)
  cases h2

instance (s : Str) : Decidable (noOcrArtifacts s) := by
  unfold noOcrArtifacts
  infer_instance

theorem map_clean_idem : ∀ (ls : List Str), (∀ l ∈ ls, noOcrArtifacts l) →
    List.map cleanOcrLine (List.map cleanOcrLine ls) = List.map cleanOcrLine ls := by
  intro ls
  induction ls with
  | nil => intro _; rfl
  | cons a t ih =>
    intro h
    simp only [List.map_cons]
    rw [cleanOcrLine_idem (h a (List.mem_cons_self _ _)),
      ih (fun l hl => h l (List.mem_cons_of_mem _ hl))]

set_option maxHeartbeats 1000000 in
/-- Whole-text idempotence of `cleanOcrText` on artifact-free input. -/
theorem cleanOcrText_idem_of_safe {s : Str} (h : noOcrArtifacts s) :
    cleanOcrText (cleanOcrText s) = cleanOcrText s := by
  unfold cleanOcrText
  have hparts : ∀ l ∈ splitNl s, noOcrArtifacts l := by
    intro l hl c hc
    apply h
    have hs : c ∈ joinNl (splitNl s) := memJoinNl hl hc
    rwa [show joinNl (splitNl s) = s from List.intercalate_splitOn s '\n'] at hs
  have hnl : ∀ l2 ∈ (splitNl s).map cleanOcrLine, '\n' ∉ l2 := by
    intro l2 hl2
    obtain ⟨l, _, rfl⟩ := List.mem_map.mp hl2
    exact cleanOcrLine_no_newline rfl
  have hne : (splitNl s).map cleanOcrLine ≠ [] := by
    intro hmap
    exact List.splitOnP_ne_nil _ s (List.map_eq_nil_iff.mp hmap)
  rw [show splitNl (joinNl ((splitNl s).map cleanOcrLine)) =
      (splitNl s).map cleanOcrLine from List.splitOn_intercalate _ '\n' hnl hne]
  exact congrArg joinNl (map_clean_idem (splitNl s) hparts)

/-- C5 counterexample: `cleanOcrText` is not idempotent.  On the input
`"1 \x7d \x7d 2"` the isolated-special-character rule removes only the first
`"\x20\x7d\x20"` occurrence (the global regex resumes scanning after the
match), so a second application removes the remaining one and the results
differ. -/
theorem claim5_counterexample :
    cleanOcrText (cleanOcrText "1 \x7d \x7d 2".data) ≠
      cleanOcrText "1 \x7d \x7d 2".data := by decide

/-- C5 (amended): `cleanOcrText` is idempotent on every input containing
none of the bracket/pipe/parenthesis artifact characters removed by its
bracket rules and none of the accented characters it rewrites; on such
inputs one application already reaches the whitespace-normalised,
trimmed fixed point. -/
theorem claim5_amended_idempotent_artifact_free (s : Str)
    (h : noOcrArtifacts s) :
    cleanOcrText (cleanOcrText s) = cleanOcrText s :=
  cleanOcrText_idem_of_safe h

/-- Witness for the amended C5 theorem at a concrete artifact-free input. -/
theorem claim5_amended_witness :
    noOcrArtifacts "ab   cd \t x1".data ∧
      cleanOcrText (cleanOcrText "ab   cd \t x1".data) =
        cleanOcrText "ab   cd \t x1".data :=
  ⟨by decide, claim5_amended_idempotent_artifact_free "ab   cd \t x1".data (by decide)⟩

/-- C9: `parseNumber` maps the French-formatted and the plain-decimal
representation of the same value to the identical rational. -/
theorem claim9_parse_number_roundtrip :
    parseNumber "1 010,00".data = 1010 ∧ parseNumber "1010.00".data = 1010 := by
  exact ⟨by decide, by decide⟩

/-- C10: `parseNumber` is total (it is a plain function into `ℚ` — `NaN` is
modelled as the `none` arm of `jsParseFloat`, which `parseNumber` maps to
`0`): the empty string yields `0`, every unparseable input (where
`parseFloat` would yield `NaN`) yields `0`, and a genuinely parsed zero is
indistinguishable from a parse failure at this interface. -/
theorem claim10_parse_number_total_and_zero_on_failure :
    (∀ s : Str, (s.isEmpty = true → parseNumber s = 0) ∧
      (jsParseFloat (parseNumberCleaned s) = none → parseNumber s = 0)) ∧
    parseNumber "0".data = 0 ∧ parseNumber "0,00".data = 0 ∧
    parseNumber "xyz".data = 0 ∧ parseNumber "".data = 0 := by
  refine ⟨fun s => ⟨fun he => ?_, fun hn => ?_⟩, by decide, by decide, by decide, by decide⟩
  · unfold parseNumber
    rw [if_pos he]
  · unfold parseNumber
    by_cases he : s.isEmpty = true
    · rw [if_pos he]
    · rw [if_neg he, hn]

/-- Witness for C10 at concrete inputs: `"abc"` is unparseable and maps
to `0`. -/
theorem claim10_witness :
    ("".data : Str).isEmpty = true ∧ parseNumber "".data = 0 ∧
      jsParseFloat (parseNumberCleaned "abc".data) = none ∧
      parseNumber "abc".data = 0 := by
  refine ⟨by decide, ?_, by decide, ?_⟩
  · exact (claim10_parse_number_total_and_zero_on_failure.1 "".data).1 (by decide)
  · exact (claim10_parse_number_total_and_zero_on_failure.1 "abc".data).2 (by decide)

-- ═════════════════════════════════════════════════════════════════════════
-- PatternCache (src/unnamed/part_003 lines 1–172): the compiled regexes
-- ═════════════════════════════════════════════════════════════════════════

/-- Class `[A-Z0-9]` under `/i`: ASCII letters and digits. -/
def isAlnumI (c : Char) : Bool := isAsciiLetter c || c.isDigit

/-- Digits 8–14 (or generally `lo`–`hi`) at the start of the line followed
by a suffix condition: the shape of the anchored `^\d{lo,hi}…` patterns.
The disjunction over `k` mirrors the regex alternation over digit counts. -/
def matchDigitsThen (lo hi : Nat) (after : Str → Bool) (l : Str) : Bool :=
  (List.range' lo (hi + 1 - lo)).any fun k =>
    decide ((l.take k).length = k) && (l.take k).all Char.isDigit && after (l.drop k)

/-- The suffix condition `\s` (a whitespace character follows). -/
def headIsWs (r : Str) : Bool :=
  match r with
  | c :: _ => isWsC c
  | [] => false

/-- The suffix condition `\s+[A-Z]` under `/i` (whitespace then an ASCII
letter; the greedy `\s+` backtracks until the letter, so it is equivalent to
skipping the whole whitespace run). -/
def wsThenAsciiLetter (r : Str) : Bool :=
  headIsWs r &&
  (match r.dropWhile isWsC with
    | c :: _ => isAsciiLetter c
    | [] => false)

/-- `EAN_FULL = /^\d{8,14}\s/`. -/
def EAN_FULL (l : Str) : Bool := matchDigitsThen 8 14 headIsWs l

/-- `EAN_TRUNCATED = /^\d{6,13}\s+[A-Z]/i`. -/
def EAN_TRUNCATED (l : Str) : Bool := matchDigitsThen 6 13 wsThenAsciiLetter l

/-- `REF_DASH = /^[A-Z0-9]{1,5}[-\s][A-Z0-9]{2,}/i`. -/
def REF_DASH : RE :=
  rcat [.bos, repN (.cls isAlnumI) 1 5, .cls (fun c => c = '-' || isWsC c),
    repMin (.cls isAlnumI) 2]

/-- `REF_NUMERIC = /^[A-Z]{2,4}\d{3,}/i`. -/
def REF_NUMERIC : RE :=
  rcat [.bos, repN (.cls isAsciiLetter) 2 4, repMin rdigit 3]

/-- `INDEX_NUMERIC = /^[\d#]{1,3}[.)\]\s]/`. -/
def INDEX_NUMERIC : RE :=
  rcat [.bos, repN (.cls (fun c => c.isDigit || c = '#')) 1 3,
    .cls (fun c => c = '.' || c = ')' || c = ']' || isWsC c)]

/-- `HAS_PERCENTAGE = /\d+[.,]?\d*\s*%/`. -/
def HAS_PERCENTAGE : RE :=
  rcat [rplus rdigit, ropt (rcls ".,"), rstar rdigit, rstar rws, rchr '%']

/-- `AMOUNT_PATTERN = /\d{2,}[.,]\d{2}/g`. -/
def AMOUNT_PATTERN : RE := rcat [repMin rdigit 2, rcls ".,", repN rdigit 2 2]

/-- `QUANTITY_PATTERN = /\s[1-9]\d{0,2}\s/`. -/
def QUANTITY_PATTERN : RE :=
  rcat [rws, .cls (fun c => '1' ≤ c && c ≤ '9'), repN rdigit 0 2, rws]

/-- The class `[àa]` under `/i`. -/
def clsAgrave : RE := .cls (fun c => upChar c = 'A' || upChar c = 'À')

/-- `IS_TOTAL = /total|sous-total|montant|net\s*[àa]\s*payer|reporter|tva|h\.?t\.?|t\.?t\.?c\.?/i`. -/
def IS_TOTAL : RE :=
  ralts [rstri "total", rstri "sous-total", rstri "montant",
    rcat [rstri "net", rstar rws, clsAgrave, rstar rws, rstri "payer"],
    rstri "reporter", rstri "tva",
    rcat [rchri 'h', ropt (rchr '.'), rchri 't', ropt (rchr '.')],
    rcat [rchri 't', ropt (rchr '.'), rchri 't', ropt (rchr '.'), rchri 'c',
      ropt (rchr '.')]]

/-- `IS_HEADER = /facture|date|client|fournisseur|adresse|ice|i\.?f\.?|r\.?c\.?|tél|tel|page|n°/i`. -/
def IS_HEADER : RE :=
  ralts [rstri "facture", rstri "date", rstri "client", rstri "fournisseur",
    rstri "adresse", rstri "ice",
    rcat [rchri 'i', ropt (rchr '.'), rchri 'f', ropt (rchr '.')],
    rcat [rchri 'r', ropt (rchr '.'), rchri 'c', ropt (rchr '.')],
    rstri "tél", rstri "tel", rstri "page", rstri "n°"]

/-- `IS_DATE = /^\d{1,2}[/\-.]\d{1,2}[/\-.]\d{2,4}/`. -/
def IS_DATE : RE :=
  rcat [.bos, repN rdigit 1 2, rcls "/-.", repN rdigit 1 2, rcls "/-.",
    repN rdigit 2 4]

/-- `TABLE_HEADER = /\b(désignation|description|article|référence|qté|quantité|prix)\b|\bp\.?u\.?\b/i`. -/
def TABLE_HEADER : RE :=
  .alt
    (rcat [.wb true,
      ralts [rstri "désignation", rstri "description", rstri "article",
        rstri "référence", rstri "qté", rstri "quantité", rstri "prix"],
      .wb true])
    (rcat [.wb true, rchri 'p', ropt (rchr '.'), rchri 'u', ropt (rchr '.'),
      .wb true])

/-- `FOOTER_START = /^total\s|reporter|net\s*[àa]\s*payer|sous-total/i`. -/
def FOOTER_START : RE :=
  ralts [rcat [.bos, rstri "total", rws], rstri "reporter",
    rcat [rstri "net", rstar rws, clsAgrave, rstar rws, rstri "payer"],
    rstri "sous-total"]

/-- `\d+(?:[.,]\d+)?` — the number shape used by the line-item patterns. -/
def rnum : RE := rcat [rplus rdigit, ropt (rcat [rcls ".,", rplus rdigit])]

/-- The class `[\d\s.,]` of the amount fields. -/
def amtCls : RE := .cls (fun c => c.isDigit || isWsC c || c = '.' || c = ',')

/-- The class `[a-z0-9\-\.]` under `/i`. -/
def refClsI : RE := .cls (fun c => isAlnumI c || c = '-' || c = '.')

/-- `LINE_BARCODE = /^(\d{8,14})\s+(.+?)\s+(\d+(?:[.,]\d+)?)\s+([\d\s.,]+)\s+(\d+(?:[.,]\d+)?)\s*%?\s+([\d\s.,]+)$/`. -/
def LINE_BARCODE : RE :=
  rcat [.bos, .grp 0 (repN rdigit 8 14), rplus rws, .grp 1 (rplusL rdot),
    rplus rws, .grp 2 rnum, rplus rws, .grp 3 (rplus amtCls), rplus rws,
    .grp 4 rnum, rstar rws, ropt (rchr '%'), rplus rws, .grp 5 (rplus amtCls),
    .eos]

/-- `LINE_EXTENDED = /^([a-z0-9\-\.]+)\s+(.+?)\s+(\d+(?:[\.,]\d+)?)\s+([\d\s\.,\]\[\}\{\)\|f]+)\s+([\d\.\s]+)%?\s+([\d\s\.,]+)/i`. -/
def LINE_EXTENDED : RE :=
  rcat [.bos, .grp 0 (rplus refClsI), rplus rws, .grp 1 (rplusL rdot),
    rplus rws, .grp 2 rnum, rplus rws,
    .grp 3 (rplus (.cls (fun c => c.isDigit || isWsC c || c = '.' || c = ',' ||
      c = ']' || c = '[' || c = '\x7d' || c = '\x7b' || c = ')' || c = '|' ||
      upChar c = 'F'))),
    rplus rws,
    .grp 4 (rplus (.cls (fun c => c.isDigit || c = '.' || isWsC c))),
    ropt (rchr '%'), rplus rws, .grp 5 (rplus amtCls)]

/-- `LINE_WITH_DISCOUNT = /^([A-Z0-9][-A-Z0-9]{2,20})\s+(.{5,60}?)\s+(\d+(?:[.,]\d+)?)\s+([\d\s.,]+)\s+(\d+(?:[.,]\d+)?)\s*%\s+([\d\s.,]+)/i`. -/
def LINE_WITH_DISCOUNT : RE :=
  rcat [.bos,
    .grp 0 (rcat [.cls isAlnumI, repN (.cls (fun c => c = '-' || isAlnumI c)) 2 20]),
    rplus rws, .grp 1 (.rep rdot 5 (some 60) true), rplus rws, .grp 2 rnum,
    rplus rws, .grp 3 (rplus amtCls), rplus rws, .grp 4 rnum, rstar rws,
    rchr '%', rplus rws, .grp 5 (rplus amtCls)]

/-- The optional unit token `(pcs?|kg|unité|unit|box|carton|lot)?` of
`LINE_FULL`. -/
def unitAlt : RE :=
  ralts [rcat [rstri "pc", ropt (rchri 's')], rstri "kg", rstri "unité",
    rstri "unit", rstri "box", rstri "carton", rstri "lot"]

/-- `LINE_FULL = /^(.{3,60}?)\s+(\d+(?:[.,]\d+)?)\s*(pcs?|kg|unité|unit|box|carton|lot)?\s+(\d+(?:[.,]\d+)?)\s+(\d+(?:[.,]\d+)?)/i`. -/
def LINE_FULL : RE :=
  rcat [.bos, .grp 0 (.rep rdot 3 (some 60) true), rplus rws, .grp 1 rnum,
    rstar rws, ropt (.grp 2 unitAlt), rplus rws, .grp 3 rnum, rplus rws,
    .grp 4 rnum]

/-- `LINE_SIMPLE = /(\d+(?:[.,]\d+)?)\s*[xX×]\s*(\d+(?:[.,]\d+)?)/`. -/
def LINE_SIMPLE : RE :=
  rcat [.grp 0 rnum, rstar rws, .cls (fun c => c = 'x' || c = 'X' || c = '×'),
    rstar rws, .grp 1 rnum]

/-- `LINE_FALLBACK = /^([a-z0-9\-\.]{4,})\s+(.+?)\s+(\d+(?:[\.,]\d+)?)\s+([\d\s\.,]+)$/i`. -/
def LINE_FALLBACK : RE :=
  rcat [.bos, .grp 0 (repMin refClsI 4), rplus rws, .grp 1 (rplusL rdot),
    rplus rws, .grp 2 rnum, rplus rws, .grp 3 (rplus amtCls), .eos]

-- ═════════════════════════════════════════════════════════════════════════
-- LineScorer (src/src/shared/ocr/detection/zone-detector.ts lines 206–471)
-- ═════════════════════════════════════════════════════════════════════════

/-- The inline quantity pattern `/^\d{1,3}\s/` of `scoreLine`. -/
def QTY_LEAD : RE := rcat [.bos, repN rdigit 1 3, rws]

/-- `String.prototype.split(MULTI_COLUMN)` where `MULTI_COLUMN = /\s{2,}|\t/`:
a separator is a maximal whitespace run of length ≥ 2, or a lone tab.  The
`inSep` flag consumes the rest of a run already recognised as a separator
(the greedy `\s{2,}`). -/
def splitMCGo : Bool → Str → Str → List Str
  | _, acc, [] => [acc.reverse]
  | inSep, acc, c :: rest =>
    if inSep && isWsC c then splitMCGo true acc rest
    else if isWsC c && (match rest with | d :: _ => isWsC d | [] => false) then
      acc.reverse :: splitMCGo true [] rest
    else if c = '\t' then acc.reverse :: splitMCGo false [] rest
    else splitMCGo false (c :: acc) rest

/-- `line.split(/\s{2,}|\t/)`. -/
def splitMC (s : Str) : List Str := splitMCGo false [] s

/-- The scoring criteria pushed by `LineScorer.scoreLine` (string constants
in the source, modelled as a closed enumeration). -/
inductive Crit where
  | TOO_SHORT | IS_TOTAL | IS_HEADER | NOISE_KEYWORD
  | EAN_FULL | EAN_TRUNCATED | REF_DASH | REF_NUMERIC | INDEX_NUMERIC
  | HAS_PERCENTAGE | HAS_MULTIPLE_AMOUNTS | HAS_AMOUNT | HAS_QUANTITY
  | MULTI_COLUMN_4PLUS | MULTI_COLUMN_3 | ADJACENT_PRODUCT
  | fallback
deriving DecidableEq

/-- `ILineScore`. -/
structure ILineScore where
  line : Str
  lineIndex : Nat
  score : Int
  criteria : List Crit
  isProductLine : Bool
deriving DecidableEq

/-- `ILineScorerConfig`. -/
structure ILineScorerConfig where
  threshold : Int
  noiseKeywords : List Str
deriving DecidableEq

/-- `DEFAULT_CONFIG` of the line scorer. -/
def DEFAULT_CONFIG : ILineScorerConfig :=
  ⟨3, ["total a reporter".data, "total à reporter".data, "net à payer".data,
    "net a payer".data, "arrêtée la présente".data, "arretee la presente".data,
    "somme toutes taxes".data]⟩

/-- Structure and context blocks of `scoreLine` (lines 406–434): the
multi-column and adjacent-line criteria carry no early exit; the final
record compares the accumulated score against the threshold. -/
def scoreFinish (cfg : ILineScorerConfig) (line : Str) (lineIndex : Nat)
    (allLines : List Str) (score3 : Int) (criteria3 : List Crit) : ILineScore :=
  let cols := ((splitMC line).filter (fun c => !(jsTrim c).isEmpty)).length
  let score4 := if cols ≥ 4 then score3 + 2
    else if cols ≥ 3 then score3 + 1 else score3
  let criteria4 := if cols ≥ 4 then criteria3 ++ [.MULTI_COLUMN_4PLUS]
    else if cols ≥ 3 then criteria3 ++ [.MULTI_COLUMN_3] else criteria3
  let prevLine := if lineIndex = 0 then []
    else (allLines.get? (lineIndex - 1)).getD []
  let nextLine := (allLines.get? (lineIndex + 1)).getD []
  let adj := EAN_FULL prevLine || EAN_FULL nextLine
  let score5 := if adj then score4 + 1 else score4
  let criteria5 := if adj then criteria4 ++ [.ADJACENT_PRODUCT] else criteria4
  ⟨line, lineIndex, score5, criteria5, decide (score5 ≥ cfg.threshold)⟩

/-- Quantity block of `scoreLine` (lines 393–399), with its early exit. -/
def scoreQty (cfg : ILineScorerConfig) (line : Str) (lineIndex : Nat)
    (allLines : List Str) (score2 : Int) (criteria2 : List Crit) : ILineScore :=
  let q := reTest QUANTITY_PATTERN line || reTest QTY_LEAD line
  let score3 := if q then score2 + 1 else score2
  let criteria3 := if q then criteria2 ++ [.HAS_QUANTITY] else criteria2
  if q && decide (score3 ≥ cfg.threshold) then
    ⟨line, lineIndex, score3, criteria3, true⟩
  else scoreFinish cfg line lineIndex allLines score3 criteria3

/-- Amount-count block of `scoreLine` (lines 380–390): two or more amounts
score +2 with an early exit, exactly one amount scores +1 without one. -/
def scoreAmounts (cfg : ILineScorerConfig) (line : Str) (lineIndex : Nat)
    (allLines : List Str) (score1 : Int) (criteria1 : List Crit) : ILineScore :=
  let amounts := (reFindAll AMOUNT_PATTERN line).length
  let score2 := if amounts ≥ 2 then score1 + 2
    else if amounts = 1 then score1 + 1 else score1
  let criteria2 := if amounts ≥ 2 then criteria1 ++ [.HAS_MULTIPLE_AMOUNTS]
    else if amounts = 1 then criteria1 ++ [.HAS_AMOUNT] else criteria1
  if amounts ≥ 2 && decide (score2 ≥ cfg.threshold) then
    ⟨line, lineIndex, score2, criteria2, true⟩
  else scoreQty cfg line lineIndex allLines score2 criteria2

/-- The tail of `scoreLine` from the `HAS_PERCENTAGE` block (lines 371–377)
on, entered with the score and criteria accumulated by the identifier
block; each early `return` of the source is an if-branch producing the
record directly. -/
def scoreRest (cfg : ILineScorerConfig) (line : Str) (lineIndex : Nat)
    (allLines : List Str) (score0 : Int) (criteria0 : List Crit) : ILineScore :=
  let p := reTest HAS_PERCENTAGE line
  let score1 := if p then score0 + 1 else score0
  let criteria1 := if p then criteria0 ++ [.HAS_PERCENTAGE] else criteria0
  if p && decide (score1 ≥ cfg.threshold) then
    ⟨line, lineIndex, score1, criteria1, true⟩
  else scoreAmounts cfg line lineIndex allLines score1 criteria1

/-- `LineScorer.scoreLine` (lines 296–435): negative fast rejections, then
the mutually exclusive identifier chain with its early exits, then the
remaining criteria via `scoreRest`. -/
def scoreLine (cfg : ILineScorerConfig) (line : Str) (lineIndex : Nat)
    (allLines : List Str) : ILineScore :=
  let th := cfg.threshold
  if line.length < 10 then ⟨line, lineIndex, -10, [.TOO_SHORT], false⟩
  else if reTest IS_TOTAL line then ⟨line, lineIndex, -10, [.IS_TOTAL], false⟩
  else if reTest IS_HEADER line && !reTest AMOUNT_PATTERN line then
    ⟨line, lineIndex, -10, [.IS_HEADER], false⟩
  else if cfg.noiseKeywords.any (fun kw => containsSub (lowStr line) (lowStr kw)) then
    ⟨line, lineIndex, -10, [.NOISE_KEYWORD], false⟩
  else if EAN_FULL line then
    (if (3 : Int) ≥ th then ⟨line, lineIndex, 3, [.EAN_FULL], true⟩
     else scoreRest cfg line lineIndex allLines 3 [.EAN_FULL])
  else if EAN_TRUNCATED line then
    scoreRest cfg line lineIndex allLines 2 [.EAN_TRUNCATED]
  else if reTest REF_DASH line then
    (if (3 : Int) ≥ th then ⟨line, lineIndex, 3, [.REF_DASH], true⟩
     else scoreRest cfg line lineIndex allLines 3 [.REF_DASH])
  else if reTest REF_NUMERIC line then
    (if (3 : Int) ≥ th then ⟨line, lineIndex, 3, [.REF_NUMERIC], true⟩
     else scoreRest cfg line lineIndex allLines 3 [.REF_NUMERIC])
  else if reTest INDEX_NUMERIC line then
    scoreRest cfg line lineIndex allLines 1 [.INDEX_NUMERIC]
  else scoreRest cfg line lineIndex allLines 0 []

/-- Loop body of `LineScorer.scoreAllLines`: skip blank lines, score the
trimmed line at its original index against the full line array. -/
def scoreAllGo (cfg : ILineScorerConfig) (all : List Str) :
    Nat → List Str → List ILineScore
  | _, [] => []
  | i, l :: rest =>
    let line := jsTrim l
    if line.isEmpty then scoreAllGo cfg all (i + 1) rest
    else scoreLine cfg line i all :: scoreAllGo cfg all (i + 1) rest

/-- `LineScorer.scoreAllLines`. -/
def scoreAllLines (cfg : ILineScorerConfig) (lines : List Str) : List ILineScore :=
  scoreAllGo cfg lines 0 lines

/-- `LineScorer.scoreLines`: only the lines meeting the threshold. -/
def scoreLines (cfg : ILineScorerConfig) (lines : List Str) : List ILineScore :=
  (scoreAllLines cfg lines).filter (·.isProductLine)

-- ═════════════════════════════════════════════════════════════════════════
-- ZoneDetector (src/src/shared/ocr/detection/zone-detector.ts lines 1–205)
-- ═════════════════════════════════════════════════════════════════════════

/-- `IDocumentZones`. -/
structure IDocumentZones where
  headerEnd : Int
  tableStart : Int
  tableEnd : Int
  footerStart : Int
  headerText : Str
  tableText : Str
  footerText : Str
deriving DecidableEq

/-- `Array.prototype.slice(a, b)` on the line array (both bounds are
non-negative at every use below). -/
def sliceLines (lines : List Str) (a b : Int) : List Str :=
  (lines.drop a.toNat).take (b - a).toNat

/-- Phase 1 of `detectZones` (lines 54–78): the first non-blank line that is
a table header, a full EAN, or a dashed reference with an amount, yielding
`(headerEnd, tableStart)` as in the corresponding branch; `none` when the
loop falls through. -/
def zdPhase1 : Nat → List Str → Option (Int × Int)
  | _, [] => none
  | i, l :: rest =>
    let line := jsTrim l
    if line.isEmpty then zdPhase1 (i + 1) rest
    else if reTest TABLE_HEADER line then some ((i : Int), (i : Int) + 1)
    else if EAN_FULL line then some (max 0 ((i : Int) - 1), (i : Int))
    else if reTest REF_DASH line && reTest AMOUNT_PATTERN line then
      some (max 0 ((i : Int) - 1), (i : Int))
    else zdPhase1 (i + 1) rest

/-- Lines 103–108: how many of the (raw) lines `i … min(i+4, n) - 1` have no
amount. -/
def zdNoAmountCount (lines : List Str) (i : Nat) : Nat :=
  ((List.range' i (min (i + 4) lines.length - i)).filter
    (fun j => !reTest AMOUNT_PATTERN ((lines.get? j).getD []))).length

/-- Lines 111–117: the first `j` in `i … min(i+5, n) - 1` whose raw line
matches `FOOTER_START`. -/
def zdFooterJ (lines : List Str) (i : Nat) : Option Nat :=
  (List.range' i (min (i + 5) lines.length - i)).find?
    (fun j => reTest FOOTER_START ((lines.get? j).getD []))

/-- Phase 2 of `detectZones` (lines 90–120), iterating `i` from `tableStart`
with step fuel; yields `(tableEnd, footerStart)` when the loop breaks with a
footer found, `none` when it falls through (the gap heuristic only breaks
the loop when its inner scan found a footer keyword). -/
def zdPhase2 (lines : List Str) (tableStart : Int) : Nat → Nat → Option (Int × Int)
  | _, 0 => none
  | i, Nat.succ rem =>
    match lines.get? i with
    | none => none
    | some li =>
      let line := jsTrim li
      if line.isEmpty then zdPhase2 lines tableStart (i + 1) rem
      else if reTest FOOTER_START line then some ((i : Int) - 1, (i : Int))
      else if zdNoAmountCount lines i ≥ 3 ∧ (i : Int) > tableStart + 5 then
        match zdFooterJ lines i with
        | some j => some ((i : Int) - 1, (j : Int))
        | none => zdPhase2 lines tableStart (i + 1) rem
      else zdPhase2 lines tableStart (i + 1) rem

/-- The final range clamps of `detectZones` (lines 129–131). -/
def zdClamp (n ts te fs : Int) : Int × Int × Int :=
  let ts2 := max 0 (min ts (n - 1))
  let te2 := max ts2 (min te (n - 1))
  let fs2 := max (te2 + 1) (min fs n)
  (ts2, te2, fs2)

/-- `ZoneDetector.detectZones` (lines 41–142).  `Math.floor(totalLines*0.15)`
and `Math.floor(totalLines*0.85)` are modelled as `(3*n)/20` and `(17*n)/20`
on non-negative integers: for every line count below 2^49 the double
products round to a value with the same floor as the exact rationals
3n/20 and 17n/20. -/
def detectZones (text : Str) : IDocumentZones :=
  let lines := splitNl text
  let n : Int := lines.length
  let hets := match zdPhase1 0 lines with
    | some x => x
    | none => ((0 : Int), (0 : Int))
  let hets2 := if hets.2 = 0 then ((3 * n) / 20, (3 * n) / 20 + 1) else hets
  let ts := hets2.2
  let tefs := match zdPhase2 lines ts ts.toNat (lines.length + 1) with
    | some x => x
    | none => (n - 1, n)
  let tefs2 := if tefs.2 = n then ((17 * n) / 20 - 1, (17 * n) / 20) else tefs
  let r := zdClamp n ts tefs2.1 tefs2.2
  { headerEnd := hets2.1,
    tableStart := r.1,
    tableEnd := r.2.1,
    footerStart := r.2.2,
    headerText := joinNl (sliceLines lines 0 (hets2.1 + 1)),
    tableText := joinNl (sliceLines lines r.1 (r.2.1 + 1)),
    footerText := joinNl (lines.drop r.2.2.toNat) }

/-- Loop of `extractHeaderZone` (lines 153–166): collect raw lines until the
first line that looks like the table. -/
def ehzGo : List Str → List Str
  | [] => []
  | l :: rest =>
    let line := jsTrim l
    if EAN_FULL line then []
    else if reTest REF_DASH line && reTest AMOUNT_PATTERN line then []
    else if reTest TABLE_HEADER line then []
    else l :: ehzGo rest

/-- `ZoneDetector.extractHeaderZone`. -/
def extractHeaderZone (text : Str) : Str := joinNl (ehzGo (splitNl text))

/-- `ZoneDetector.extractTableLines`. -/
def extractTableLines (text : Str) : List Str :=
  let z := detectZones text
  let lines := splitNl text
  ((sliceLines lines z.tableStart (z.tableEnd + 1)).map jsTrim).filter
    (fun l => !l.isEmpty)

-- ═════════════════════════════════════════════════════════════════════════
-- C4: table/footer zone ordering
-- ═════════════════════════════════════════════════════════════════════════

/-- Whatever phases 1 and 2 produce, the final clamps order the ranges. -/
lemma zdClamp_ordered (n ts te fs : Int) :
    (zdClamp n ts te fs).1 ≤ (zdClamp n ts te fs).2.1 ∧
    (zdClamp n ts te fs).2.1 < (zdClamp n ts te fs).2.2 := by
  unfold zdClamp
  dsimp only
  exact ⟨le_max_left _ _,
    lt_of_lt_of_le (by omega) (le_max_left _ _)⟩

/-- C4: for every input text the zones returned by
`ZoneDetector.detectZones` satisfy `tableStart ≤ tableEnd < footerStart`, so
the table line-index range and the footer line-index range are disjoint,
including for empty and single-line texts: the final clamps force the
ordering regardless of what the two detection phases and the percentage
heuristics produced. -/
theorem claim4_zone_ranges_ordered (text : Str) :
    (detectZones text).tableStart ≤ (detectZones text).tableEnd ∧
    (detectZones text).tableEnd < (detectZones text).footerStart := by
  have h : ∃ n ts te fs,
      (detectZones text).tableStart = (zdClamp n ts te fs).1 ∧
      (detectZones text).tableEnd = (zdClamp n ts te fs).2.1 ∧
      (detectZones text).footerStart = (zdClamp n ts te fs).2.2 :=
    ⟨_, _, _, _, rfl, rfl, rfl⟩
  obtain ⟨n, ts, te, fs, h1, h2, h3⟩ := h
  rw [h1, h2, h3]
  exact zdClamp_ordered n ts te fs

-- ═════════════════════════════════════════════════════════════════════════
-- C8: the truncated-barcode criterion
-- ═════════════════════════════════════════════════════════════════════════

/-- Length of the leading digit run of a line. -/
def leadDigits (l : Str) : Nat := (l.takeWhile Char.isDigit).length

/-- `take k` is all digits of full length `k` exactly when `k` does not
exceed the leading digit run. -/
lemma take_all_digit_iff (l : Str) : ∀ k : Nat,
    (((l.take k).length = k) ∧ (l.take k).all Char.isDigit = true) ↔
      k ≤ leadDigits l := by
  induction l with
  | nil =>
    intro k
    simp [leadDigits, Nat.le_zero, eq_comm]
  | cons c t ih =>
    intro k
    cases k with
    | zero => simp
    | succ j =>
      by_cases hc : Char.isDigit c = true
      · simpa [leadDigits, List.takeWhile_cons, hc, List.take_succ_cons,
          Nat.succ_le_succ_iff] using ih j
      · simp [leadDigits, List.takeWhile_cons, hc, List.take_succ_cons]

/-- Positions strictly inside the leading digit run hold digits. -/
lemma get_of_lt_leadDigits (l : Str) : ∀ k : Nat, k < leadDigits l →
    ∃ c, l[k]? = some c ∧ Char.isDigit c = true := by
  induction l with
  | nil => intro k h; simp [leadDigits] at h
  | cons c t ih =>
    intro k h
    by_cases hc : Char.isDigit c = true
    · cases k with
      | zero => exact ⟨c, by simp, hc⟩
      | succ j =>
        have hj : j < leadDigits t := by
          simp [leadDigits, List.takeWhile_cons, hc] at h ⊢
          omega
        simpa using ih j hj
    · simp [leadDigits, List.takeWhile_cons, hc] at h

/-- Whitespace characters are not digits. -/
lemma ws_not_digit (c : Char) (h : isWsC c = true) : Char.isDigit c = false := by
  simp [isWsC] at h
  rcases h with (((((h | h) | h) | h) | h) | h) | h <;> subst h <;> decide

/-- `wsThenAsciiLetter` demands at least the leading whitespace. -/
lemma wsThenAsciiLetter_headIsWs (r : Str) (h : wsThenAsciiLetter r = true) :
    headIsWs r = true := by
  unfold wsThenAsciiLetter at h
  exact (Bool.and_eq_true _ _).mp h |>.1

/-- The anchored digit-count alternation matches exactly when the leading
digit run itself has length in `[lo, hi]` and the suffix condition holds
right after it — provided the suffix condition forces a whitespace (hence
non-digit) next character, which pins the matched count to the full run. -/
lemma matchDigitsThen_iff (lo hi : Nat) (after : Str → Bool)
    (hws : ∀ r, after r = true → headIsWs r = true) (l : Str) :
    matchDigitsThen lo hi after l = true ↔
      (lo ≤ leadDigits l ∧ leadDigits l ≤ hi ∧
        after (l.drop (leadDigits l)) = true) := by
  unfold matchDigitsThen
  rw [List.any_eq_true]
  constructor
  · rintro ⟨k, hk, hp⟩
    rw [List.mem_range'] at hk
    obtain ⟨i, hi2, hik⟩ := hk
    simp only [Bool.and_eq_true, decide_eq_true_eq] at hp
    obtain ⟨⟨hlen, hall⟩, haft⟩ := hp
    have hkm : k ≤ leadDigits l := (take_all_digit_iff l k).mp ⟨hlen, hall⟩
    have hmk : leadDigits l ≤ k := by
      by_contra hlt
      push_neg at hlt
      obtain ⟨c, hg, hd⟩ := get_of_lt_leadDigits l k hlt
      have hw := hws _ haft
      unfold headIsWs at hw
      cases hdk : l.drop k with
      | nil => rw [hdk] at hw; simp at hw
      | cons d rest =>
        rw [hdk] at hw
        have hhd : l[k]? = some d := by
          have h2 := List.head?_drop l k
          rw [hdk] at h2
          simpa using h2.symm
        rw [hg] at hhd
        have hcd : c = d := by simpa using hhd
        subst hcd
        rw [ws_not_digit c hw] at hd
        exact Bool.noConfusion hd
    have hEq : k = leadDigits l := le_antisymm hkm hmk
    subst hEq
    exact ⟨by omega, by omega, haft⟩
  · rintro ⟨h1, h2, h3⟩
    refine ⟨leadDigits l, ?_, ?_⟩
    · rw [List.mem_range']
      exact ⟨leadDigits l - lo, by omega, by omega⟩
    · simp only [Bool.and_eq_true, decide_eq_true_eq]
      exact ⟨(take_all_digit_iff l _).mpr le_rfl, h3⟩

/-- The spec's wording of the truncated-barcode shape: a leading digit run
of exactly 6 or 7 digits followed by whitespace and an ASCII letter
(this is the definition to be compared with the source patterns). -/
def specTruncBarcode67 (l : Str) : Bool :=
  (leadDigits l = 6 || leadDigits l = 7) &&
    wsThenAsciiLetter (l.drop (leadDigits l))

/-- A line matches `EAN_TRUNCATED` but not `EAN_FULL` exactly when its
leading digit run has length 6 or 7 and is followed by whitespace and a
letter. -/
lemma trunc_not_full_iff (l : Str) :
    (EAN_TRUNCATED l = true ∧ EAN_FULL l = false) ↔
      specTruncBarcode67 l = true := by
  unfold EAN_TRUNCATED EAN_FULL specTruncBarcode67
  rw [matchDigitsThen_iff 6 13 wsThenAsciiLetter wsThenAsciiLetter_headIsWs l]
  rw [show (matchDigitsThen 8 14 headIsWs l = false) ↔
      ¬(matchDigitsThen 8 14 headIsWs l = true) by simp]
  rw [matchDigitsThen_iff 8 14 headIsWs (fun _ h => h) l]
  simp only [Bool.and_eq_true, Bool.or_eq_true, decide_eq_true_eq]
  constructor
  · rintro ⟨⟨h6, h13, hA⟩, hn⟩
    have hW := wsThenAsciiLetter_headIsWs _ hA
    have h8 : ¬(8 ≤ leadDigits l) := fun h8 => hn ⟨h8, by omega, hW⟩
    exact ⟨by omega, hA⟩
  · rintro ⟨h67, hA⟩
    refine ⟨⟨by omega, by omega, hA⟩, ?_⟩
    rintro ⟨h8, -, -⟩
    omega

/-- The four fast-rejection conditions of `scoreLine` (too short, total
line, header line without amounts, noise keyword). -/
def scoreFastReject (cfg : ILineScorerConfig) (line : Str) : Bool :=
  decide (line.length < 10) || reTest IS_TOTAL line ||
    (reTest IS_HEADER line && !reTest AMOUNT_PATTERN line) ||
    cfg.noiseKeywords.any (fun kw => containsSub (lowStr line) (lowStr kw))

/-- The criteria accumulated after the identifier block only ever append
criteria other than `EAN_TRUNCATED`, so membership of `EAN_TRUNCATED` in the
final list is decided by the identifier block alone. -/
lemma scoreFinish_trunc_mem (cfg : ILineScorerConfig) (line : Str) (i : Nat)
    (all : List Str) (s0 : Int) (c0 : List Crit) :
    (Crit.EAN_TRUNCATED ∈ (scoreFinish cfg line i all s0 c0).criteria ↔
      Crit.EAN_TRUNCATED ∈ c0) := by
  unfold scoreFinish
  dsimp only
  repeat' split
  all_goals simp [List.mem_append]

lemma scoreQty_trunc_mem (cfg : ILineScorerConfig) (line : Str) (i : Nat)
    (all : List Str) (s0 : Int) (c0 : List Crit) :
    (Crit.EAN_TRUNCATED ∈ (scoreQty cfg line i all s0 c0).criteria ↔
      Crit.EAN_TRUNCATED ∈ c0) := by
  unfold scoreQty
  dsimp only
  repeat' split
  all_goals simp [List.mem_append, scoreFinish_trunc_mem]

lemma scoreAmounts_trunc_mem (cfg : ILineScorerConfig) (line : Str) (i : Nat)
    (all : List Str) (s0 : Int) (c0 : List Crit) :
    (Crit.EAN_TRUNCATED ∈ (scoreAmounts cfg line i all s0 c0).criteria ↔
      Crit.EAN_TRUNCATED ∈ c0) := by
  unfold scoreAmounts
  dsimp only
  repeat' split
  all_goals simp [List.mem_append, scoreQty_trunc_mem]

/-- The criteria accumulated after the identifier block only ever append
criteria other than `EAN_TRUNCATED`, so membership of `EAN_TRUNCATED` in the
final list is decided by the identifier block alone. -/
lemma scoreRest_trunc_mem (cfg : ILineScorerConfig) (line : Str) (i : Nat)
    (all : List Str) (s0 : Int) (c0 : List Crit) :
    (Crit.EAN_TRUNCATED ∈ (scoreRest cfg line i all s0 c0).criteria ↔
      Crit.EAN_TRUNCATED ∈ c0) := by
  unfold scoreRest
  dsimp only
  repeat' split
  all_goals simp [List.mem_append, scoreAmounts_trunc_mem]

/-- C8: `LineScorer.scoreLine` awards the `EAN_TRUNCATED` criterion exactly
to lines that pass the four fast rejections, do not match the full 8–14
digit barcode pattern, and do match the truncated pattern; on that branch
the identifier block contributes exactly +2 and hands score 2 with criteria
`[EAN_TRUNCATED]` to the remaining blocks; and a line matches the truncated
but not the full pattern precisely when its leading digit run has 6 or 7
digits followed by whitespace and a letter. -/
theorem claim8_truncated_barcode_bonus (cfg : ILineScorerConfig) (line : Str)
    (i : Nat) (all : List Str) :
    (Crit.EAN_TRUNCATED ∈ (scoreLine cfg line i all).criteria ↔
      (scoreFastReject cfg line = false ∧ EAN_FULL line = false ∧
        EAN_TRUNCATED line = true)) ∧
    (scoreFastReject cfg line = false → EAN_FULL line = false →
      EAN_TRUNCATED line = true →
      scoreLine cfg line i all =
        scoreRest cfg line i all 2 [Crit.EAN_TRUNCATED]) ∧
    ((EAN_TRUNCATED line = true ∧ EAN_FULL line = false) ↔
      specTruncBarcode67 line = true) := by
  refine ⟨?_, ?_, trunc_not_full_iff line⟩
  · by_cases hlen : line.length < 10
    · simp [scoreLine, scoreFastReject, hlen]
    · by_cases htot : reTest IS_TOTAL line = true
      · simp [scoreLine, scoreFastReject, hlen, htot]
      · by_cases hhdr : (reTest IS_HEADER line && !reTest AMOUNT_PATTERN line) = true
        · simp [scoreLine, scoreFastReject, hlen, htot, hhdr]
        · by_cases hnoise :
              cfg.noiseKeywords.any
                (fun kw => containsSub (lowStr line) (lowStr kw)) = true
          · simp [scoreLine, scoreFastReject, hlen, htot, hhdr, hnoise]
          · by_cases hfull : EAN_FULL line = true
            · by_cases h3 : (3 : Int) ≥ cfg.threshold
              · simp [scoreLine, scoreFastReject, hlen, htot, hhdr, hnoise,
                  hfull, h3]
              · simp [scoreLine, scoreFastReject, hlen, htot, hhdr, hnoise,
                  hfull, h3, scoreRest_trunc_mem]
            · by_cases htr : EAN_TRUNCATED line = true
              · simp [scoreLine, scoreFastReject, hlen, htot, hhdr, hnoise,
                  hfull, htr, scoreRest_trunc_mem]
              · by_cases hrd : reTest REF_DASH line = true
                · by_cases h3 : (3 : Int) ≥ cfg.threshold <;>
                    simp [scoreLine, scoreFastReject, hlen, htot, hhdr, hnoise,
                      hfull, htr, hrd, h3, scoreRest_trunc_mem]
                · by_cases hrn : reTest REF_NUMERIC line = true
                  · by_cases h3 : (3 : Int) ≥ cfg.threshold <;>
                      simp [scoreLine, scoreFastReject, hlen, htot, hhdr,
                        hnoise, hfull, htr, hrd, hrn, h3, scoreRest_trunc_mem]
                  · by_cases hin : reTest INDEX_NUMERIC line = true <;>
                      simp [scoreLine, scoreFastReject, hlen, htot, hhdr,
                        hnoise, hfull, htr, hrd, hrn, hin, scoreRest_trunc_mem]
  · intro h1 h2 h3
    simp only [scoreFastReject, Bool.or_eq_false_iff,
      decide_eq_false_iff_not] at h1
    obtain ⟨⟨⟨hlen, htot⟩, hhdr⟩, hnoise⟩ := h1
    simp [scoreLine, hlen, htot, hhdr, hnoise, h2, h3]

/-- Concrete instantiation of the C8 theorem: the line
`"123456 Product 2 x 10.00"` passes the fast rejections, is not a full
barcode, is a truncated one, and is scored through the `EAN_TRUNCATED`
branch with base score 2. -/
theorem claim8_witness :
    scoreFastReject DEFAULT_CONFIG "123456 Product 2 x 10.00".data = false ∧
    EAN_FULL "123456 Product 2 x 10.00".data = false ∧
    EAN_TRUNCATED "123456 Product 2 x 10.00".data = true ∧
    scoreLine DEFAULT_CONFIG "123456 Product 2 x 10.00".data 0 [] =
      scoreRest DEFAULT_CONFIG "123456 Product 2 x 10.00".data 0 [] 2
        [Crit.EAN_TRUNCATED] :=
  ⟨by decide, by decide, by decide,
    (claim8_truncated_barcode_bonus DEFAULT_CONFIG
        "123456 Product 2 x 10.00".data 0 []).2.1
      (by decide) (by decide) (by decide)⟩

-- ═════════════════════════════════════════════════════════════════════════
-- Invoice line data model (supplier-invoice.models + part_008)
-- ═════════════════════════════════════════════════════════════════════════

/-- The `_extractionMethod` string constants, as a closed enumeration. -/
inductive EMethod where
  | barcode | extended | with_discount | full | simple | fallback
  | detected_only
  | loose_extended_ocr | loose_code_amounts | loose_qty_price
  | loose_multi_numbers
deriving DecidableEq

/-- The `_corruptionReason` string constants, as a closed enumeration. -/
inductive CorruptReason where
  | suspicious_reference | corrupted_designation | too_many_special_chars
  | reference_ocr_artifacts | garbled_designation | ocr_artifacts_in_source
  | ocr_unreadable | ocr_artifacts | parsing_failed | partial_reference
  | structure_unrecognized
deriving DecidableEq

/-- `ILineFieldConfidence`. -/
structure ILineFieldConfidence where
  reference : Q
  designation : Q
  quantity : Q
  unitPrice : Q
  total : Q
deriving DecidableEq

/-- `IInvoiceLine`.  JavaScript `string | null` fields are `Option Str`
(`none` = `null`; note the empty string is also falsy and the code tests
these fields for truthiness, cf. `strTruthy`); `number | null` fields are
`Option Q`.  `_isCorrupted`/`_corruptionReason` are left `false`/`none`
where the source leaves them `undefined` (both read back as falsy). -/
structure IInvoiceLine where
  reference : Option Str
  designation : Option Str
  quantity : Option Q
  unit : Option Str
  unitPriceHT : Option Q
  discountRate : Option Q
  totalHT : Option Q
  vatRate : Q
  _rawText : Str
  _confidence : ILineFieldConfidence
  _needsReview : Bool
  _lineIndex : Nat
  _extractionMethod : EMethod
  _isCorrupted : Bool
  _corruptionReason : Option CorruptReason
deriving DecidableEq

/-- JavaScript truthiness of a `string | null` value. -/
def strTruthy : Option Str → Bool
  | some s => !s.isEmpty
  | none => false

/-- JavaScript `a || b` on strings (empty string is falsy). -/
def jsOrStr (a b : Str) : Str := if a.isEmpty then b else a

/-- Decimal rendering of a natural number (for the template strings
`Article (ligne N)`). -/
def natToStrGo : Nat → Nat → Str → Str
  | 0, _, acc => acc
  | Nat.succ fuel, n, acc =>
    if n = 0 then acc
    else natToStrGo fuel (n / 10) (Char.ofNat (48 + n % 10) :: acc)

/-- `String(n)` for a natural number. -/
def natToStr (n : Nat) : Str :=
  if n = 0 then ['0'] else natToStrGo (n + 1) n []

/-- `String.prototype.replace(needle, '')` for a plain-string needle:
removes the first occurrence. -/
def removeFirstSub : Str → Str → Str
  | hay, needle =>
    if startsList hay needle then hay.drop needle.length
    else
      match hay with
      | [] => []
      | c :: t => c :: removeFirstSub t needle

/-- `DEFAULT_CONFIDENCE` (part_008 lines 38–44). -/
def DEFAULT_CONFIDENCE : ILineFieldConfidence := ⟨0, 0, 0, 0, 0⟩

/-- `LOOSE_CONFIDENCE` (loose-fallback lines 8–14). -/
def LOOSE_CONFIDENCE : ILineFieldConfidence :=
  ⟨⟨2, 5⟩, ⟨1, 2⟩, ⟨3, 5⟩, ⟨3, 5⟩, ⟨1, 2⟩⟩

/-- `split(/\s{2,}/)`: like `splitMC` but without the tab alternative. -/
def splitWs2Go : Bool → Str → Str → List Str
  | _, acc, [] => [acc.reverse]
  | inSep, acc, c :: rest =>
    if inSep && isWsC c then splitWs2Go true acc rest
    else if isWsC c && (match rest with | d :: _ => isWsC d | [] => false) then
      acc.reverse :: splitWs2Go true [] rest
    else splitWs2Go false (c :: acc) rest

/-- `String.prototype.split(/\s{2,}/)`. -/
def splitWs2 (s : Str) : List Str := splitWs2Go false [] s

/-- `split(/\s+/)`: every maximal whitespace run separates. -/
def splitWsPGo : Bool → Str → Str → List Str
  | _, acc, [] => [acc.reverse]
  | inSep, acc, c :: rest =>
    if isWsC c then
      (if inSep then splitWsPGo true acc rest
       else acc.reverse :: splitWsPGo true [] rest)
    else splitWsPGo false (c :: acc) rest

/-- `String.prototype.split(/\s+/)`. -/
def splitWsP (s : Str) : List Str := splitWsPGo false [] s

-- ═════════════════════════════════════════════════════════════════════════
-- LineItemExtractor: corruption/suspicion detection (part_008 lines 206–399)
-- ═════════════════════════════════════════════════════════════════════════

/-- The class `[=\[\]{}|\\<>@#$%^&*]` (designation lead). -/
def suspLeadChar (c : Char) : Bool :=
  c = '=' || c = '[' || c = ']' || c = '\x7b' || c = '\x7d' || c = '|' ||
  c = '\\' || c = '<' || c = '>' || c = '@' || c = '#' || c = '$' ||
  c = '%' || c = '^' || c = '&' || c = '*'

/-- The class `[=\[\]{}|\\<>@#$%^&*()]` (special-character census). -/
def suspChar (c : Char) : Bool := suspLeadChar c || c = '(' || c = ')'

/-- The class `[=\[\]{}|\\]` (raw-text OCR artifacts). -/
def artifactChar (c : Char) : Bool :=
  c = '=' || c = '[' || c = ']' || c = '\x7b' || c = '\x7d' || c = '|' ||
  c = '\\'

/-- `/^\d+$/`. -/
def ALL_DIGITS : RE := rcat [.bos, rplus rdigit, .eos]

/-- `/\.\d+\.[A-Z]+\.\d+/i` (garbled multi-dot designation). -/
def GARBLED : RE :=
  rcat [rchr '.', rplus rdigit, rchr '.', rplus (.cls isAsciiLetter),
    rchr '.', rplus rdigit]

/-- `LineItemExtractor.#detectSuspiciousExtraction` (lines 246–282); the
result is the reason, `none` meaning not suspicious.  The `/g`-census of
special characters is a per-character count.  -/
def detectSuspiciousExtraction (line : IInvoiceLine) : Option CorruptReason :=
  let ref := line.reference.getD []
  let designation := line.designation.getD []
  if !ref.isEmpty && decide (ref.length ≤ 2) && !reTest ALL_DIGITS ref then
    some .suspicious_reference
  else if !designation.isEmpty &&
      (match designation with | c :: _ => suspLeadChar c | [] => false) then
    some .corrupted_designation
  else if !designation.isEmpty && decide ((designation.filter suspChar).length > 2) then
    some .too_many_special_chars
  else if !ref.isEmpty && ref.any suspChar then
    some .reference_ocr_artifacts
  else if !designation.isEmpty && reTest GARBLED designation then
    some .garbled_designation
  else if !line._rawText.isEmpty && line._rawText.any artifactChar &&
      !decide (line._extractionMethod = .barcode) then
    some .ocr_artifacts_in_source
  else none

/-- `LineItemExtractor.#markCorruptionIfSuspicious` (lines 226–239). -/
def markCorruptionIfSuspicious (line : IInvoiceLine) : IInvoiceLine :=
  match detectSuspiciousExtraction line with
  | some r =>
    { line with
        _needsReview := true
        _isCorrupted := true
        _corruptionReason := some r }
  | none => line

/-- `LineItemExtractor.#calculateConfidence` (lines 642–656). -/
def calculateConfidence (reference designation : Option Str)
    (quantity unitPrice total : Q) : ILineFieldConfidence :=
  { reference :=
      if strTruthy reference && decide ((reference.getD []).length ≥ 4) then ⟨9, 10⟩
      else if strTruthy reference then ⟨3, 5⟩ else 0,
    designation :=
      if strTruthy designation && decide ((designation.getD []).length ≥ 3) then ⟨17, 20⟩
      else if strTruthy designation then ⟨1, 2⟩ else 0,
    quantity := if quantity > 0 then ⟨9, 10⟩ else 0,
    unitPrice := if unitPrice > 0 then ⟨9, 10⟩ else 0,
    total := if total > 0 then ⟨9, 10⟩
      else if quantity > 0 ∧ unitPrice > 0 then ⟨7, 10⟩ else 0 }

/-- `/^([A-Z0-9]{3,15})\s/i` of `#extractReference`. -/
def EXTRACT_REF : RE := rcat [.bos, .grp 0 (repN (.cls isAlnumI) 3 15), rws]

/-- `LineItemExtractor.#extractReference` (lines 661–664). -/
def extractReference (designation : Str) : Option Str :=
  match reSearch EXTRACT_REF 1 designation with
  | some m => some ((mGrpD m 1).map upChar)
  | none => none

/-- `/^(\d{6,14})/` of `#createEmptyLine`. -/
def EMPTY_EAN : RE := rcat [.bos, .grp 0 (repN rdigit 6 14)]

/-- `/^([A-Z0-9]{1,5}[-\s][A-Z0-9]+)/i` of `#createEmptyLine`. -/
def EMPTY_REF : RE :=
  rcat [.bos, .grp 0 (rcat [repN (.cls isAlnumI) 1 5,
    .cls (fun c => c = '-' || isWsC c), rplus (.cls isAlnumI)])]

/-- `/\d{2,}\.\d{2}\.\d{2}/` (concatenated decimals). -/
def MULTI_DEC : RE :=
  rcat [repMin rdigit 2, rchr '.', repN rdigit 2 2, rchr '.', repN rdigit 2 2]

/-- `/[a-z]{1,2}\s*\d{3,}/i` (garbled start). -/
def GARBLE_START : RE :=
  rcat [repN (.cls isAsciiLetter) 1 2, rstar rws, repMin rdigit 3]

/-- `LineItemExtractor.#detectCorruption` (lines 336–399). -/
def detectCorruption (rawText : Str) (reference designation : Option Str) :
    Option CorruptReason :=
  let amounts := (reFindAll AMOUNT_PATTERN rawText).length
  let hasAmounts := decide (amounts > 0)
  let hasPercentage := reTest HAS_PERCENTAGE rawText
  let hasQuantity := reTest QUANTITY_PATTERN rawText || reTest QTY_LEAD rawText
  let hasOcrArtifacts := rawText.any artifactChar || reTest MULTI_DEC rawText ||
    reTest GARBLE_START (rawText.take 10)
  if (hasAmounts || hasPercentage) && hasQuantity &&
      (!strTruthy reference && !strTruthy designation) then
    some .ocr_unreadable
  else if (hasAmounts || hasPercentage) && hasQuantity && hasOcrArtifacts then
    some .ocr_artifacts
  else if (hasAmounts || hasPercentage) && hasQuantity && hasAmounts &&
      decide (amounts ≥ 2) then
    some .parsing_failed
  else if strTruthy reference && decide ((reference.getD []).length < 4) &&
      hasAmounts then
    some .partial_reference
  else if hasAmounts && hasPercentage && !strTruthy reference &&
      !strTruthy designation then
    some .structure_unrecognized
  else none

/-- `LineItemExtractor.#createEmptyLine` (lines 288–327). -/
def createEmptyLine (rawText : Str) (lineIndex : Nat) (vat : Q) :
    IInvoiceLine :=
  let refDes : Option Str × Option Str :=
    match reSearch EMPTY_EAN 1 rawText with
    | some m =>
      let d := (splitWs2 (jsTrim (rawText.drop m.mend))).headD []
      (some (mGrpD m 1), if d.isEmpty then none else some d)
    | none =>
      match reSearch EMPTY_REF 1 rawText with
      | some m =>
        let d := (splitWs2 (jsTrim (rawText.drop m.mend))).headD []
        (some (mGrpD m 1), if d.isEmpty then none else some d)
      | none => (none, none)
  let corruption := detectCorruption rawText refDes.1 refDes.2
  { reference := refDes.1,
    designation := refDes.2,
    quantity := none,
    unit := none,
    unitPriceHT := none,
    discountRate := none,
    totalHT := none,
    vatRate := vat,
    _rawText := rawText,
    _confidence := DEFAULT_CONFIDENCE,
    _needsReview := true,
    _lineIndex := lineIndex,
    _extractionMethod := .detected_only,
    _isCorrupted := corruption.isSome,
    _corruptionReason := corruption }

-- ═════════════════════════════════════════════════════════════════════════
-- LineItemExtractor: strict format strategies (part_008 lines 401–604)
-- ═════════════════════════════════════════════════════════════════════════

/-- `LineItemExtractor.#tryBarcodeFormat` (lines 405–437). -/
def tryBarcodeFormat (line : Str) (lineIndex : Nat) (vat : Q) :
    Option IInvoiceLine :=
  if !EAN_FULL line then none
  else
    match reSearch LINE_BARCODE 6 line with
    | none => none
    | some m =>
      let reference := mGrpD m 1
      let designation := jsTrim (mGrpD m 2)
      let quantity := parseNumber (mGrpD m 3)
      let unitPrice := parseNumber (cleanNumeric (mGrpD m 4))
      let discountPercent := parseNumber (mGrpD m 5)
      let total := parseNumber (cleanNumeric (mGrpD m 6))
      if quantity ≤ 0 ∧ unitPrice ≤ 0 then none
      else
        let calculatedTotal := if total > 0 then total
          else quantity * calculateNetPrice unitPrice discountPercent
        some
          { reference := some reference,
            designation := some designation,
            quantity := if quantity > 0 then some quantity else none,
            unit := none,
            unitPriceHT := if unitPrice > 0 then some unitPrice else none,
            discountRate := if discountPercent > 0 then
              some (discountPercent / 100) else none,
            totalHT := if calculatedTotal > 0 then some calculatedTotal else none,
            vatRate := vat,
            _rawText := line,
            _confidence := calculateConfidence (some reference)
              (some designation) quantity unitPrice total,
            _needsReview := decide (quantity ≤ 0) || decide (unitPrice ≤ 0) ||
              decide (total ≤ 0),
            _lineIndex := lineIndex,
            _extractionMethod := .barcode,
            _isCorrupted := false,
            _corruptionReason := none }

/-- `LineItemExtractor.#tryExtendedFormat` (lines 442–472). -/
def tryExtendedFormat (line : Str) (lineIndex : Nat) (vat : Q) :
    Option IInvoiceLine :=
  match reSearch LINE_EXTENDED 6 line with
  | none => none
  | some m =>
    let reference := jsTrim (mGrpD m 1)
    let designation := jsTrim (mGrpD m 2)
    let quantity := parseNumber (mGrpD m 3)
    let unitPrice := parseNumber (cleanNumeric (mGrpD m 4))
    let discountPercent := parseNumber (mGrpD m 5)
    let total := parseNumber (cleanNumeric (mGrpD m 6))
    if quantity ≤ 0 ∧ unitPrice ≤ 0 then none
    else
      let calculatedTotal := if total > 0 then total
        else quantity * calculateNetPrice unitPrice discountPercent
      some
        { reference := some reference,
          designation := some designation,
          quantity := if quantity > 0 then some quantity else none,
          unit := none,
          unitPriceHT := if unitPrice > 0 then some unitPrice else none,
          discountRate := if discountPercent > 0 then
            some (discountPercent / 100) else none,
          totalHT := if calculatedTotal > 0 then some calculatedTotal else none,
          vatRate := vat,
          _rawText := line,
          _confidence := calculateConfidence (some reference)
            (some designation) quantity unitPrice total,
          _needsReview := decide (quantity ≤ 0) || decide (unitPrice ≤ 0),
          _lineIndex := lineIndex,
          _extractionMethod := .extended,
          _isCorrupted := false,
          _corruptionReason := none }

/-- `LineItemExtractor.#tryWithDiscountFormat` (lines 477–505). -/
def tryWithDiscountFormat (line : Str) (lineIndex : Nat) (vat : Q) :
    Option IInvoiceLine :=
  match reSearch LINE_WITH_DISCOUNT 6 line with
  | none => none
  | some m =>
    let reference := jsTrim (mGrpD m 1)
    let designation := jsTrim (mGrpD m 2)
    let quantity := parseNumber (mGrpD m 3)
    let unitPrice := parseNumber (mGrpD m 4)
    let discountPercent := parseNumber (mGrpD m 5)
    let total := parseNumber (mGrpD m 6)
    if quantity ≤ 0 ∧ unitPrice ≤ 0 then none
    else
      some
        { reference := some reference,
          designation := some designation,
          quantity := if quantity > 0 then some quantity else none,
          unit := none,
          unitPriceHT := if unitPrice > 0 then some unitPrice else none,
          discountRate := if discountPercent > 0 then
            some (discountPercent / 100) else none,
          totalHT := some (if total > 0 then total
            else quantity * unitPrice * (1 - discountPercent / 100)),
          vatRate := vat,
          _rawText := line,
          _confidence := calculateConfidence (some reference)
            (some designation) quantity unitPrice total,
          _needsReview := decide (quantity ≤ 0) || decide (unitPrice ≤ 0),
          _lineIndex := lineIndex,
          _extractionMethod := .with_discount,
          _isCorrupted := false,
          _corruptionReason := none }

/-- `LineItemExtractor.#tryFullFormat` (lines 510–538). -/
def tryFullFormat (line : Str) (lineIndex : Nat) (vat : Q) :
    Option IInvoiceLine :=
  match reSearch LINE_FULL 5 line with
  | none => none
  | some m =>
    let quantity := parseNumber (mGrpD m 2)
    let unitPrice := parseNumber (mGrpD m 4)
    let total := parseNumber (mGrpD m 5)
    if quantity ≤ 0 ∧ unitPrice ≤ 0 then none
    else
      let designation := jsTrim (mGrpD m 1)
      let reference := extractReference designation
      some
        { reference := reference,
          designation := match reference with
            | some r => some (jsTrim (removeFirstSub designation r))
            | none => some designation,
          quantity := if quantity > 0 then some quantity else none,
          unit := match mGrp m 3 with
            | some u => if (lowStr u).isEmpty then none else some (lowStr u)
            | none => none,
          unitPriceHT := if unitPrice > 0 then some unitPrice else none,
          discountRate := none,
          totalHT := some (if total > 0 then total else quantity * unitPrice),
          vatRate := vat,
          _rawText := line,
          _confidence := calculateConfidence reference (some designation)
            quantity unitPrice total,
          _needsReview := decide (quantity ≤ 0) || decide (unitPrice ≤ 0),
          _lineIndex := lineIndex,
          _extractionMethod := .full,
          _isCorrupted := false,
          _corruptionReason := none }

/-- `LineItemExtractor.#trySimpleFormat` (lines 543–573). -/
def trySimpleFormat (line : Str) (lineIndex : Nat) (vat : Q) :
    Option IInvoiceLine :=
  match reSearch LINE_SIMPLE 2 line with
  | none => none
  | some m =>
    let quantity := parseNumber (mGrpD m 1)
    let unitPrice := parseNumber (mGrpD m 2)
    if quantity ≤ 0 ∨ unitPrice ≤ 0 then none
    else
      some
        { reference := none,
          designation := some ("Article (ligne ".data ++
            natToStr (lineIndex + 1) ++ ")".data),
          quantity := some quantity,
          unit := none,
          unitPriceHT := some unitPrice,
          discountRate := none,
          totalHT := some (quantity * unitPrice),
          vatRate := vat,
          _rawText := line,
          _confidence := ⟨0, ⟨3, 10⟩, ⟨4, 5⟩, ⟨4, 5⟩, ⟨7, 10⟩⟩,
          _needsReview := true,
          _lineIndex := lineIndex,
          _extractionMethod := .simple,
          _isCorrupted := false,
          _corruptionReason := none }

/-- `LineItemExtractor.#tryFallbackFormat` (lines 578–604). -/
def tryFallbackFormat (line : Str) (lineIndex : Nat) (vat : Q) :
    Option IInvoiceLine :=
  match reSearch LINE_FALLBACK 4 line with
  | none => none
  | some m =>
    let reference := jsTrim (mGrpD m 1)
    let designation := jsTrim (mGrpD m 2)
    let quantity := parseNumber (mGrpD m 3)
    let unitPrice := parseNumber (cleanNumeric (mGrpD m 4))
    if quantity ≤ 0 ∧ unitPrice ≤ 0 then none
    else
      some
        { reference := some reference,
          designation := some designation,
          quantity := if quantity > 0 then some quantity else none,
          unit := none,
          unitPriceHT := if unitPrice > 0 then some unitPrice else none,
          discountRate := none,
          totalHT := if quantity > 0 ∧ unitPrice > 0 then
            some (quantity * unitPrice) else none,
          vatRate := vat,
          _rawText := line,
          _confidence := calculateConfidence (some reference)
            (some designation) quantity unitPrice 0,
          _needsReview := true,
          _lineIndex := lineIndex,
          _extractionMethod := .fallback,
          _isCorrupted := false,
          _corruptionReason := none }

-- ═════════════════════════════════════════════════════════════════════════
-- LooseFallbackExtractor (loose-fallback.extractor.ts)
-- ═════════════════════════════════════════════════════════════════════════

/-- `/^([a-z0-9\-\.]{2,})\s+(.+?)\s+(\d+(?:[\.,]\d+)?)\s+([\d\s\.,\]\[\}\{\)\|f]+)\s*([\d\.\s]*%?)?\s*([\d\s\.,]*)?/i`
(strategy 1 of the loose extractor). -/
def LOOSE_EXTENDED : RE :=
  rcat [.bos, .grp 0 (repMin refClsI 2), rplus rws, .grp 1 (rplusL rdot),
    rplus rws, .grp 2 rnum, rplus rws,
    .grp 3 (rplus (.cls (fun c => c.isDigit || isWsC c || c = '.' || c = ',' ||
      c = ']' || c = '[' || c = '\x7d' || c = '\x7b' || c = ')' || c = '|' ||
      upChar c = 'F'))),
    rstar rws,
    ropt (.grp 4 (rcat [rstar (.cls (fun c => c.isDigit || c = '.' || isWsC c)),
      ropt (rchr '%')])),
    rstar rws,
    ropt (.grp 5 (rstar amtCls))]

/-- `/(\d+(?:[.,]\d+)?)\s*%/` (discount extraction). -/
def DISC_RE : RE := rcat [.grp 0 rnum, rstar rws, rchr '%']

/-- `/^([A-Z0-9][-A-Z0-9./]{2,20})\s+/i` (strategy 2 code). -/
def LOOSE_CODE : RE :=
  rcat [.bos, .grp 0 (rcat [.cls isAlnumI,
    repN (.cls (fun c => c = '-' || isAlnumI c || c = '.' || c = '/')) 2 20]),
    rplus rws]

/-- `/(\d+)\s*[xXÃ—]\s*(\d+(?:[.,]\d+)?)/` (strategy 3; the class contains
the literal characters `Ã` and `—`, a mojibake of `×` preserved as found in
the source). -/
def LOOSE_QTYX : RE :=
  rcat [.grp 0 (rplus rdigit), rstar rws,
    .cls (fun c => c = 'x' || c = 'X' || c = 'Ã' || c = '—'), rstar rws,
    .grp 1 rnum]

/-- `/^([A-Z0-9][-A-Z0-9.]{2,15})/i` (strategy 4 reference). -/
def LOOSE_REF : RE :=
  rcat [.bos, .grp 0 (rcat [.cls isAlnumI,
    repN (.cls (fun c => c = '-' || isAlnumI c || c = '.')) 2 15])]

/-- The class `[\d\s.,\-\/\\%]` replaced away when extracting bare text. -/
def numClass (c : Char) : Bool :=
  c.isDigit || isWsC c || c = '.' || c = ',' || c = '-' || c = '/' ||
  c = '\\' || c = '%'

/-- `replace(/[\d\s.,\-\/\\%]+/g, ' ')`: each maximal run of the class
becomes a single space. -/
def stripNumRunsGo : Bool → Str → Str
  | _, [] => []
  | inRun, c :: rest =>
    if numClass c then
      (if inRun then stripNumRunsGo true rest
       else ' ' :: stripNumRunsGo true rest)
    else c :: stripNumRunsGo false rest

/-- `line.replace(/[\d\s.,\-\/\\%]+/g, ' ')`. -/
def stripNumRuns (s : Str) : Str := stripNumRunsGo false s

/-- `LooseFallbackExtractor.#extractNumbers` (lines 256–260): all matches of
`/\d+(?:[.,]\d+)?/g`, parsed, positives kept. -/
def extractNumbers (text : Str) : List Q :=
  ((reFindAll rnum text).map (fun m => parseNumber (mTxt text m))).filter
    (fun n => n > 0)

/-- `LooseFallbackExtractor.#createLooseLine` (lines 265–303): always
`_needsReview = true` and `_isCorrupted = false`. -/
def createLooseLine (reference designation : Option Str)
    (quantity unitPrice discountPercent total : Q) (rawText : Str)
    (lineIndex : Nat) (vat : Q) (method : EMethod) : IInvoiceLine :=
  let conf : ILineFieldConfidence :=
    { reference := if !strTruthy reference then 0 else LOOSE_CONFIDENCE.reference,
      designation := if !strTruthy designation ||
          startsList (designation.getD []) "Article".data then ⟨3, 10⟩
        else LOOSE_CONFIDENCE.designation,
      quantity := if quantity ≤ 0 then 0 else LOOSE_CONFIDENCE.quantity,
      unitPrice := if unitPrice ≤ 0 then 0 else LOOSE_CONFIDENCE.unitPrice,
      total := if total ≤ 0 then 0 else LOOSE_CONFIDENCE.total }
  { reference := reference,
    designation := designation,
    quantity := if quantity > 0 then some quantity else none,
    unit := none,
    unitPriceHT := if unitPrice > 0 then some unitPrice else none,
    discountRate := if discountPercent > 0 then some (discountPercent / 100)
      else none,
    totalHT := if total > 0 then some total else none,
    vatRate := vat,
    _rawText := rawText,
    _confidence := conf,
    _needsReview := true,
    _lineIndex := lineIndex,
    _extractionMethod := method,
    _isCorrupted := false,
    _corruptionReason := none }

/-- `LooseFallbackExtractor.#tryExtendedOcrArtifacts` (lines 71–111). -/
def tryExtendedOcrArtifacts (line : Str) (lineIndex : Nat) (vat : Q) :
    Option IInvoiceLine :=
  match reSearch LOOSE_EXTENDED 6 line with
  | none => none
  | some m =>
    let r0 := jsTrim (mGrpD m 1)
    let reference := if r0.isEmpty then none else some r0
    let d0 := jsTrim (mGrpD m 2)
    let designation := if d0.isEmpty then none else some d0
    let quantity := parseNumber (jsOrStr (mGrpD m 3) "0".data)
    let unitPrice := parseNumber (cleanNumeric (jsOrStr (mGrpD m 4) "0".data))
    let discountStr := mGrpD m 5
    let totalStr := mGrpD m 6
    let discountPercent := match reSearch DISC_RE 1 discountStr with
      | some dm => parseNumber (mGrpD dm 1)
      | none => 0
    let total0 := parseNumber (cleanNumeric totalStr)
    let total := if total0 ≤ 0 ∧ quantity > 0 ∧ unitPrice > 0 then
        quantity * calculateNetPrice unitPrice discountPercent
      else total0
    if !strTruthy designation && !strTruthy reference then none
    else if quantity ≤ 0 ∧ unitPrice ≤ 0 then none
    else some (createLooseLine reference designation quantity unitPrice
      discountPercent total line lineIndex vat .loose_extended_ocr)

/-- `LooseFallbackExtractor.#tryCodeWithAmounts` (lines 117–168). -/
def tryCodeWithAmounts (line : Str) (lineIndex : Nat) (vat : Q) :
    Option IInvoiceLine :=
  match reSearch LOOSE_CODE 1 line with
  | none => none
  | some m =>
    let reference := mGrpD m 1
    let rest := line.drop m.mend
    let numbers := extractNumbers rest
    if numbers.length < 2 then none
    else
      let total := numbers.getLastD 0
      let priceOrQty := (numbers.get? (numbers.length - 2)).getD 0
      let qp : Q × Q :=
        if numbers.length ≥ 3 ∧ (numbers.headD 0) ≤ 100 ∧
            (numbers.headD 0).isInt then
          (numbers.headD 0, priceOrQty)
        else (1, priceOrQty)
      let firstNumberIndex := rest.findIdx? (·.isDigit)
      let designation : Option Str := match firstNumberIndex with
        | some k => if k > 0 then some (jsTrim (rest.take k)) else none
        | none => none
      let desArg : Str := match designation with
        | some d => jsOrStr d ("Article ".data ++ reference)
        | none => "Article ".data ++ reference
      let discountPercent := match reSearch DISC_RE 1 rest with
        | some dm => parseNumber (mGrpD dm 1)
        | none => 0
      some (createLooseLine (some reference) (some desArg) qp.1 qp.2
        discountPercent total line lineIndex vat .loose_code_amounts)

/-- `LooseFallbackExtractor.#tryMinimalQtyPrice` (lines 174–200). -/
def tryMinimalQtyPrice (line : Str) (lineIndex : Nat) (vat : Q) :
    Option IInvoiceLine :=
  match reSearch LOOSE_QTYX 2 line with
  | none => none
  | some m =>
    let quantity : Q := match jsParseInt (mGrpD m 1) with
      | some n => ⟨n, 1⟩
      | none => 0
    let unitPrice := parseNumber (mGrpD m 2)
    if quantity > 0 ∧ unitPrice > 0 then
      some (createLooseLine none
        (some ("Article (ligne ".data ++ natToStr (lineIndex + 1) ++ ")".data))
        quantity unitPrice 0 (quantity * unitPrice) line lineIndex vat
        .loose_qty_price)
    else none

/-- `LooseFallbackExtractor.#tryMultipleNumbers` (lines 206–251). -/
def tryMultipleNumbers (line : Str) (lineIndex : Nat) (vat : Q) :
    Option IInvoiceLine :=
  let numbers := extractNumbers line
  if numbers.length < 2 then none
  else
    let meaningfulNumbers := numbers.filter
      (fun n => n < 2000 ∨ n > 2100)
    if meaningfulNumbers.length < 2 then none
    else
      let total := meaningfulNumbers.getLastD 0
      let possibleQty := meaningfulNumbers.find?
        (fun n => n > 0 ∧ n ≤ 100 ∧ n.isInt)
      let quantity := possibleQty.getD 1
      let priceNumbers := (meaningfulNumbers.dropLast).filter (fun n => n > 10)
      let unitPrice := match priceNumbers with
        | [] => total / quantity
        | p :: ps => ps.foldl Q.qmax p
      let textOnly := jsTrim (stripNumRuns line)
      let designation := if textOnly.length ≥ 3 then textOnly
        else "Article (ligne ".data ++ natToStr (lineIndex + 1) ++ ")".data
      let reference : Option Str := match reSearch LOOSE_REF 1 line with
        | some rm => some (mGrpD rm 1)
        | none => none
      let discountPercent := match reSearch DISC_RE 1 line with
        | some dm => parseNumber (mGrpD dm 1)
        | none => 0
      some (createLooseLine reference (some designation) quantity unitPrice
        discountPercent total line lineIndex vat .loose_multi_numbers)

/-- `LooseFallbackExtractor.extract` (lines 41–64); only the line component
of the result is consumed by the caller. -/
def looseExtract (rawText : Str) (lineIndex : Nat) (vat : Q) :
    Option IInvoiceLine :=
  let trimmed := jsTrim rawText
  if trimmed.isEmpty ∨ trimmed.length < 10 then none
  else
    match tryExtendedOcrArtifacts trimmed lineIndex vat with
    | some r => some r
    | none =>
      match tryCodeWithAmounts trimmed lineIndex vat with
      | some r => some r
      | none =>
        match tryMinimalQtyPrice trimmed lineIndex vat with
        | some r => some r
        | none => tryMultipleNumbers trimmed lineIndex vat

-- ═════════════════════════════════════════════════════════════════════════
-- FragmentMerger (fragment-merger.ts)
-- ═════════════════════════════════════════════════════════════════════════

/-- Last character satisfies the predicate (`/[...]$/`). -/
def lastCharIs (p : Char → Bool) (s : Str) : Bool :=
  match s.getLast? with
  | some c => p c
  | none => false

/-- First character satisfies the predicate (`/^[...]/`). -/
def headCharIs (p : Char → Bool) (s : Str) : Bool :=
  match s with
  | c :: _ => p c
  | [] => false

/-- `FragmentMerger.isTruncatedLine` (lines 66–105). -/
def isTruncatedLine (line : Str) : Bool :=
  if line.isEmpty || decide (line.length < 10) then false
  else
    let trimmed := jsTrim line
    (EAN_FULL trimmed &&
      decide ((reFindAll AMOUNT_PATTERN trimmed).length < 2) &&
      (let lastWord := (splitWsP trimmed).getLastD []
       decide (lastWord.length < 4) || lastCharIs (fun c => !isAlnumI c) lastWord)) ||
    (reTest REF_DASH trimmed &&
      decide ((reFindAll AMOUNT_PATTERN trimmed).length < 1) &&
      !reTest HAS_PERCENTAGE trimmed) ||
    (lastCharIs (fun c => c = '.' || c = '-' || c = '/') trimmed &&
      decide (trimmed.length > 20) &&
      (EAN_FULL trimmed || reTest REF_DASH trimmed))

/-- `FragmentMerger.isFragment` (lines 114–154). -/
def isFragment (line : Str) : Bool :=
  if line.isEmpty || decide (line.length < 5) then false
  else
    let trimmed := jsTrim line
    if headCharIs (fun c => c = '-' || c = '.' || c = '/') trimmed &&
        reTest AMOUNT_PATTERN trimmed then true
    else if EAN_FULL trimmed then false
    else if reTest REF_DASH trimmed then false
    else if headCharIs (fun c => 'a' ≤ c && c ≤ 'z') trimmed &&
        reTest AMOUNT_PATTERN trimmed &&
        decide ((reFindAll AMOUNT_PATTERN trimmed).length ≥ 2) then true
    else if reTest QTY_LEAD trimmed && !EAN_FULL trimmed &&
        reTest AMOUNT_PATTERN trimmed then true
    else false

/-- Loop of `FragmentMerger.merge` (lines 38–54): merge a truncated line
with the following fragment (consuming both), otherwise keep the original
line. -/
def fmGo : List Str → List Str
  | [] => []
  | [l] => [l]
  | l :: l2 :: rest =>
    let current := jsTrim l
    let next := jsTrim l2
    if isTruncatedLine current && isFragment next then
      (current ++ ' ' :: next) :: fmGo rest
    else l :: fmGo (l2 :: rest)

/-- `FragmentMerger.merge` — the merged-line list. -/
def fragmentMerge (lines : List Str) : List Str := fmGo lines

-- ═════════════════════════════════════════════════════════════════════════
-- MultiLineDetector (multiline-detector.ts)
-- ═════════════════════════════════════════════════════════════════════════

/-- The part of a multi-line group that `process` consumes: the merged text,
the largest original index, and the number of grouped lines (confidence is
computed but never read by `process`). -/
structure MLGroup where
  merged : Str
  maxIdx : Nat
  count : Nat
deriving DecidableEq

/-- `MultiLineDetector.#startsWithIdentifier`. -/
def startsWithIdentifier (line : Str) : Bool :=
  EAN_FULL line || reTest REF_DASH line || reTest REF_NUMERIC line

/-- `MultiLineDetector.#hasAmounts`. -/
def hasAmounts (line : Str) : Bool :=
  decide ((reFindAll AMOUNT_PATTERN line).length ≥ 1)

/-- `MultiLineDetector.#hasCompleteData`. -/
def hasCompleteData (line : Str) : Bool :=
  startsWithIdentifier line && hasAmounts line

/-- `MultiLineDetector.#looksLikeDescription` (lines 257–268): the
`replace(/[\d\s.,\-\/\\%]+/g, '')` removes every character of the class. -/
def looksLikeDescription (line : Str) : Bool :=
  if decide ((jsTrim (line.filter (fun c => !numClass c))).length < 5) then false
  else if reTest IS_TOTAL line || reTest IS_HEADER line then false
  else true

/-- `MultiLineDetector.#looksLikeAmountsOnly` (lines 273–282): the joined
`/[\d.,\s%]+/g` matches are exactly the characters of the class, and the
float comparison `ratio > 0.6` agrees with the exact rational one for all
realistic line lengths. -/
def looksLikeAmountsOnly (line : Str) : Bool :=
  decide ((reFindAll AMOUNT_PATTERN line).length ≥ 2) &&
  (let numbersLength := (line.filter
      (fun c => c.isDigit || c = '.' || c = ',' || isWsC c || c = '%')).length
   decide (10 * numbersLength > 6 * line.length))

/-- `/\b(\d{3}|[A-Z]{2,3})\b/`. -/
def CONT_CODE : RE :=
  rcat [.wb true,
    .alt (repN rdigit 3 3) (repN (.cls (fun c => 'A' ≤ c && c ≤ 'Z')) 2 3),
    .wb true]

/-- `/^[A-Z0-9.\/\-\s]{3,15}$/`. -/
def MODEL_CODE : RE :=
  rcat [.bos,
    repN (.cls (fun c => ('A' ≤ c && c ≤ 'Z') || c.isDigit || c = '.' ||
      c = '/' || c = '-' || isWsC c)) 3 15,
    .eos]

/-- `MultiLineDetector.#looksLikeContinuation` (lines 287–301). -/
def looksLikeContinuation (line : Str) : Bool :=
  headCharIs (fun c => 'a' ≤ c && c ≤ 'z') line ||
  headCharIs (fun c => c = '-' || c = '.' || c = '/') line ||
  (decide (line.length < 20) && reTest CONT_CODE line) ||
  reTest MODEL_CODE line

/-- Lookahead loop of `#tryMergeFromIdentifier` (lines 131–165); the fuel
counts the remaining `j` iterations (`maxLookAhead = 3`).  `none` is
returned whenever the loop ends without finding an amounts line (breaks
included), matching the `!foundAmounts` guard. -/
def tmfiGo (lines : List Str) (startIndex : Nat) :
    Nat → Nat → List Str → Option MLGroup
  | 0, _, _ => none
  | Nat.succ fuel, j, acc =>
    match lines.get? (startIndex + j) with
    | none => none
    | some lj =>
      let nextLine := jsTrim lj
      if nextLine.isEmpty then tmfiGo lines startIndex fuel (j + 1) acc
      else if startsWithIdentifier nextLine && hasAmounts nextLine then none
      else if reTest IS_TOTAL nextLine || reTest IS_HEADER nextLine then none
      else
        let acc2 := acc ++ [nextLine]
        if hasAmounts nextLine then
          some ⟨List.intercalate [' '] acc2, startIndex + j, acc2.length⟩
        else tmfiGo lines startIndex fuel (j + 1) acc2

/-- `MultiLineDetector.#tryMergeFromIdentifier` (lines 125–178). -/
def tryMergeFromIdentifier (lines : List Str) (startIndex : Nat) :
    Option MLGroup :=
  tmfiGo lines startIndex 3 1 [jsTrim ((lines.get? startIndex).getD [])]

/-- Lookahead loop of `#tryMergeDescriptionWithAmounts` (lines 188–223). -/
def tmdaGo (lines : List Str) (startIndex : Nat) :
    Nat → Nat → List Str → Option MLGroup
  | 0, _, _ => none
  | Nat.succ fuel, j, acc =>
    match lines.get? (startIndex + j) with
    | none => none
    | some lj =>
      let nextLine := jsTrim lj
      if nextLine.isEmpty then tmdaGo lines startIndex fuel (j + 1) acc
      else if startsWithIdentifier nextLine && hasAmounts nextLine then none
      else if reTest IS_TOTAL nextLine then none
      else if looksLikeAmountsOnly nextLine then
        some ⟨List.intercalate [' '] (acc ++ [nextLine]), startIndex + j,
          (acc ++ [nextLine]).length⟩
      else if looksLikeContinuation nextLine then
        tmdaGo lines startIndex fuel (j + 1) (acc ++ [nextLine])
      else none

/-- `MultiLineDetector.#tryMergeDescriptionWithAmounts` (lines 183–226). -/
def tryMergeDescriptionWithAmounts (lines : List Str) (startIndex : Nat) :
    Option MLGroup :=
  tmdaGo lines startIndex 3 1 [jsTrim ((lines.get? startIndex).getD [])]

/-- `MultiLineDetector.#detectMultiLineGroup` (lines 103–120). -/
def detectMultiLineGroup (lines : List Str) (startIndex : Nat) :
    Option MLGroup :=
  match lines.get? startIndex with
  | none => none
  | some l0 =>
    let startLine := jsTrim l0
    if startLine.isEmpty then none
    else if startsWithIdentifier startLine && !hasCompleteData startLine then
      tryMergeFromIdentifier lines startIndex
    else if looksLikeDescription startLine && !hasAmounts startLine then
      tryMergeDescriptionWithAmounts lines startIndex
    else none

/-- Main loop of `MultiLineDetector.process` (lines 55–87): every detected
group's indices lie between the current index and the group's maximum, so
the `processed` set never intersects later iterations and the loop is a
plain jump to `maxIdx + 1`. -/
def mldGo (lines : List Str) : Nat → Nat → List Str
  | _, 0 => []
  | i, Nat.succ fuel =>
    match lines.get? i with
    | none => []
    | some li =>
      let line := jsTrim li
      if line.isEmpty then li :: mldGo lines (i + 1) fuel
      else
        match detectMultiLineGroup lines i with
        | some g =>
          if g.count > 1 then g.merged :: mldGo lines (g.maxIdx + 1) fuel
          else li :: mldGo lines (i + 1) fuel
        | none => li :: mldGo lines (i + 1) fuel

/-- `MultiLineDetector.process` — the processed-line list. -/
def multiLineProcess (lines : List Str) : List Str :=
  mldGo lines 0 (lines.length + 1)

-- ═════════════════════════════════════════════════════════════════════════
-- LineItemExtractor: cascade and entry point (part_008 lines 84–204, 609–637)
-- ═════════════════════════════════════════════════════════════════════════

/-- `LineItemExtractor.#isValidExtraction` (lines 209–219). -/
def isValidExtraction (l : IInvoiceLine) : Bool :=
  if !strTruthy l.designation && !strTruthy l.reference then false
  else if l.quantity.isNone && l.unitPriceHT.isNone && l.totalHT.isNone then
    false
  else true

/-- The strict part of the cascade: the first strategy result that exists
and passes `#isValidExtraction` (each `result && isValid(result)` guard of
lines 160–193). -/
def firstValidStrict : List (Option IInvoiceLine) → Option IInvoiceLine
  | [] => none
  | none :: rest => firstValidStrict rest
  | some l :: rest =>
    if isValidExtraction l then some l else firstValidStrict rest

/-- `LineItemExtractor.#extractSingleLine` (lines 153–204): the six strict
strategies in order, the first valid result returning through
`#markCorruptionIfSuspicious`; then the loose fallback (returned without
corruption marking); then the empty-line placeholder.  The strategies are
pure, so evaluating them to a list before picking the first valid result
is the same computation as the source's sequenced early returns. -/
def extractSingleLine (line : Str) (lineIndex : Nat) (vat : Q) :
    IInvoiceLine :=
  match firstValidStrict
      [tryBarcodeFormat line lineIndex vat,
       tryExtendedFormat line lineIndex vat,
       tryWithDiscountFormat line lineIndex vat,
       tryFullFormat line lineIndex vat,
       trySimpleFormat line lineIndex vat,
       tryFallbackFormat line lineIndex vat] with
  | some l => markCorruptionIfSuspicious l
  | none =>
    match looseExtract line lineIndex vat with
    | some l =>
      if isValidExtraction l then l else createEmptyLine line lineIndex vat
    | none => createEmptyLine line lineIndex vat

/-- Loop of `LineItemExtractor.#extractFromFullText` (lines 609–637). -/
def efftGo (vat : Q) : Nat → List Str → List IInvoiceLine
  | _, [] => []
  | lineIndex, l :: rest =>
    let trimmed := jsTrim l
    if trimmed.isEmpty || decide (trimmed.length < 10) then
      efftGo vat lineIndex rest
    else if reTest IS_TOTAL trimmed then efftGo vat lineIndex rest
    else if reTest IS_HEADER trimmed && !reTest AMOUNT_PATTERN trimmed then
      efftGo vat lineIndex rest
    else
      let result := extractSingleLine trimmed lineIndex vat
      if strTruthy result.designation || strTruthy result.reference ||
          result.quantity.isSome then
        result :: efftGo vat (lineIndex + 1) rest
      else efftGo vat lineIndex rest

/-- `LineItemExtractor.#extractFromFullText`. -/
def extractFromFullText (text : Str) (vat : Q) : List IInvoiceLine :=
  efftGo vat 0 (splitNl text)

/-- `ILineExtractionResult` (lines 18–33), with the stats inlined. -/
structure ILineExtractionResult where
  lines : List IInvoiceLine
  detected : Nat
  extracted : Nat
  partialCount : Nat
  failed : Nat
deriving DecidableEq

/-- `LineItemExtractor.extractLinesWithStats` (lines 84–145).
`noiseKeywords` is the constructor argument handed to the scorer (default
`[]`); the scorer threshold is the default 3. -/
def extractLinesWithStats (noiseKeywords : List Str) (text : Str) (vat : Q) :
    ILineExtractionResult :=
  let cleanedText := cleanOcrText text
  let tableLines := extractTableLines cleanedText
  let fragmentMergedLines := fragmentMerge tableLines
  let mergedLines := multiLineProcess fragmentMergedLines
  let allScoredLines := scoreAllLines ⟨3, noiseKeywords⟩ mergedLines
  let candidateLines := allScoredLines.filter (fun l => l.score > -5)
  if candidateLines.isEmpty then
    let fallbackLines := extractFromFullText cleanedText vat
    { lines := fallbackLines,
      detected := fallbackLines.length,
      extracted := (fallbackLines.filter (fun l => !l._needsReview)).length,
      partialCount := (fallbackLines.filter
        (fun l => l._needsReview && strTruthy l.designation)).length,
      failed := (fallbackLines.filter
        (fun l => l._needsReview && !strTruthy l.designation)).length }
  else
    let extractedLines := candidateLines.map
      (fun sl => extractSingleLine sl.line sl.lineIndex vat)
    { lines := extractedLines,
      detected := candidateLines.length,
      extracted := (extractedLines.filter (fun l => !l._needsReview)).length,
      partialCount := (extractedLines.filter (fun l => l._needsReview &&
        (strTruthy l.designation || strTruthy l.reference))).length,
      failed := (extractedLines.filter (fun l => l._needsReview &&
        !(strTruthy l.designation || strTruthy l.reference))).length }

-- ═════════════════════════════════════════════════════════════════════════
-- C2: corruption marking across the cascade
-- ═════════════════════════════════════════════════════════════════════════

/-- The `_extractionMethod` values set by the six strict strategies. -/
def strictMethod : EMethod → Bool
  | .barcode => true
  | .extended => true
  | .with_discount => true
  | .full => true
  | .simple => true
  | .fallback => true
  | _ => false

/-- The `_extractionMethod` values set by the loose fallback strategies. -/
def looseMethod : EMethod → Bool
  | .loose_extended_ocr => true
  | .loose_code_amounts => true
  | .loose_qty_price => true
  | .loose_multi_numbers => true
  | _ => false

/-- Marking does not change the extraction method. -/
lemma markCorruption_method (l : IInvoiceLine) :
    (markCorruptionIfSuspicious l)._extractionMethod = l._extractionMethod := by
  unfold markCorruptionIfSuspicious
  split <;> rfl

/-- A marked line that still looks suspicious carries all three corruption
flags (suspicion only reads fields that marking leaves untouched). -/
lemma markCorruption_sound (l : IInvoiceLine)
    (h : detectSuspiciousExtraction (markCorruptionIfSuspicious l) ≠ none) :
    (markCorruptionIfSuspicious l)._needsReview = true ∧
    (markCorruptionIfSuspicious l)._isCorrupted = true ∧
    (markCorruptionIfSuspicious l)._corruptionReason.isSome = true := by
  unfold markCorruptionIfSuspicious at h ⊢
  cases hd : detectSuspiciousExtraction l with
  | some r => exact ⟨rfl, rfl, rfl⟩
  | none => rw [hd] at h; exact absurd hd h

/-- `#tryBarcodeFormat` only produces `barcode`-method lines. -/
lemma tryBarcodeFormat_method (line : Str) (i : Nat) (vat : Q)
    (l : IInvoiceLine) (h : tryBarcodeFormat line i vat = some l) :
    l._extractionMethod = .barcode := by
  unfold tryBarcodeFormat at h
  dsimp only at h
  repeat' split at h
  all_goals first
    | exact Option.noConfusion h
    | (injection h with h2; subst h2; rfl)

/-- `#tryExtendedFormat` only produces `extended`-method lines. -/
lemma tryExtendedFormat_method (line : Str) (i : Nat) (vat : Q)
    (l : IInvoiceLine) (h : tryExtendedFormat line i vat = some l) :
    l._extractionMethod = .extended := by
  unfold tryExtendedFormat at h
  dsimp only at h
  repeat' split at h
  all_goals first
    | exact Option.noConfusion h
    | (injection h with h2; subst h2; rfl)

/-- `#tryWithDiscountFormat` only produces `with_discount`-method lines. -/
lemma tryWithDiscountFormat_method (line : Str) (i : Nat) (vat : Q)
    (l : IInvoiceLine) (h : tryWithDiscountFormat line i vat = some l) :
    l._extractionMethod = .with_discount := by
  unfold tryWithDiscountFormat at h
  dsimp only at h
  repeat' split at h
  all_goals first
    | exact Option.noConfusion h
    | (injection h with h2; subst h2; rfl)

/-- `#tryFullFormat` only produces `full`-method lines. -/
lemma tryFullFormat_method (line : Str) (i : Nat) (vat : Q)
    (l : IInvoiceLine) (h : tryFullFormat line i vat = some l) :
    l._extractionMethod = .full := by
  unfold tryFullFormat at h
  dsimp only at h
  repeat' split at h
  all_goals first
    | exact Option.noConfusion h
    | (injection h with h2; subst h2; rfl)

/-- `#trySimpleFormat` only produces `simple`-method lines. -/
lemma trySimpleFormat_method (line : Str) (i : Nat) (vat : Q)
    (l : IInvoiceLine) (h : trySimpleFormat line i vat = some l) :
    l._extractionMethod = .simple := by
  unfold trySimpleFormat at h
  dsimp only at h
  repeat' split at h
  all_goals first
    | exact Option.noConfusion h
    | (injection h with h2; subst h2; rfl)

/-- `#tryFallbackFormat` only produces `fallback`-method lines. -/
lemma tryFallbackFormat_method (line : Str) (i : Nat) (vat : Q)
    (l : IInvoiceLine) (h : tryFallbackFormat line i vat = some l) :
    l._extractionMethod = .fallback := by
  unfold tryFallbackFormat at h
  dsimp only at h
  repeat' split at h
  all_goals first
    | exact Option.noConfusion h
    | (injection h with h2; subst h2; rfl)

/-- Flags of loose strategy-1 lines. -/
lemma tryExtendedOcrArtifacts_flags (line : Str) (i : Nat) (vat : Q)
    (l : IInvoiceLine) (h : tryExtendedOcrArtifacts line i vat = some l) :
    l._isCorrupted = false ∧ l._needsReview = true ∧
    l._corruptionReason = none ∧ looseMethod l._extractionMethod = true := by
  unfold tryExtendedOcrArtifacts at h
  dsimp only at h
  repeat' split at h
  all_goals first
    | exact Option.noConfusion h
    | (injection h with h2; subst h2; exact ⟨rfl, rfl, rfl, rfl⟩)

/-- Flags of loose strategy-2 lines. -/
lemma tryCodeWithAmounts_flags (line : Str) (i : Nat) (vat : Q)
    (l : IInvoiceLine) (h : tryCodeWithAmounts line i vat = some l) :
    l._isCorrupted = false ∧ l._needsReview = true ∧
    l._corruptionReason = none ∧ looseMethod l._extractionMethod = true := by
  unfold tryCodeWithAmounts at h
  dsimp only at h
  repeat' split at h
  all_goals first
    | exact Option.noConfusion h
    | (injection h with h2; subst h2; exact ⟨rfl, rfl, rfl, rfl⟩)

/-- Flags of loose strategy-3 lines. -/
lemma tryMinimalQtyPrice_flags (line : Str) (i : Nat) (vat : Q)
    (l : IInvoiceLine) (h : tryMinimalQtyPrice line i vat = some l) :
    l._isCorrupted = false ∧ l._needsReview = true ∧
    l._corruptionReason = none ∧ looseMethod l._extractionMethod = true := by
  unfold tryMinimalQtyPrice at h
  dsimp only at h
  repeat' split at h
  all_goals first
    | exact Option.noConfusion h
    | (injection h with h2; subst h2; exact ⟨rfl, rfl, rfl, rfl⟩)

/-- Flags of loose strategy-4 lines. -/
lemma tryMultipleNumbers_flags (line : Str) (i : Nat) (vat : Q)
    (l : IInvoiceLine) (h : tryMultipleNumbers line i vat = some l) :
    l._isCorrupted = false ∧ l._needsReview = true ∧
    l._corruptionReason = none ∧ looseMethod l._extractionMethod = true := by
  unfold tryMultipleNumbers at h
  dsimp only at h
  repeat' split at h
  all_goals first
    | exact Option.noConfusion h
    | (injection h with h2; subst h2; exact ⟨rfl, rfl, rfl, rfl⟩)

/-- Every line produced by the loose fallback has `_isCorrupted = false`,
`_needsReview = true`, no corruption reason, and a loose method tag. -/
lemma looseExtract_flags (raw : Str) (i : Nat) (vat : Q) (l : IInvoiceLine)
    (h : looseExtract raw i vat = some l) :
    l._isCorrupted = false ∧ l._needsReview = true ∧
    l._corruptionReason = none ∧ looseMethod l._extractionMethod = true := by
  unfold looseExtract at h
  dsimp only at h
  split at h
  · exact Option.noConfusion h
  · split at h
    next heq => exact tryExtendedOcrArtifacts_flags _ _ _ _ (heq.trans h)
    next =>
      split at h
      next heq => exact tryCodeWithAmounts_flags _ _ _ _ (heq.trans h)
      next =>
        split at h
        next heq => exact tryMinimalQtyPrice_flags _ _ _ _ (heq.trans h)
        next => exact tryMultipleNumbers_flags _ _ _ _ h

/-- The empty-line placeholder is tagged `detected_only`. -/
lemma createEmptyLine_method (raw : Str) (i : Nat) (vat : Q) :
    (createEmptyLine raw i vat)._extractionMethod = .detected_only := rfl

/-- A result picked by `firstValidStrict` is one of the offered options. -/
lemma firstValidStrict_some : ∀ (os : List (Option IInvoiceLine))
    (l : IInvoiceLine), firstValidStrict os = some l → some l ∈ os := by
  intro os
  induction os with
  | nil => intro l h; exact Option.noConfusion h
  | cons o rest ih =>
    intro l h
    cases o with
    | none =>
      unfold firstValidStrict at h
      exact List.mem_cons_of_mem _ (ih l h)
    | some x =>
      unfold firstValidStrict at h
      split at h
      · injection h with h2
        subst h2
        exact List.mem_cons_self _ _
      · exact List.mem_cons_of_mem _ (ih l h)

/-- The two-sided marking contract of C2: strict-method lines that look
suspicious carry all corruption flags; loose-method lines never carry
`_isCorrupted`. -/
def corruptionContract (L : IInvoiceLine) : Prop :=
  (strictMethod L._extractionMethod = true →
    detectSuspiciousExtraction L ≠ none →
    L._needsReview = true ∧ L._isCorrupted = true ∧
      L._corruptionReason.isSome = true) ∧
  (looseMethod L._extractionMethod = true →
    L._isCorrupted = false ∧ L._needsReview = true ∧
      L._corruptionReason = none)

/-- The contract holds for marked strict-strategy results. -/
lemma contract_mark (r : IInvoiceLine)
    (hm : strictMethod r._extractionMethod = true) :
    corruptionContract (markCorruptionIfSuspicious r) := by
  constructor
  · intro _ hs
    exact markCorruption_sound r hs
  · intro hl
    rw [markCorruption_method] at hl
    cases hEM : r._extractionMethod <;> rw [hEM] at hm hl <;>
      simp [strictMethod, looseMethod] at hm hl

/-- The contract holds for loose-fallback results. -/
lemma contract_loose (l : IInvoiceLine)
    (hf : l._isCorrupted = false ∧ l._needsReview = true ∧
      l._corruptionReason = none ∧ looseMethod l._extractionMethod = true) :
    corruptionContract l := by
  obtain ⟨h1, h2, h3, h4⟩ := hf
  constructor
  · intro hs _
    cases hEM : l._extractionMethod <;> rw [hEM] at hs h4 <;>
      simp [strictMethod, looseMethod] at hs h4
  · intro _
    exact ⟨h1, h2, h3⟩

/-- The contract holds (vacuously) for the empty-line placeholder. -/
lemma contract_empty (raw : Str) (i : Nat) (vat : Q) :
    corruptionContract (createEmptyLine raw i vat) := by
  constructor
  · intro hm
    rw [createEmptyLine_method] at hm
    exact absurd hm (by decide)
  · intro hm
    rw [createEmptyLine_method] at hm
    exact absurd hm (by decide)

/-- C2 (amended): every line `#extractSingleLine` returns through a strict
strategy (method `barcode`/`extended`/`with_discount`/`full`/`simple`/
`fallback`) passes through `#markCorruptionIfSuspicious`, so a suspicion
condition on it forces `_needsReview`, `_isCorrupted` and a reason; but a
line returned by the loose fallback always has `_isCorrupted = false` and
no corruption reason, suspicious or not. -/
theorem claim2_amended_corruption_marking (line : Str) (i : Nat) (vat : Q) :
    corruptionContract (extractSingleLine line i vat) := by
  unfold extractSingleLine
  split
  next l heq =>
    have hmem := firstValidStrict_some _ _ heq
    simp only [List.mem_cons, List.not_mem_nil, or_false] at hmem
    refine contract_mark l ?_
    rcases hmem with h | h | h | h | h | h
    · rw [tryBarcodeFormat_method line i vat l h.symm]; rfl
    · rw [tryExtendedFormat_method line i vat l h.symm]; rfl
    · rw [tryWithDiscountFormat_method line i vat l h.symm]; rfl
    · rw [tryFullFormat_method line i vat l h.symm]; rfl
    · rw [trySimpleFormat_method line i vat l h.symm]; rfl
    · rw [tryFallbackFormat_method line i vat l h.symm]; rfl
  next =>
    split
    next l2 heq2 =>
      split
      · exact contract_loose l2 (looseExtract_flags _ _ _ _ heq2)
      · exact contract_empty _ _ _
    next => exact contract_empty _ _ _

/-- C2 counterexample: the line `"== zz 5 yy 12.34 =="` fails all strict
strategies and is extracted by the loose fallback with designation
`"== zz yy =="`, which begins with a symbol character — a suspicion
condition — yet the returned line has `_isCorrupted = false` and no
corruption reason. -/
theorem claim2_counterexample :
    (detectSuspiciousExtraction
      (extractSingleLine "== zz 5 yy 12.34 ==".data 0 ⟨1, 5⟩)).isSome = true ∧
    (extractSingleLine "== zz 5 yy 12.34 ==".data 0 ⟨1, 5⟩)._needsReview
      = true ∧
    (extractSingleLine "== zz 5 yy 12.34 ==".data 0 ⟨1, 5⟩)._isCorrupted
      = false ∧
    (extractSingleLine "== zz 5 yy 12.34 ==".data 0 ⟨1, 5⟩)._corruptionReason
      = none := by
  decide

/-- Concrete instantiation of the amended C2 theorem: the line
`"thing [ 2 x 10.00"` is extracted by the strict simple strategy, its raw
text carries a bracket artifact, and the returned line is fully flagged. -/
theorem claim2_witness :
    strictMethod
      (extractSingleLine "thing [ 2 x 10.00".data 0 ⟨1, 5⟩)._extractionMethod
      = true ∧
    detectSuspiciousExtraction
      (extractSingleLine "thing [ 2 x 10.00".data 0 ⟨1, 5⟩) ≠ none ∧
    ((extractSingleLine "thing [ 2 x 10.00".data 0 ⟨1, 5⟩)._needsReview
        = true ∧
      (extractSingleLine "thing [ 2 x 10.00".data 0 ⟨1, 5⟩)._isCorrupted
        = true ∧
      (extractSingleLine
          "thing [ 2 x 10.00".data 0 ⟨1, 5⟩)._corruptionReason.isSome
        = true) :=
  ⟨by decide, by decide,
    (claim2_amended_corruption_marking "thing [ 2 x 10.00".data 0 ⟨1, 5⟩).1
      (by decide) (by decide)⟩

-- ═════════════════════════════════════════════════════════════════════════
-- C1: the never-lose-a-line invariant
-- ═════════════════════════════════════════════════════════════════════════

/-- The candidate lines of `extractLinesWithStats`: all scored lines of the
prepared table zone whose score exceeds −5. -/
def candidateLinesOf (noiseKeywords : List Str) (text : Str) :
    List ILineScore :=
  (scoreAllLines ⟨3, noiseKeywords⟩
    (multiLineProcess (fragmentMerge
      (extractTableLines (cleanOcrText text))))).filter
    (fun l => l.score > -5)

/-- C1 counterexample: on this document the detected table zone is a single
blank line, so there are no candidate lines at all — yet the full-text
fallback path emits one extracted line, so `lines.length ≠ count of
candidate lines`. -/
theorem claim1_counterexample :
    candidateLinesOf []
      "zzzzzz yyyy 2 x 10.00\nDésignation Quantité Prix\n".data = [] ∧
    (extractLinesWithStats []
      "zzzzzz yyyy 2 x 10.00\nDésignation Quantité Prix\n".data
      ⟨1, 5⟩).lines.length = 1 := by
  decide

/-- C1 (amended): whenever at least one candidate line exists, the
extractor emits exactly one line per candidate; the count can differ only
on the full-text fallback path taken when there are no candidates. -/
theorem claim1_amended_never_lose (noiseKeywords : List Str) (text : Str)
    (vat : Q) (h : candidateLinesOf noiseKeywords text ≠ []) :
    (extractLinesWithStats noiseKeywords text vat).lines.length =
      (candidateLinesOf noiseKeywords text).length := by
  unfold extractLinesWithStats
  unfold candidateLinesOf at h ⊢
  dsimp only
  rw [if_neg]
  · exact List.length_map _ _
  · simpa [List.isEmpty_iff] using h

/-- Concrete instantiation of the amended C1 theorem: a document whose
table zone holds one product line has exactly one candidate and one
extracted line. -/
theorem claim1_witness :
    candidateLinesOf []
      "Désignation Quantité Prix\n1234567890123 Widget 2 10.00 20.00\nTotal 20.00".data
      ≠ [] ∧
    (extractLinesWithStats []
      "Désignation Quantité Prix\n1234567890123 Widget 2 10.00 20.00\nTotal 20.00".data
      ⟨1, 5⟩).lines.length =
    (candidateLinesOf []
      "Désignation Quantité Prix\n1234567890123 Widget 2 10.00 20.00\nTotal 20.00".data).length :=
  ⟨by decide,
    claim1_amended_never_lose []
      "Désignation Quantité Prix\n1234567890123 Widget 2 10.00 20.00\nTotal 20.00".data
      ⟨1, 5⟩ (by decide)⟩

-- ═════════════════════════════════════════════════════════════════════════
-- TotalsValidator (validation/totals-validator.ts).  Warning strings and
-- suggestion messages are presentation-only (never branched upon); the
-- embedding keeps each suggestion's type, line index and suggested value
-- and drops the rendered French message text.
-- ═════════════════════════════════════════════════════════════════════════

/-- `ISuggestion.type`. -/
inductive SuggType where
  | missing_line | price_error | quantity_error | total_mismatch
deriving DecidableEq

/-- `ISuggestion` (message text omitted, see section note). -/
structure ISuggestion where
  type : SuggType
  lineIndex : Option Nat
  suggestedValue : Option Q
deriving DecidableEq

/-- `IInvoiceTotals`. -/
structure IInvoiceTotals where
  totalHT : Q
  totalVAT : Q
  totalTTC : Q
  discount : Option Q
deriving DecidableEq

/-- `ITotalsValidatorConfig`. -/
structure ITotalsValidatorConfig where
  tolerancePercent : Q
  absoluteTolerance : Q
  averageLineValue : Q
  maxAllowedDiffPercent : Q
deriving DecidableEq

/-- `DEFAULT_CONFIG` of the totals validator. -/
def TV_DEFAULT_CONFIG : ITotalsValidatorConfig := ⟨1, 1, 500, 5⟩

/-- `ITotalsValidationResult` (warnings omitted, see section note; the
`details` object is inlined). -/
structure ITotalsValidationResult where
  isValid : Bool
  calculatedTotalHT : Q
  expectedTotalHT : Q
  difference : Q
  percentageDiff : Q
  validLines : Nat
  missingTotals : Nat
  calculatedTotals : Nat
  estimatedMissingLines : Int
  suggestions : List ISuggestion
deriving DecidableEq

/-- Accumulator of the per-line scan of `validate` (lines 99–122). -/
structure TvScanAcc where
  validLines : Nat
  missingTotals : Nat
  calculatedTotals : Nat
  calculatedTotalHT : Q
  suggestions : List ISuggestion
deriving DecidableEq

/-- Per-line scan of `validate` (lines 99–122); exact rational addition
makes the summation order immaterial. -/
def tvScan : Nat → List IInvoiceLine → TvScanAcc
  | _, [] => ⟨0, 0, 0, 0, []⟩
  | i, line :: rest =>
    let acc := tvScan (i + 1) rest
    if line.totalHT.isSome && decide (line.totalHT.getD 0 > 0) then
      ⟨acc.validLines + 1, acc.missingTotals, acc.calculatedTotals,
        line.totalHT.getD 0 + acc.calculatedTotalHT, acc.suggestions⟩
    else if line.quantity.isSome && line.unitPriceHT.isSome then
      let discount := line.discountRate.getD 0
      let lineTotal := line.quantity.getD 0 * line.unitPriceHT.getD 0 *
        (1 - discount)
      ⟨acc.validLines, acc.missingTotals, acc.calculatedTotals + 1,
        lineTotal + acc.calculatedTotalHT,
        ⟨.total_mismatch, some i, some lineTotal⟩ :: acc.suggestions⟩
    else
      ⟨acc.validLines, acc.missingTotals + 1, acc.calculatedTotals,
        acc.calculatedTotalHT, acc.suggestions⟩

/-- Sum of a list of rationals. -/
def qsum (l : List Q) : Q := l.foldl (· + ·) 0

/-- Suggestions pushed by `#detectLineAnomalies` (lines 272–321), in
source order per line (outlier first, then qty×price consistency).  The
z-score test `|t−avg|/stdDev > 3` is stated square-free as
`(t−avg)² > 9·variance`, which also covers the `stdDev = 0` case where the
JavaScript z-score is `NaN` (comparison false).  In the consistency test
JavaScript divides by `total`; when `total = 0` that division yields
`±Infinity` and the `> 0.05` comparison holds exactly when `lineDiff > 0`,
which is implied by `lineDiff > 1`. -/
def anomaliesSuggGo (avg variance : Q) : Nat → List IInvoiceLine →
    List ISuggestion
  | _, [] => []
  | i, line :: rest =>
    let s1 : List ISuggestion :=
      match line.totalHT with
      | some t =>
        if t > 0 ∧ (t - avg) * (t - avg) > 9 * variance then
          [⟨.price_error, some i, none⟩]
        else []
      | none => []
    let s2 : List ISuggestion :=
      if line.quantity.isSome && line.unitPriceHT.isSome &&
          line.totalHT.isSome then
        let discount := line.discountRate.getD 0
        let expected := line.quantity.getD 0 * line.unitPriceHT.getD 0 *
          (1 - discount)
        let t := line.totalHT.getD 0
        let lineDiff := Q.qabs (expected - t)
        if lineDiff > 1 ∧ (t = 0 ∨ lineDiff / t > (⟨1, 20⟩ : Q)) then
          [⟨.total_mismatch, some i, some expected⟩]
        else []
      else []
    s1 ++ s2 ++ anomaliesSuggGo avg variance (i + 1) rest

/-- `TotalsValidator.#detectLineAnomalies` — the suggestions it pushes. -/
def anomaliesSuggestions (lines : List IInvoiceLine) : List ISuggestion :=
  let totals := (lines.filterMap (·.totalHT)).filter (fun t => t > 0)
  if totals.length < 2 then []
  else
    let n : Q := ⟨(totals.length : Int), 1⟩
    let avg := qsum totals / n
    let variance := qsum (totals.map (fun t => (t - avg) * (t - avg))) / n
    anomaliesSuggGo avg variance 0 lines

/-- `TotalsValidator.validate` (lines 89–192) under a given
configuration. -/
def tvValidate (cfg : ITotalsValidatorConfig) (lines : List IInvoiceLine)
    (totals : IInvoiceTotals) : ITotalsValidationResult :=
  let scan := tvScan 0 lines
  let calculatedTotalHT := scan.calculatedTotalHT
  let expectedTotalHT := totals.totalHT
  let difference := Q.qabs (calculatedTotalHT - expectedTotalHT)
  let percentageDiff := if expectedTotalHT > 0 then
      difference / expectedTotalHT * 100
    else 0
  let isValid := decide (percentageDiff ≤ cfg.tolerancePercent) ||
    decide (difference ≤ cfg.absoluteTolerance)
  let gap := expectedTotalHT - calculatedTotalHT
  let estimatedMissingLines : Int :=
    if !isValid && decide (calculatedTotalHT < expectedTotalHT) then
      Q.qround (gap / cfg.averageLineValue)
    else 0
  let missingSuggs : List ISuggestion :=
    if !isValid && decide (calculatedTotalHT < expectedTotalHT) &&
        decide (estimatedMissingLines > 0) then
      [⟨.missing_line, none, none⟩]
    else []
  let overSuggs : List ISuggestion :=
    if calculatedTotalHT > expectedTotalHT * (⟨11, 10⟩ : Q) then
      [⟨.price_error, none, none⟩]
    else []
  { isValid := isValid,
    calculatedTotalHT := (⟨Q.qround (calculatedTotalHT * 100), 1⟩ : Q) / 100,
    expectedTotalHT := expectedTotalHT,
    difference := (⟨Q.qround (difference * 100), 1⟩ : Q) / 100,
    percentageDiff := (⟨Q.qround (percentageDiff * 100), 1⟩ : Q) / 100,
    validLines := scan.validLines,
    missingTotals := scan.missingTotals,
    calculatedTotals := scan.calculatedTotals,
    estimatedMissingLines := estimatedMissingLines,
    suggestions := scan.suggestions ++ missingSuggs ++ overSuggs ++
      anomaliesSuggestions lines }

-- ═════════════════════════════════════════════════════════════════════════
-- C3: the 2575.50 vs 2600.00 scenario
-- ═════════════════════════════════════════════════════════════════════════

/-- The per-line scan only ever pushes `total_mismatch` suggestions. -/
lemma tvScan_sugg_types : ∀ (i : Nat) (lines : List IInvoiceLine)
    (s : ISuggestion), s ∈ (tvScan i lines).suggestions →
    s.type = .total_mismatch := by
  intro i lines
  induction lines generalizing i with
  | nil => intro s h; simp [tvScan] at h
  | cons line rest ih =>
    intro s h
    unfold tvScan at h
    dsimp only at h
    split at h
    · exact ih (i + 1) s h
    · split at h
      · rcases List.mem_cons.mp h with h1 | h1
        · rw [h1]
        · exact ih (i + 1) s h1
      · exact ih (i + 1) s h

/-- The anomaly detector only ever pushes `price_error` and
`total_mismatch` suggestions. -/
lemma anomaliesSuggGo_types : ∀ (avg variance : Q) (i : Nat)
    (lines : List IInvoiceLine) (s : ISuggestion),
    s ∈ anomaliesSuggGo avg variance i lines →
    s.type = .price_error ∨ s.type = .total_mismatch := by
  intro avg variance i lines
  induction lines generalizing i with
  | nil => intro s h; simp [anomaliesSuggGo] at h
  | cons line rest ih =>
    intro s h
    unfold anomaliesSuggGo at h
    dsimp only at h
    rw [List.mem_append, List.mem_append] at h
    rcases h with (h | h) | h
    · split at h
      · split at h
        · rcases List.mem_singleton.mp h with rfl
          exact Or.inl rfl
        · simp at h
      · simp at h
    · split at h
      · split at h
        · rcases List.mem_singleton.mp h with rfl
          exact Or.inr rfl
        · simp at h
      · simp at h
    · exact ih (i + 1) s h

/-- `#detectLineAnomalies` never pushes a `missing_line` suggestion. -/
lemma anomaliesSuggestions_types (lines : List IInvoiceLine)
    (s : ISuggestion) (h : s ∈ anomaliesSuggestions lines) :
    s.type = .price_error ∨ s.type = .total_mismatch := by
  unfold anomaliesSuggestions at h
  dsimp only at h
  split at h
  · simp at h
  · exact anomaliesSuggGo_types _ _ 0 lines s h

/-- The C3 scenario lines: a single fully-extracted line whose `totalHT`
is 2575.50. -/
def c3lines : List IInvoiceLine :=
  [{ reference := some "REF-1".data,
     designation := some "Article".data,
     quantity := some 1,
     unit := none,
     unitPriceHT := some ⟨5151, 2⟩,
     discountRate := none,
     totalHT := some ⟨5151, 2⟩,
     vatRate := ⟨1, 5⟩,
     _rawText := "REF-1 Article 1 2575.50 2575.50".data,
     _confidence := DEFAULT_CONFIDENCE,
     _needsReview := false,
     _lineIndex := 0,
     _extractionMethod := .barcode,
     _isCorrupted := false,
     _corruptionReason := none }]

/-- The C3 scenario totals: document-reported total HT of 2600.00. -/
def c3totals : IInvoiceTotals := ⟨2600, 0, 0, none⟩

/-- C3 counterexample: with the default configuration, lines summing to
2575.50 against a reported 2600.00 give a percentage difference of about
0.94 % ≤ 1 %, so `isValid` is `true` and no `missing_line` suggestion is
produced — the opposite of the claimed outcome on both counts. -/
theorem claim3_counterexample :
    qsum (c3lines.filterMap (·.totalHT)) = ⟨5151, 2⟩ ∧
    c3totals.totalHT = 2600 ∧
    (tvValidate TV_DEFAULT_CONFIG c3lines c3totals).isValid = true ∧
    ((tvValidate TV_DEFAULT_CONFIG c3lines c3totals).suggestions.filter
      (fun s => decide (s.type = SuggType.missing_line))) = [] := by
  decide

/-- C3 (amended): whenever the scanned line total is 2575.50 and the
reported total is 2600.00, the default-configuration validator accepts
(`isValid = true`, the 0.94 % gap being within the 1 % tolerance) and its
suggestion list contains no `missing_line` entry. -/
theorem claim3_amended_within_tolerance (lines : List IInvoiceLine)
    (totals : IInvoiceTotals)
    (h1 : (tvScan 0 lines).calculatedTotalHT = ⟨5151, 2⟩)
    (h2 : totals.totalHT = 2600) :
    (tvValidate TV_DEFAULT_CONFIG lines totals).isValid = true ∧
    ((tvValidate TV_DEFAULT_CONFIG lines totals).suggestions.filter
      (fun s => decide (s.type = SuggType.missing_line))) = [] := by
  unfold tvValidate
  dsimp only
  rw [h1, h2]
  refine ⟨by decide, ?_⟩
  rw [if_neg (by decide), if_neg (by decide)]
  simp only [List.append_nil, List.filter_append, List.append_eq_nil]
  constructor
  · rw [List.filter_eq_nil_iff]
    intro s hs
    have := tvScan_sugg_types 0 lines s hs
    simp [this]
  · rw [List.filter_eq_nil_iff]
    intro s hs
    rcases anomaliesSuggestions_types lines s hs with h | h <;> simp [h]

/-- Concrete instantiation of the amended C3 theorem on the scenario
lines. -/
theorem claim3_witness :
    (tvScan 0 c3lines).calculatedTotalHT = ⟨5151, 2⟩ ∧
    c3totals.totalHT = 2600 ∧
    ((tvValidate TV_DEFAULT_CONFIG c3lines c3totals).isValid = true ∧
      ((tvValidate TV_DEFAULT_CONFIG c3lines c3totals).suggestions.filter
        (fun s => decide (s.type = SuggType.missing_line))) = []) :=
  ⟨by decide, by decide,
    claim3_amended_within_tolerance c3lines c3totals (by decide) (by decide)⟩

-- ═════════════════════════════════════════════════════════════════════════
-- CityLookup (patterns/city-lookup.ts)
-- ═════════════════════════════════════════════════════════════════════════

/-- The Moroccan city set. -/
def moroccanCities : List Str :=
  ["casablanca", "rabat", "marrakech", "fes", "fès", "tanger", "tangier",
   "agadir", "meknes", "meknès", "oujda", "kenitra", "kénitra", "tetouan",
   "tétouan", "safi", "mohammedia", "el jadida", "beni mellal", "béni mellal",
   "nador", "taza", "settat", "berrechid", "khemisset", "khémisset",
   "khouribga", "sale", "salé", "temara", "témara",
   "inezgane", "ouarzazate", "essaouira", "laayoune", "laâyoune", "dakhla",
   "errachidia", "guelmim", "taroudant", "larache", "ksar el kebir",
   "fnideq", "berkane", "taourirt", "fquih ben salah", "youssoufia",
   "sidi kacem", "sidi slimane", "midelt", "azrou", "ifrane",
   "ain sebaa", "sidi maarouf", "bouskoura", "nouaceur", "had soualem"].map
    String.data

/-- The French city set. -/
def frenchCities : List Str :=
  ["paris", "marseille", "lyon", "toulouse", "nice", "nantes", "strasbourg",
   "montpellier", "bordeaux", "lille", "rennes", "reims", "le havre",
   "saint-étienne", "saint-etienne", "toulon", "grenoble", "dijon", "angers",
   "nîmes", "nimes", "villeurbanne", "le mans", "aix-en-provence",
   "clermont-ferrand", "brest", "tours", "limoges", "amiens", "perpignan",
   "metz", "besançon", "besancon", "orléans", "orleans", "mulhouse", "rouen",
   "caen", "nancy", "argenteuil", "montreuil", "saint-denis"].map String.data

/-- The Belgian city set. -/
def belgianCities : List Str :=
  ["bruxelles", "brussels", "anvers", "antwerp", "gand", "ghent", "charleroi",
   "liège", "liege", "bruges", "brugge", "namur", "leuven", "louvain",
   "mons"].map String.data

/-- The Spanish city set. -/
def spanishCities : List Str :=
  ["madrid", "barcelona", "valencia", "sevilla", "seville", "zaragoza",
   "málaga", "malaga", "murcia", "palma", "bilbao", "alicante", "córdoba",
   "cordoba", "valladolid", "vigo", "gijón", "gijon"].map String.data

/-- The country keyword map, in insertion order. -/
def countryKeywords : List (Str × Str) :=
  [("maroc", "MA"), ("morocco", "MA"),
   ("france", "FR"),
   ("belgique", "BE"), ("belgium", "BE"),
   ("espagne", "ES"), ("spain", "ES"), ("españa", "ES"),
   ("suisse", "CH"), ("switzerland", "CH"), ("schweiz", "CH"),
   ("allemagne", "DE"), ("germany", "DE"), ("deutschland", "DE"),
   ("italie", "IT"), ("italy", "IT"), ("italia", "IT"),
   ("pays-bas", "NL"), ("netherlands", "NL"), ("nederland", "NL"),
   ("portugal", "PT"),
   ("royaume-uni", "GB"), ("united kingdom", "GB"), ("uk", "GB")].map
    (fun p => (p.1.data, p.2.data))

/-- The street keyword set. -/
def streetKeywords : List Str :=
  ["rue", "avenue", "av.", "av", "boulevard", "bd", "blvd", "allée",
   "impasse", "passage", "place", "chemin", "route", "voie",
   "lot", "lotissement", "résidence", "immeuble", "imm", "quartier", "zone",
   "zone industrielle", "zi", "galerie", "centre", "angle", "n°", "numéro",
   "calle", "avenida", "paseo", "plaza"].map String.data

/-- Splits on every single occurrence of a separator character (a JavaScript
`split` with a one-character-class regex without quantifier). -/
def splitSingle (p : Char → Bool) : Str → Str → List Str
  | acc, [] => [acc.reverse]
  | acc, c :: rest =>
    if p c then acc.reverse :: splitSingle p [] rest
    else splitSingle p (c :: acc) rest

/-- `split(/[\s,\-;.]+/)` (runs of the class separate). -/
def splitTokSepGo : Bool → Str → Str → List Str
  | _, acc, [] => [acc.reverse]
  | inSep, acc, c :: rest =>
    if isWsC c || c = ',' || c = '-' || c = ';' || c = '.' then
      (if inSep then splitTokSepGo true acc rest
       else acc.reverse :: splitTokSepGo true [] rest)
    else splitTokSepGo false (c :: acc) rest

/-- The multi-word city names recognised by `extractTokens`. -/
def multiWordCities : List Str :=
  ["el jadida", "beni mellal", "béni mellal", "ksar el kebir",
   "fquih ben salah", "sidi kacem", "sidi slimane", "sidi maarouf",
   "ain sebaa", "had soualem", "saint-étienne", "saint-etienne",
   "le havre", "le mans", "aix-en-provence", "clermont-ferrand",
   "saint-denis"].map String.data

/-- `CityLookup.extractTokens` (lines 265–288): multi-word city names found
as substrings, then the single words of length ≥ 3. -/
def extractTokens (text : Str) : List Str :=
  (multiWordCities.filter (fun c => containsSub text c)) ++
    ((splitTokSepGo false [] text).filter (fun w => w.length ≥ 3))

/-- `CityLookup.capitalize`. -/
def capitalize (text : Str) : Str :=
  List.intercalate [' ']
    ((splitSingle (fun c => isWsC c || c = '-') [] text).map
      (fun w => match w with
        | [] => []
        | c :: t => upChar c :: lowStr t))

/-- City lookup result. -/
structure CityInfo where
  city : Str
  country : Str
  confidence : Q
deriving DecidableEq

/-- Country lookup result. -/
structure CountryInfo where
  country : Str
  countryCode : Str
  confidence : Q
deriving DecidableEq

/-- Checks the four city sets in source order for one token. -/
def cityOfToken (token : Str) : Option CityInfo :=
  if moroccanCities.contains token then
    some ⟨capitalize token, "MA".data, ⟨9, 10⟩⟩
  else if frenchCities.contains token then
    some ⟨capitalize token, "FR".data, ⟨9, 10⟩⟩
  else if belgianCities.contains token then
    some ⟨capitalize token, "BE".data, ⟨17, 20⟩⟩
  else if spanishCities.contains token then
    some ⟨capitalize token, "ES".data, ⟨17, 20⟩⟩
  else none

/-- `CityLookup.findCity` (lines 102–124). -/
def findCity (text : Str) : Option CityInfo :=
  ((extractTokens (lowStr text)).map cityOfToken).findSome? id

/-- `CityLookup.findCountry` (lines 131–145). -/
def findCountry (text : Str) : Option CountryInfo :=
  (countryKeywords.find? (fun kc => containsSub (lowStr text) kc.1)).map
    (fun kc => ⟨capitalize kc.1, kc.2, ⟨19, 20⟩⟩)

/-- The class `[°o]` under `/i`. -/
def clsDegO : RE := .cls (fun c => c = '°' || upChar c = 'O')

/-- `/facture\s*(n[°o]?|pro|avoir)?/i` (trailing group optional). -/
def DOC_FACTURE : RE :=
  rcat [rstri "facture", rstar rws,
    ropt (ralts [rcat [rchri 'n', ropt clsDegO], rstri "pro", rstri "avoir"])]

/-- `/\bn[°o]?\s*:?\s*\d{4,}/i`. -/
def DOC_NUM4 : RE :=
  rcat [.wb true, rchri 'n', ropt clsDegO, rstar rws, ropt (rchr ':'),
    rstar rws, repMin rdigit 4]

/-- `/\b(bl|bc|br)\s*(n[°o]?)?/i`. -/
def DOC_BL : RE :=
  rcat [.wb true, ralts [rstri "bl", rstri "bc", rstri "br"], rstar rws,
    ropt (rcat [rchri 'n', ropt clsDegO])]

/-- `/bon\s*(de\s*)?(livraison|commande|réception)/i`. -/
def DOC_BON3 : RE :=
  rcat [rstri "bon", rstar rws, ropt (rcat [rstri "de", rstar rws]),
    ralts [rstri "livraison", rstri "commande", rstri "réception"]]

/-- `/devis\s*(n[°o]?)?/i`. -/
def DOC_DEVIS : RE :=
  rcat [rstri "devis", rstar rws, ropt (rcat [rchri 'n', ropt clsDegO])]

/-- `/avoir\s*(n[°o]?)?/i`. -/
def DOC_AVOIR : RE :=
  rcat [rstri "avoir", rstar rws, ropt (rcat [rchri 'n', ropt clsDegO])]

/-- `/\w+\s+n[°o]?\s*:?\s*\d{4,}/i`. -/
def DOC_WORD_NUM : RE :=
  rcat [rplus (.cls isWordC), rplus rws, rchri 'n', ropt clsDegO, rstar rws,
    ropt (rchr ':'), rstar rws, repMin rdigit 4]

/-- `CityLookup.isDocumentLine` (lines 188–207); the argument is already
lowercased by the caller. -/
def isDocumentLine (lowerLine : Str) : Bool :=
  reTest DOC_FACTURE lowerLine || reTest DOC_NUM4 lowerLine ||
  reTest DOC_BL lowerLine || reTest DOC_BON3 lowerLine ||
  reTest DOC_DEVIS lowerLine || reTest DOC_AVOIR lowerLine ||
  reTest (rstri "proforma") lowerLine || reTest DOC_WORD_NUM lowerLine

/-- `/^(ice|i\.?f\.?|r\.?c\.?|cnss|patente|tp)\s*[.:]/i`. -/
def STOP_ID_MA : RE :=
  rcat [.bos,
    ralts [rstri "ice",
      rcat [rchri 'i', ropt (rchr '.'), rchri 'f', ropt (rchr '.')],
      rcat [rchri 'r', ropt (rchr '.'), rchri 'c', ropt (rchr '.')],
      rstri "cnss", rstri "patente", rstri "tp"],
    rstar rws, rcls ".:"]

/-- `/^(siret|siren|tva\s*intra|n°?\s*tva)\s*[.:]/i`. -/
def STOP_ID_EU : RE :=
  rcat [.bos,
    ralts [rstri "siret", rstri "siren",
      rcat [rstri "tva", rstar rws, rstri "intra"],
      rcat [rchri 'n', ropt (rchr '°'), rstar rws, rstri "tva"]],
    rstar rws, rcls ".:"]

/-- `/siret\s*[.:]\s*\d/i`. -/
def STOP_SIRET : RE :=
  rcat [rstri "siret", rstar rws, rcls ".:", rstar rws, rdigit]

/-- `/^(tél|tel|phone|fax|email|@|gsm|mobile)\s*[.:]/i`. -/
def STOP_CONTACT : RE :=
  rcat [.bos,
    ralts [rstri "tél", rstri "tel", rstri "phone", rstri "fax",
      rstri "email", rchr '@', rstri "gsm", rstri "mobile"],
    rstar rws, rcls ".:"]

/-- `/^(code\s*client|n°?\s*facture|date|bl\s*n)/i`. -/
def STOP_DOCINFO : RE :=
  rcat [.bos,
    ralts [rcat [rstri "code", rstar rws, rstri "client"],
      rcat [rchri 'n', ropt (rchr '°'), rstar rws, rstri "facture"],
      rstri "date",
      rcat [rstri "bl", rstar rws, rchri 'n']]]

/-- `/^(bl|bc|br|devis|avoir|proforma)\s*(n[°o]?)?/i`. -/
def STOP_DOC2 : RE :=
  rcat [.bos,
    ralts [rstri "bl", rstri "bc", rstri "br", rstri "devis", rstri "avoir",
      rstri "proforma"],
    rstar rws, ropt (rcat [rchri 'n', ropt clsDegO])]

/-- `/bon\s*(de\s*)?(livraison|commande)/i`. -/
def STOP_BON2 : RE :=
  rcat [rstri "bon", rstar rws, ropt (rcat [rstri "de", rstar rws]),
    ralts [rstri "livraison", rstri "commande"]]

/-- `/^\d{8,14}\s/` as a stop condition (structural test shared with
`EAN_FULL`). -/
def STOP_EAN (l : Str) : Bool := EAN_FULL l

/-- `CityLookup.isStopLine` (lines 214–240). -/
def isStopLine (line : Str) : Bool :=
  let lowerLine := jsTrim (lowStr line)
  reTest STOP_ID_MA lowerLine || reTest STOP_ID_EU lowerLine ||
  reTest STOP_SIRET lowerLine || reTest STOP_CONTACT lowerLine ||
  reTest STOP_DOCINFO lowerLine || reTest DOC_FACTURE lowerLine ||
  reTest STOP_DOC2 lowerLine || reTest STOP_BON2 lowerLine ||
  STOP_EAN lowerLine || reTest IS_DATE lowerLine

/-- Letters `[A-ZÀ-Ü]` under `/i`. -/
def isLetterAccentI (c : Char) : Bool :=
  ('A' ≤ upChar c && upChar c ≤ 'Z') || ('À' ≤ upChar c && upChar c ≤ 'Ü')

/-- `/\b\d{5}\b/`. -/
def POSTAL5 : RE := rcat [.wb true, repN rdigit 5 5, .wb true]

/-- `/[A-ZÀ-Ü]{3,}\s*[-,]\s*[A-ZÀ-Ü]{3,}/i` (CITY - COUNTRY shape). -/
def CITY_DASH_COUNTRY : RE :=
  rcat [repMin (.cls isLetterAccentI) 3, rstar rws, rcls "-,", rstar rws,
    repMin (.cls isLetterAccentI) 3]

/-- `CityLookup.looksLikeAddress` (lines 152–180). -/
def looksLikeAddress (line : Str) : Bool :=
  let lowerLine := lowStr line
  let trimmed := jsTrim line
  if decide (trimmed.length < 5) || decide (trimmed.length > 100) then false
  else if isDocumentLine lowerLine then false
  else if (findCity line).isSome then true
  else if (findCountry line).isSome then true
  else if streetKeywords.any (fun kw => containsSub lowerLine kw) then true
  else if reTest POSTAL5 trimmed then true
  else if reTest CITY_DASH_COUNTRY trimmed then true
  else false

-- ═════════════════════════════════════════════════════════════════════════
-- PatternCache: contact patterns (part_003 lines 56–112).
-- Extraction-result records keep `value`, `confidence` and `sourceText`;
-- the `matchedPattern` string is presentation-only (never branched upon)
-- and is omitted from the embedding.
-- ═════════════════════════════════════════════════════════════════════════

/-- `IExtractionResult<string>`. -/
structure IExtractionResult where
  value : Option Str
  confidence : Q
  sourceText : Option Str
deriving DecidableEq

/-- `IAddressResult`. -/
structure IAddressResult where
  value : Option Str
  confidence : Q
  sourceText : Option Str
  street : Option Str
  streetLine2 : Option Str
  city : Option Str
  country : Option Str
  postalCode : Option Str
deriving DecidableEq

/-- `IPhoneResult`. -/
structure IPhoneResult where
  value : Option Str
  confidence : Q
  sourceText : Option Str
  country : Option Str
  isValid : Bool
deriving DecidableEq

/-- The class `[\d\s.\-()]`. -/
def phSepCls : RE :=
  .cls (fun c => c.isDigit || isWsC c || c = '.' || c = '-' || c = '(' ||
    c = ')')

/-- The class `[\d\s.\-]`. -/
def phSepCls2 : RE :=
  .cls (fun c => c.isDigit || isWsC c || c = '.' || c = '-')

/-- The class `[\s.\-]`. -/
def sepDot : RE := .cls (fun c => isWsC c || c = '.' || c = '-')

/-- `PHONE_MA_LABELED`. -/
def PHONE_MA_LABELED : RE :=
  rcat [ralts [rcat [rstri "tél", ropt (rstri "éphone")], rstri "tel",
      rstri "phone", rstri "fax", rstri "gsm", rstri "mobile"],
    rstar rws, rcls ".:", rstar rws,
    .grp 0 (rcat [.alt (rchr '0') (rstr "+212"), rstar rws,
      rcls "25678", .rep phSepCls 7 (some 12) false])]

/-- `PHONE_MA_INTL`. -/
def PHONE_MA_INTL : RE :=
  .grp 0 (rcat [rstr "+212", rstar rws, rcls "25678",
    .rep phSepCls2 7 (some 12) false])

/-- `PHONE_MA_DOMESTIC_SEP`. -/
def PHONE_MA_DOMESTIC_SEP : RE :=
  .grp 0 (rcat [rchr '0', rcls "25678", repN rdigit 2 2, ropt sepDot,
    repN rdigit 2 2, ropt sepDot, repN rdigit 2 2, ropt sepDot,
    repN rdigit 2 2])

/-- `PHONE_MA_DOMESTIC_COMPACT`. -/
def PHONE_MA_DOMESTIC_COMPACT : RE :=
  .grp 0 (rcat [rchr '0', rcls "25678", repN rdigit 8 8])

/-- `PHONE_FR_LABELED`. -/
def PHONE_FR_LABELED : RE :=
  rcat [ralts [rcat [rstri "tél", ropt (rstri "éphone")], rstri "tel",
      rstri "phone", rstri "fax"],
    rstar rws, rcls ".:", rstar rws,
    .grp 0 (rcat [.alt (rchr '0') (rstr "+33"), rstar rws,
      .cls (fun c => '1' ≤ c && c ≤ '9'), .rep phSepCls 8 (some 12) false])]

/-- `PHONE_FR_INTL`. -/
def PHONE_FR_INTL : RE :=
  .grp 0 (rcat [rstr "+33", rstar rws, .cls (fun c => '1' ≤ c && c ≤ '9'),
    .rep phSepCls2 8 (some 12) false])

/-- `PHONE_FR_DOMESTIC_SEP`. -/
def PHONE_FR_DOMESTIC_SEP : RE :=
  .grp 0 (rcat [rchr '0', .cls (fun c => '1' ≤ c && c ≤ '9'), rstar rws,
    repN rdigit 2 2, rstar rws, repN rdigit 2 2, rstar rws, repN rdigit 2 2,
    rstar rws, repN rdigit 2 2])

/-- `PHONE_FR_DOMESTIC_COMPACT`. -/
def PHONE_FR_DOMESTIC_COMPACT : RE :=
  .grp 0 (rcat [rchr '0', .cls (fun c => '1' ≤ c && c ≤ '9'),
    repN rdigit 8 8])

/-- `PHONE_INTL_E164`. -/
def PHONE_INTL_E164 : RE :=
  .grp 0 (rcat [rchr '+', repN rdigit 1 3, .rep phSepCls2 8 (some 15) false])

/-- `PHONE_INTL_LABELED`. -/
def PHONE_INTL_LABELED : RE :=
  rcat [ralts [rstri "tel", rstri "phone", rstri "fax"], rstar rws, rcls ".:",
    rstar rws,
    .grp 0 (.rep (.cls (fun c => c.isDigit || isWsC c || c = '.' || c = '-' ||
      c = '+' || c = '(' || c = ')')) 10 (some 20) false)]

/-- `PHONE_VALID_MA = /^0[25678]\d{8}$/`. -/
def PHONE_VALID_MA : RE :=
  rcat [.bos, rchr '0', rcls "25678", repN rdigit 8 8, .eos]

/-- `PHONE_VALID_FR = /^0[1-9]\d{8}$/`. -/
def PHONE_VALID_FR : RE :=
  rcat [.bos, rchr '0', .cls (fun c => '1' ≤ c && c ≤ '9'), repN rdigit 8 8,
    .eos]

/-- `PHONE_VALID_INTL = /^\+?\d{10,15}$/`. -/
def PHONE_VALID_INTL : RE :=
  rcat [.bos, ropt (rchr '+'), .rep rdigit 10 (some 15) false, .eos]

/-- `ADDRESS_LABELED = /adresse\s*[:\s]+(.+?)(?=\n.*?(?:tél|tel|ice|i\.?f|email|@)|$)/is`. -/
def ADDRESS_LABELED : RE :=
  rcat [rstri "adresse", rstar rws,
    rplus (.cls (fun c => c = ':' || isWsC c)),
    .grp 0 (rplusL rdotAll),
    .la (.alt
      (rcat [rchr '\n', rstarL rdotAll,
        ralts [rstri "tél", rstri "tel", rstri "ice",
          rcat [rchri 'i', ropt (rchr '.'), rchri 'f'],
          rstri "email", rchr '@']])
      .eos) true]

/-- `ADDRESS_SIEGE = /siège\s*(?:social)?\s*[:\s]+(.+?)(?=\n.*?(?:tél|tel|ice)|$)/is`. -/
def ADDRESS_SIEGE : RE :=
  rcat [rstri "siège", rstar rws, ropt (rstri "social"), rstar rws,
    rplus (.cls (fun c => c = ':' || isWsC c)),
    .grp 0 (rplusL rdotAll),
    .la (.alt
      (rcat [rchr '\n', rstarL rdotAll,
        ralts [rstri "tél", rstri "tel", rstri "ice"]])
      .eos) true]

/-- `ADDRESS_DOMICILIE = /domicilié\s*[àa]?\s*[:\s]*(.+?)(?=\n.*?(?:tél|tel)|$)/is`. -/
def ADDRESS_DOMICILIE : RE :=
  rcat [rstri "domicilié", rstar rws, ropt clsAgrave, rstar rws,
    rstar (.cls (fun c => c = ':' || isWsC c)),
    .grp 0 (rplusL rdotAll),
    .la (.alt
      (rcat [rchr '\n', rstarL rdotAll, ralts [rstri "tél", rstri "tel"]])
      .eos) true]

/-- `STREET_KEYWORDS` (part_003 line 97), with the negative lookaheads on
`n°`/`numéro`. -/
def STREET_KEYWORDS : RE :=
  rcat [
    ralts [rstri "rue", rstri "avenue", rstri "av.", rstri "av",
      rstri "boulevard", rstri "bd", rstri "blvd", rstri "allée",
      rstri "impasse", rstri "passage", rstri "place", rstri "chemin",
      rstri "route", rstri "voie", rstri "lot", rstri "lotissement",
      rstri "résidence", rstri "immeuble", rstri "imm", rstri "quartier",
      rstri "zone", rstri "zi", rstri "galerie", rstri "centre",
      rstri "angle",
      rcat [rstri "n°", rstar rws,
        .la (rcat [rstar (.cls (fun c => c = ':' || isWsC c)), rdigit]) false],
      rcat [rstri "numéro", rstar rws,
        .la (rcat [rstar (.cls (fun c => c = ':' || isWsC c)), rdigit]) false]],
    rplus rws, .rep (.cls (fun c => c ≠ '\n')) 5 (some 60) false]

/-- `POSTAL_CODE = /\b(\d{5})\b/`. -/
def POSTAL_CODE : RE :=
  rcat [.wb true, .grp 0 (repN rdigit 5 5), .wb true]

/-- `NUMBERED_STREET` (part_003 line 106). -/
def NUMBERED_STREET : RE :=
  rcat [.bos, rplus rdigit, .cls (fun c => isWsC c || c = ','), rstar rdot,
    ralts [rstri "rue", rstri "avenue", rstri "av.", rstri "boulevard",
      rstri "bd", rstri "place", rstri "chemin", rstri "route",
      rstri "allée", rstri "impasse", rstri "voie"]]

/-- The location-keyword alternation common to `LOCATION_KEYWORDS` and
`LOCATION_FULL` (`cc`, `zi`, `zac`, `imm` carry a trailing `\s` only in
`LOCATION_KEYWORDS`, controlled by `trail`). -/
def locAlt (trail : Bool) : RE :=
  let t : RE := if trail then rws else .eps
  ralts [rstri "galerie", rcat [rstri "centre", rplus rws, rstri "commercial"],
    rcat [rstri "cc", t],
    rcat [rstri "zone", rplus rws, rstri "industrielle"],
    rcat [rstri "zi", t], rcat [rstri "zac", t],
    rcat [rstri "zone", rplus rws, rstri "d", rchr '\'', rstri "activit",
      .cls (fun c => upChar c = 'É' || upChar c = 'E'), ropt (rchri 's')],
    rcat [rstri "r", .cls (fun c => upChar c = 'É' || upChar c = 'E'),
      rstri "sidence"],
    rstri "immeuble", rcat [rstri "imm", t], rstri "quartier",
    rstri "lotissement",
    rcat [rstri "parc", rplus rws, rstri "d", rchr '\'', rstri "activit",
      .cls (fun c => upChar c = 'É' || upChar c = 'E'), ropt (rchri 's')],
    rcat [rstri "business", rplus rws, rstri "park"],
    rcat [rstri "shopping", rplus rws, rstri "center"],
    rstri "mall",
    rcat [rstri "espace", rplus rws, rstri "commercial"]]

/-- `LOCATION_KEYWORDS` (part_003 line 109). -/
def LOCATION_KEYWORDS : RE := rcat [.bos, locAlt true]

/-- `LOCATION_FULL` (part_003 line 112). -/
def LOCATION_FULL : RE :=
  rcat [.bos,
    .grp 0 (rcat [locAlt false,
      ropt (rcat [rplus rws,
        ralts [rcat [rstri "marchand", ropt (rchri 'e')],
          rcat [rstri "industriel", ropt (rstri "le")],
          rcat [rstri "commercial", ropt (rchri 'e')]]]),
      rplus rws, .cls isLetterAccentI,
      rstar (.cls (fun c => isAsciiLetter c || ('À' ≤ c && c ≤ 'ü') ||
        c = 'ý' || c = 'þ' || isWsC c || c = '-' || c = '\''))])]

-- ═════════════════════════════════════════════════════════════════════════
-- FR locale supplier patterns (locales/fr.locale.ts lines 84–136)
-- ═════════════════════════════════════════════════════════════════════════

/-- The class `[A-Za-zÀ-ü\s&.-]` under `/i` (the case-insensitive closure
adds `ý`/`þ`, whose uppercase forms lie in the `À-ü` range). -/
def nameCls : RE :=
  .cls (fun c => isAsciiLetter c || ('À' ≤ c && c ≤ 'ü') || c = 'ý' ||
    c = 'þ' || isWsC c || c = '&' || c = '.' || c = '-')

/-- FR locale supplier-name pattern 1. -/
def FR_NAME1 : RE :=
  rcat [ralts [rstri "société", rstri "sarl", rstri "sa", rstri "sas",
      rstri "sasu", rstri "eurl", rstri "ei", rstri "snc"],
    rplus rws,
    .grp 0 (rcat [.cls isLetterAccentI, .rep nameCls 2 (some 50) false])]

/-- FR locale supplier-name pattern 2. -/
def FR_NAME2 : RE :=
  rcat [ralts [rcat [rstri "raison", rstar rws, rstri "sociale"],
      rstri "fournisseur"],
    rstar (.cls (fun c => c = ':' || isWsC c)),
    .grp 0 (rcat [.cls isLetterAccentI, .rep nameCls 2 (some 50) false])]

/-- FR locale supplier-name pattern 3. -/
def FR_NAME3 : RE :=
  rcat [.grp 0 (rcat [.cls isLetterAccentI, .rep nameCls 2 (some 40) false]),
    rplus rws,
    ralts [rstri "sarl", rstri "sa", rstri "sas", rstri "sasu", rstri "eurl",
      rstri "ei", rstri "snc"]]

/-- FR locale supplier-name pattern 4
(`/^.*(?:DISTRIBUTION|SOCIETE|OPTICAL|VISION|LUNETTES|EYEWEAR|OPTIQUE).*$/im`). -/
def FR_NAME4 : RE :=
  rcat [.bol, rstar rdot,
    ralts [rstri "distribution", rstri "societe", rstri "optical",
      rstri "vision", rstri "lunettes", rstri "eyewear", rstri "optique"],
    rstar rdot, .eol]

/-- FR locale supplier-address pattern 1
(`/adresse[:\s]*(.+?)(?:\n|tél|tel|phone|fax|ice|if|rc|email)/i`). -/
def FR_ADDR1 : RE :=
  rcat [rstri "adresse", rstar (.cls (fun c => c = ':' || isWsC c)),
    .grp 0 (rplusL rdot),
    ralts [rchr '\n', rstri "tél", rstri "tel", rstri "phone", rstri "fax",
      rstri "ice", rstri "if", rstri "rc", rstri "email"]]

/-- FR locale supplier-address pattern 2
(`/(?:siège\s*social|domicilié)[:\s]*(.+?)(?:\n|tél|tel)/i`). -/
def FR_ADDR2 : RE :=
  rcat [ralts [rcat [rstri "siège", rstar rws, rstri "social"],
      rstri "domicilié"],
    rstar (.cls (fun c => c = ':' || isWsC c)),
    .grp 0 (rplusL rdot),
    ralts [rchr '\n', rstri "tél", rstri "tel"]]

/-- The class `[\d\s.+()-]`. -/
def frPhoneCls : RE :=
  .cls (fun c => c.isDigit || isWsC c || c = '.' || c = '+' || c = '(' ||
    c = ')' || c = '-')

/-- FR locale supplier-phone pattern 1. -/
def FR_PHONE1 : RE :=
  rcat [ralts [rcat [rstri "tél", ropt (rstri "éphone")], rstri "tel",
      rstri "phone", rstri "gsm", rstri "mobile", rstri "fax"],
    rstar rws, ropt (rcls ".:"), rstar rws,
    .grp 0 (.rep frPhoneCls 10 (some 20) false)]

/-- FR locale supplier-phone pattern 2. -/
def FR_PHONE2 : RE :=
  rcat [ralts [rstri "fixe", rstri "portable"],
    rstar rws, ropt (rcls ".:"), rstar rws,
    .grp 0 (.rep frPhoneCls 10 (some 20) false)]

/-- The slice of `IOcrLocale` consumed by the contact extractor. -/
structure IOcrLocale where
  supplierName : List RE
  supplierAddress : List RE
  supplierPhone : List RE
  stopWords : List Str

/-- `FR_LOCALE`, restricted to the fields used here. -/
def FR_LOCALE : IOcrLocale :=
  { supplierName := [FR_NAME1, FR_NAME2, FR_NAME3, FR_NAME4],
    supplierAddress := [FR_ADDR1, FR_ADDR2],
    supplierPhone := [FR_PHONE1, FR_PHONE2],
    stopWords := ["le", "la", "les", "de", "du", "des", "un", "une", "et",
      "ou", "à", "au", "aux", "en", "pour", "par", "sur", "avec", "sans",
      "sous", "entre", "vers", "chez", "dans", "page", "total",
      "montant"].map String.data }

-- ═════════════════════════════════════════════════════════════════════════
-- BaseExtractor (extractors/base.extractor.ts)
-- ═════════════════════════════════════════════════════════════════════════

/-- Index of the first occurrence of a substring
(`String.prototype.indexOf`), `none` for −1. -/
def idxOfSub : Str → Str → Option Nat
  | hay, needle =>
    if startsList hay needle then some 0
    else
      match hay with
      | [] => none
      | _ :: t => (idxOfSub t needle).map (· + 1)

/-- `BaseExtractor.tryPatterns`: the first pattern that matches (every
locale pattern here has at most one capture group, so one capture slot is
allocated). -/
def tryPatterns (text : Str) (patterns : List RE) : Option MatchRes :=
  patterns.findSome? (fun p => reSearch p 1 text)

/-- `BaseExtractor.calculateConfidence` (lines 41–63), in exact rational
arithmetic.  The double-precision sums (e.g. `0.7 + 0.1`) differ from the
exact values by ~1e-16; no control-flow comparison in the extractors reads
this value, so the drift never changes behaviour.  The `position <
text.length * 0.3` float comparison agrees with the exact
`10·position < 3·length` on whole numbers of this size. -/
def calculateConfidenceB (m : MatchRes) (text : Str) : Q :=
  let matchedText := mTxt text m
  let capturedText := mGrpD m 1
  let c0 : Q := ⟨7, 10⟩
  let c1 := if capturedText.length > 0 ∧
      capturedText.length = (jsTrim matchedText).length then
      c0 + ⟨1, 10⟩ else c0
  let position := (idxOfSub text matchedText).getD 0
  let c2 := if 10 * position < 3 * text.length then c1 + ⟨1, 10⟩ else c1
  let beforeOk := if position = 0 then true
    else match text.get? (position - 1) with
      | some c => isWsC c
      | none => true
  let afterOk := match text.get? (position + matchedText.length) with
    | some c => isWsC c
    | none => true
  let c3 := if beforeOk && afterOk then c2 + ⟨1, 10⟩ else c2
  Q.qmin c3 1

/-- `BaseExtractor.failure`. -/
def bFailure : IExtractionResult := ⟨none, 0, none⟩

-- ═════════════════════════════════════════════════════════════════════════
-- ContactExtractor: address strategies (supplier-invoice.models.ts 341–988)
-- ═════════════════════════════════════════════════════════════════════════

/-- `join(', ')`. -/
def joinComma (ls : List Str) : Str := List.intercalate (", ".data) ls

/-- `ContactExtractor.#cleanAddress` (lines 1095–1101). -/
def cleanAddress (address : Str) : Str :=
  let colonWs := fun c => c = ':' || isWsC c
  let s1 := collapseWs address
  let s2 := s1.dropWhile colonWs
  jsTrim ((s2.reverse.dropWhile colonWs).reverse)

/-- `ContactExtractor.#extractPostalCode` (lines 1147–1150). -/
def extractPostalCode (text : Str) : Option Str :=
  (reSearch POSTAL_CODE 1 text).map (fun m => mGrpD m 1)

/-- The country-name table of `#getCountryName`. -/
def countryNames : List (Str × Str) :=
  [("MA", "Maroc"), ("FR", "France"), ("BE", "Belgique"), ("ES", "Espagne"),
   ("CH", "Suisse"), ("DE", "Allemagne"), ("IT", "Italie")].map
    (fun p => (p.1.data, p.2.data))

/-- `ContactExtractor.#getCountryName` (lines 1152–1164). -/
def getCountryName (code : Option Str) : Option Str :=
  match code with
  | none => none
  | some c =>
    if c.isEmpty then none
    else some (((countryNames.find? (fun p => p.1 = c)).map (·.2)).getD c)

/-- `/^\d+[\s,]/`. -/
def NUM_LEAD : RE :=
  rcat [.bos, rplus rdigit, .cls (fun c => isWsC c || c = ',')]

/-- `/rue|avenue|av\.|boulevard|bd|place|chemin|route|allée|impasse|voie/i`. -/
def STREET_WORDS : RE :=
  ralts [rstri "rue", rstri "avenue", rstri "av.", rstri "boulevard",
    rstri "bd", rstri "place", rstri "chemin", rstri "route", rstri "allée",
    rstri "impasse", rstri "voie"]

/-- `ContactExtractor.#isNumberedStreet` (lines 810–817). -/
def isNumberedStreet (line : Str) : Bool :=
  let trimmed := jsTrim line
  reTest NUMBERED_STREET trimmed ||
    (reTest NUM_LEAD trimmed && reTest STREET_WORDS trimmed)

/-- `ContactExtractor.#isLocation` (lines 824–831). -/
def isLocation (line : Str) : Bool :=
  let trimmed := jsTrim line
  reTest LOCATION_KEYWORDS trimmed || reTest LOCATION_FULL trimmed

/-- `/facture|n[°o]\s*:|bl\s*n|bc\s*n|devis|avoir|proforma/i`. -/
def SL_DOC : RE :=
  ralts [rstri "facture",
    rcat [rchri 'n', clsDegO, rstar rws, rchr ':'],
    rcat [rstri "bl", rstar rws, rchri 'n'],
    rcat [rstri "bc", rstar rws, rchri 'n'],
    rstri "devis", rstri "avoir", rstri "proforma"]

/-- `/^(date|ice|i\.?f|r\.?c|tél|tel|fax|email|client|code)/i`. -/
def SL_HDR : RE :=
  rcat [.bos,
    ralts [rstri "date", rstri "ice",
      rcat [rchri 'i', ropt (rchr '.'), rchri 'f'],
      rcat [rchri 'r', ropt (rchr '.'), rchri 'c'],
      rstri "tél", rstri "tel", rstri "fax", rstri "email", rstri "client",
      rstri "code"]]

/-- `/^[\d\s.,\/\-]+$/`. -/
def SL_NUMONLY : RE :=
  rcat [.bos,
    rplus (.cls (fun c => c.isDigit || isWsC c || c = '.' || c = ',' ||
      c = '/' || c = '-')),
    .eos]

/-- Uppercase letters `[A-ZÀ-Ü]` (case-sensitive). -/
def isUpperAccent (c : Char) : Bool :=
  ('A' ≤ c && c ≤ 'Z') || ('À' ≤ c && c ≤ 'Ü')

/-- `/^[A-ZÀ-Ü][A-Za-zÀ-ü\s\d,.\-°']{2,}$/` (case-sensitive). -/
def SL_CAPSLINE : RE :=
  rcat [.bos, .cls isUpperAccent,
    repMin (.cls (fun c => isAsciiLetter c || ('À' ≤ c && c ≤ 'ü') ||
      isWsC c || c.isDigit || c = ',' || c = '.' || c = '-' || c = '°' ||
      c = '\'')) 2,
    .eos]

/-- `ContactExtractor.#looksLikeStreetLine` (lines 837–874). -/
def looksLikeStreetLine (line : Str) : Bool :=
  let trimmed := jsTrim line
  let lowerLine := lowStr trimmed
  if decide (trimmed.length < 3) || decide (trimmed.length > 80) then false
  else if isStopLine line then false
  else if reTest SL_DOC lowerLine then false
  else if reTest SL_HDR lowerLine then false
  else if reTest SL_NUMONLY trimmed then false
  else if looksLikeAddress line then true
  else if reTest LOCATION_KEYWORDS trimmed then true
  else if reTest SL_CAPSLINE trimmed &&
      decide ((splitWsP trimmed).length ≥ 2) then true
  else if reTest NUM_LEAD trimmed then true
  else false

/-- `ContactExtractor.#dispatchAddressLines` (lines 752–803).  The loop
buckets each line (a numbered street overwrites, so the last one wins). -/
def dispatchAddressLines (lines : List Str) : Option Str × Option Str :=
  if lines.isEmpty then (none, none)
  else
    let numberedStreet := (lines.filter (fun l => isNumberedStreet l)).getLast?
    let locations := lines.filter
      (fun l => !isNumberedStreet l && isLocation l)
    let otherLines := lines.filter
      (fun l => !isNumberedStreet l && !isLocation l)
    match numberedStreet with
    | some n =>
      let complement := (locations ++ otherLines).filter (fun s => !s.isEmpty)
      (some n, if complement.isEmpty then none else some (joinComma complement))
    | none =>
      match locations with
      | firstLocation :: restLocations =>
        let complement := (restLocations ++ otherLines).filter
          (fun s => !s.isEmpty)
        (some firstLocation,
          if complement.isEmpty then none else some (joinComma complement))
      | [] =>
        match otherLines with
        | first :: rest =>
          (some first, if rest.isEmpty then none else some (joinComma rest))
        | [] => (none, none)

/-- Document pattern 1 of `#extractAddressPartFromDocumentLine`. -/
def DP_FACTURE : RE :=
  rcat [ralts [rstri "facture", rstri "devis", rstri "avoir",
      rstri "proforma"],
    rstar rws, ropt (rcat [rchri 'n', ropt clsDegO, rstar rws]),
    ropt (rchr ':'), rstar rws, rplus rdigit, rplus rws, .grp 0 (rplus rdot)]

/-- Document pattern 2 of `#extractAddressPartFromDocumentLine`. -/
def DP_BL : RE :=
  rcat [ralts [rstri "bl", rstri "bc", rstri "br"],
    rstar rws, ropt (rcat [rchri 'n', ropt clsDegO, rstar rws]),
    ropt (rchr ':'), rstar rws, rplus rdigit, rplus rws, .grp 0 (rplus rdot)]

/-- Document pattern 3 of `#extractAddressPartFromDocumentLine`. -/
def DP_NUM : RE :=
  rcat [rchri 'n', clsDegO, rstar rws, ropt (rchr ':'), rstar rws,
    rplus rdigit, rplus rws, .grp 0 (rplus rdot)]

/-- One pattern attempt of `#extractAddressPartFromDocumentLine`
(lines 940–953): the captured tail must itself look like a location or
address. -/
def eadpTry (r : RE) (line : Str) : Option Str :=
  match reSearch r 1 line with
  | some m =>
    let potentialAddress := jsTrim (mGrpD m 1)
    if decide (potentialAddress.length ≥ 5) &&
        (isLocation potentialAddress || looksLikeAddress potentialAddress ||
          looksLikeStreetLine potentialAddress) then
      some potentialAddress
    else none
  | none => none

/-- `ContactExtractor.#extractAddressPartFromDocumentLine` (lines 929–956). -/
def extractAddressPartFromDocumentLine (line : Str) : Option Str :=
  (eadpTry DP_FACTURE line).orElse (fun _ =>
    (eadpTry DP_BL line).orElse (fun _ => eadpTry DP_NUM line))

/-- Structured address components. -/
structure AddrComponents where
  street : Option Str
  streetLine2 : Option Str
  city : Option Str
  country : Option Str
  postalCode : Option Str
deriving DecidableEq

/-- `/^\d{4,5}$/`. -/
def POSTAL45 : RE := rcat [.bos, .rep rdigit 4 (some 5) false, .eos]

/-- `ContactExtractor.#parseAddressComponents` (lines 1107–1145). -/
def parseAddressComponents (address : Str) : AddrComponents :=
  let cityInfo := findCity address
  let countryInfo := findCountry address
  let postalCode := extractPostalCode address
  let parts := ((splitSingle (fun c => c = ',' || c = '\n') [] address).map
    jsTrim).filter (fun p => !p.isEmpty)
  let cityName := cityInfo.map (fun ci => lowStr ci.city)
  let countryStr : Option Str :=
    match countryInfo with
    | some co => some co.country
    | none => getCountryName (cityInfo.map (·.country))
  let countryName := countryStr.map lowStr
  let addressParts := parts.filter (fun part =>
    let lowerPart := lowStr part
    if (match cityName with
        | some cn => containsSub lowerPart cn
        | none => false) then false
    else if (match countryName with
        | some cn => containsSub lowerPart cn
        | none => false) then false
    else if reTest POSTAL45 (jsTrim part) then false
    else true)
  let sd := dispatchAddressLines addressParts
  { street := sd.1,
    streetLine2 := sd.2,
    city := cityInfo.map (·.city),
    country := countryStr,
    postalCode := postalCode }

/-- The empty address result (`#emptyAddressResult`). -/
def emptyAddressResult : IAddressResult :=
  ⟨none, 0, none, none, none, none, none, none⟩

/-- Strategy 1, `#extractLabeledAddress` (lines 566–595): the first pattern
whose match has a non-empty first capture. -/
def extractLabeledAddress (text : Str) (locale : IOcrLocale) : IAddressResult :=
  match ([ADDRESS_LABELED, ADDRESS_SIEGE, ADDRESS_DOMICILIE] ++
      locale.supplierAddress).findSome? (fun p =>
        match reSearch p 1 text with
        | some m => if (mGrpD m 1).isEmpty then none else some m
        | none => none) with
  | some m =>
    let address := cleanAddress (mGrpD m 1)
    let components := parseAddressComponents address
    { value := some address,
      confidence := ⟨17, 20⟩,
      sourceText := some (mTxt text m),
      street := components.street,
      streetLine2 := components.streetLine2,
      city := components.city,
      country := components.country,
      postalCode := components.postalCode }
  | none => emptyAddressResult

/-- Collection loop of `#extractPositionalAddress` (lines 613–624), over
the at most five lines after the supplier-name line. -/
def epaGo : List Str → List Str
  | [] => []
  | l :: rest =>
    let line := jsTrim l
    if line.isEmpty then epaGo rest
    else if isStopLine line then []
    else if looksLikeAddress line || looksLikeStreetLine line then
      line :: epaGo rest
    else epaGo rest

/-- Strategy 2, `#extractPositionalAddress` (lines 600–657). -/
def extractPositionalAddress (text : Str) (supplierName : Str) :
    IAddressResult :=
  let lines := splitNl text
  match lines.findIdx? (fun l =>
      containsSub (lowStr l) (lowStr supplierName)) with
  | none => emptyAddressResult
  | some nameIndex =>
    let collectedLines := epaGo ((lines.drop (nameIndex + 1)).take 5)
    if collectedLines.isEmpty then emptyAddressResult
    else
      let cityLineIndex := collectedLines.findIdx?
        (fun line => (findCity line).isSome)
      let streetLocationLines := match cityLineIndex with
        | some k => collectedLines.take k
        | none => collectedLines.dropLast
      let cityLine := match cityLineIndex with
        | some k => (collectedLines.get? k).getD []
        | none => collectedLines.getLastD []
      let sd := dispatchAddressLines streetLocationLines
      let cityInfo := findCity cityLine
      { value := some (joinComma collectedLines),
        confidence := ⟨3, 5⟩ + ⟨(collectedLines.length : Int), 1⟩ * ⟨1, 10⟩,
        sourceText := some (joinNl collectedLines),
        street := match sd.1 with
          | some s => some s
          | none => streetLocationLines.head?,
        streetLine2 := sd.2,
        city := cityInfo.map (·.city),
        country := getCountryName (cityInfo.map (·.country)),
        postalCode := extractPostalCode cityLine }

/-- Backward scan of `#extractAddressByCity` (lines 683–708), descending
from `i−1` over at most `min i 4` lines, in scan order (reversed by the
caller to restore the `unshift` order). -/
def eabcBackGo (lines : List Str) : Nat → Nat → List Str
  | _, 0 => []
  | j, Nat.succ fuel =>
    let prevLine := jsTrim ((lines.get? j).getD [])
    if prevLine.isEmpty then eabcBackGo lines (j - 1) fuel
    else if isStopLine prevLine then
      match extractAddressPartFromDocumentLine prevLine with
      | some ap => [ap]
      | none => []
    else if looksLikeStreetLine prevLine then
      prevLine :: eabcBackGo lines (j - 1) fuel
    else
      match extractAddressPartFromDocumentLine prevLine with
      | some ap => [ap]
      | none => []

/-- Main loop of strategy 3, `#extractAddressByCity` (lines 664–741). -/
def eabcGo (lines : List Str) : Nat → Nat → Option IAddressResult
  | _, 0 => none
  | i, Nat.succ fuel =>
    match lines.get? i with
    | none => none
    | some li =>
      let line := jsTrim li
      if line.isEmpty then eabcGo lines (i + 1) fuel
      else if isStopLine line then eabcGo lines (i + 1) fuel
      else if !looksLikeAddress line then eabcGo lines (i + 1) fuel
      else
        match findCity line with
        | some cityInfo =>
          let collectedLines := (eabcBackGo lines (i - 1) (min i 4)).reverse
          let sd := dispatchAddressLines collectedLines
          let addressLines :=
            (match sd.1 with | some s => [s] | none => []) ++
            (match sd.2 with | some s => [s] | none => []) ++ [line]
          some
            { value := some (joinComma addressLines),
              confidence := cityInfo.confidence,
              sourceText := some (joinNl addressLines),
              street := sd.1,
              streetLine2 := sd.2,
              city := some cityInfo.city,
              country := getCountryName (some cityInfo.country),
              postalCode := extractPostalCode line }
        | none => eabcGo lines (i + 1) fuel

/-- Strategy 3, `#extractAddressByCity`. -/
def extractAddressByCity (text : Str) : IAddressResult :=
  let lines := splitNl text
  (eabcGo lines 0 (lines.length + 1)).getD emptyAddressResult

/-- Main loop of strategy 4, `#extractAddressFromDocumentLines`
(lines 881–921). -/
def eafdGo (lines : List Str) : Nat → Nat → Option IAddressResult
  | _, 0 => none
  | i, Nat.succ fuel =>
    match lines.get? i with
    | none => none
    | some li =>
      let line := jsTrim li
      if line.isEmpty then eafdGo lines (i + 1) fuel
      else
        match extractAddressPartFromDocumentLine line with
        | some addressPart =>
          let nextLine := jsTrim ((lines.get? (i + 1)).getD [])
          match (findCity nextLine).orElse (fun _ => findCity addressPart) with
          | some cityInfo =>
            let addressLines := [addressPart] ++
              (if !nextLine.isEmpty && looksLikeAddress nextLine then
                [nextLine] else [])
            let sd := dispatchAddressLines [addressPart]
            some
              { value := some (joinComma addressLines),
                confidence := ⟨7, 10⟩,
                sourceText := some (joinNl addressLines),
                street := sd.1,
                streetLine2 := sd.2,
                city := some cityInfo.city,
                country := getCountryName (some cityInfo.country),
                postalCode := extractPostalCode (jsOrStr nextLine addressPart) }
          | none => eafdGo lines (i + 1) fuel
        | none => eafdGo lines (i + 1) fuel

/-- Strategy 4, `#extractAddressFromDocumentLines`. -/
def extractAddressFromDocumentLines (text : Str) : IAddressResult :=
  let lines := splitNl text
  (eafdGo lines 0 (lines.length + 1)).getD emptyAddressResult

/-- Strategy 5, `#extractAddressByKeywords` (lines 961–988). -/
def extractAddressByKeywords (text : Str) : IAddressResult :=
  match reSearch STREET_KEYWORDS 0 text with
  | some m =>
    let address := jsTrim (mTxt text m)
    if !looksLikeAddress address then emptyAddressResult
    else
      let components := parseAddressComponents address
      { value := some address,
        confidence := ⟨1, 2⟩,
        sourceText := some (mTxt text m),
        street := components.street,
        streetLine2 := components.streetLine2,
        city := components.city,
        country := components.country,
        postalCode := components.postalCode }
  | none => emptyAddressResult

/-- Strategies 3–5 of the cascade (shared by both branches of the
supplier-name test). -/
def extractAddressTail (headerText : Str) : IAddressResult :=
  let byCity := extractAddressByCity headerText
  if byCity.confidence ≥ ⟨1, 2⟩ then byCity
  else
    let fromDocLine := extractAddressFromDocumentLines headerText
    if fromDocLine.confidence ≥ ⟨1, 2⟩ then fromDocLine
    else
      let byKeywords := extractAddressByKeywords headerText
      if byKeywords.confidence ≥ ⟨2, 5⟩ then byKeywords
      else emptyAddressResult

/-- `ContactExtractor.extractAddress` (lines 394–441): the five-strategy
cascade over the header zone.  `supplierName` is the optional argument
(`undefined` or the extracted name; the source tests its truthiness, so an
empty string also skips strategy 2). -/
def extractAddress (text : Str) (locale : IOcrLocale)
    (supplierName : Option Str) : IAddressResult :=
  let headerText := extractHeaderZone text
  let labeled := extractLabeledAddress headerText locale
  if labeled.confidence ≥ ⟨7, 10⟩ then labeled
  else if strTruthy supplierName then
    let positional := extractPositionalAddress headerText
      (supplierName.getD [])
    if positional.confidence ≥ ⟨1, 2⟩ then positional
    else extractAddressTail headerText
  else extractAddressTail headerText

-- ═════════════════════════════════════════════════════════════════════════
-- ContactExtractor: phone, name, email
-- ═════════════════════════════════════════════════════════════════════════

/-- `ContactExtractor.#cleanPhone` (`replace(/[\s.\-()]/g, '')`). -/
def cleanPhone (phone : Str) : Str :=
  phone.filter (fun c => !(isWsC c || c = '.' || c = '-' || c = '(' ||
    c = ')'))

/-- `replace(/^pre/, rep)` for a literal lead. -/
def replaceLead (s pre rep : Str) : Str :=
  if startsList s pre then rep ++ s.drop pre.length else s

/-- The `replace(/(\d{2})(\d{2})(\d{2})(\d{2})(\d{2})/, '$1 $2 $3 $4 $5')`
formatting; it is only applied to strings of exactly ten digits, where it
inserts a space between consecutive pairs. -/
def group2x5 (s : Str) : Str :=
  List.intercalate [' ']
    [s.take 2, (s.drop 2).take 2, (s.drop 4).take 2, (s.drop 6).take 2,
      (s.drop 8).take 2]

/-- Result triple of `#validateAndFormatPhone`. -/
structure PhoneVal where
  value : Option Str
  isValid : Bool
  country : Str
deriving DecidableEq

/-- `ContactExtractor.#validateAndFormatPhone` (lines 1208–1248). -/
def validateAndFormatPhone (phone : Str) (country : Str) : PhoneVal :=
  let cleaned := cleanPhone phone
  if country = "MA".data then
    let normalized := replaceLead (replaceLead cleaned "+212".data "0".data)
      "212".data "0".data
    if reTest PHONE_VALID_MA normalized then
      ⟨some (group2x5 normalized), true, "MA".data⟩
    else ⟨none, false, "MA".data⟩
  else if country = "FR".data then
    let normalized := replaceLead (replaceLead cleaned "+33".data "0".data)
      "33".data "0".data
    if reTest PHONE_VALID_FR normalized then
      ⟨some (group2x5 normalized), true, "FR".data⟩
    else ⟨none, false, "FR".data⟩
  else
    if reTest PHONE_VALID_INTL cleaned then ⟨some cleaned, true, "INTL".data⟩
    else ⟨none, false, "INTL".data⟩

/-- `ContactExtractor.#detectCountryFromText` (lines 1187–1193). -/
def detectCountryFromText (text : Str) : Option Str :=
  match findCountry text with
  | some co => some co.countryCode
  | none => (findCity text).map (·.country)

/-- `ContactExtractor.#detectCountryFromPhone` (lines 1195–1206). -/
def detectCountryFromPhone (phone : Str) : Str :=
  if startsList phone "+212".data || startsList phone "212".data then
    "MA".data
  else if startsList phone "+33".data || startsList phone "33".data then
    "FR".data
  else if startsList phone "+32".data || startsList phone "32".data then
    "BE".data
  else if startsList phone "+34".data || startsList phone "34".data then
    "ES".data
  else if startsList phone "0".data then
    if reTest (rcat [.bos, rchr '0', rcls "25678"]) phone then "MA".data
    else if reTest (rcat [.bos, rchr '0',
        .cls (fun c => '1' ≤ c && c ≤ '9')]) phone then "FR".data
    else "INTL".data
  else "INTL".data

/-- `ContactExtractor.#getPhonePatternsForCountry` (lines 1166–1185). -/
def getPhonePatternsForCountry (country : Str) : List RE :=
  if country = "MA".data then
    [PHONE_MA_LABELED, PHONE_MA_INTL, PHONE_MA_DOMESTIC_SEP,
      PHONE_MA_DOMESTIC_COMPACT]
  else if country = "FR".data then
    [PHONE_FR_LABELED, PHONE_FR_INTL, PHONE_FR_DOMESTIC_SEP,
      PHONE_FR_DOMESTIC_COMPACT]
  else [PHONE_INTL_E164, PHONE_INTL_LABELED]

/-- The empty phone result (`#emptyPhoneResult`). -/
def emptyPhoneResult : IPhoneResult := ⟨none, 0, none, none, false⟩

/-- Pattern loop of `#extractLabeledPhone` (lines 997–1018): an invalid
candidate moves on to the next pattern. -/
def elpGo (text : Str) (country : Str) : List RE → IPhoneResult
  | [] => emptyPhoneResult
  | p :: rest =>
    match reSearch p 1 text with
    | some m =>
      let phone := cleanPhone ((mGrp m 1).getD (mTxt text m))
      let validated := validateAndFormatPhone phone country
      if validated.isValid then
        ⟨validated.value, ⟨9, 10⟩, some (mTxt text m),
          some validated.country, true⟩
      else elpGo text country rest
    | none => elpGo text country rest

/-- Strategy 1, `#extractLabeledPhone`. -/
def extractLabeledPhone (text : Str) (country : Str) : IPhoneResult :=
  elpGo text country (getPhonePatternsForCountry country)

/-- Pattern loop of `#extractInternationalPhone` (lines 1023–1045). -/
def eipGo (text : Str) : List RE → IPhoneResult
  | [] => emptyPhoneResult
  | p :: rest =>
    match reSearch p 1 text with
    | some m =>
      let phone := cleanPhone ((mGrp m 1).getD (mTxt text m))
      let country := detectCountryFromPhone phone
      let validated := validateAndFormatPhone phone country
      if validated.isValid then
        ⟨validated.value, ⟨3, 4⟩, some (mTxt text m),
          some validated.country, true⟩
      else eipGo text rest
    | none => eipGo text rest

/-- Strategy 3, `#extractInternationalPhone`. -/
def extractInternationalPhone (text : Str) : IPhoneResult :=
  eipGo text [PHONE_INTL_E164, PHONE_INTL_LABELED]

/-- `/(\d[\d\s.\-()]{8,18}\d)/g` — the generic phone shape; the single
capture spans the whole match, so the match text is the captured text. -/
def GEN_PHONE : RE :=
  .grp 0 (rcat [rdigit, .rep phSepCls 8 (some 18) false, rdigit])

/-- Match loop of `#extractGenericPhone` (lines 1050–1071). -/
def egpGo (text : Str) (country : Str) : List MatchRes → IPhoneResult
  | [] => emptyPhoneResult
  | m :: rest =>
    let phone := cleanPhone (mTxt text m)
    let validated := validateAndFormatPhone phone country
    if validated.isValid then
      ⟨validated.value, ⟨1, 2⟩, some (mTxt text m),
        some validated.country, true⟩
    else egpGo text country rest

/-- Strategy 4, `#extractGenericPhone`. -/
def extractGenericPhone (text : Str) (country : Str) : IPhoneResult :=
  egpGo text country (reFindAll GEN_PHONE text)

/-- Strategies 3 and 4 of the phone cascade. -/
def extractPhoneTail (headerText : Str) (country : Str) : IPhoneResult :=
  let intlResult := extractInternationalPhone headerText
  if intlResult.isValid then intlResult
  else
    let generic := extractGenericPhone headerText country
    if generic.isValid then generic
    else emptyPhoneResult

/-- `ContactExtractor.extractPhone` (lines 447–495): country preference,
then labeled, locale, international and generic strategies over the header
zone; the fall-through result carries `value = null`, `confidence = 0` and
`isValid = false`. -/
def extractPhone (text : Str) (locale : IOcrLocale)
    (preferredCountry : Option Str) : IPhoneResult :=
  let headerText := extractHeaderZone text
  let country := jsOrStr (preferredCountry.getD [])
    (jsOrStr ((detectCountryFromText headerText).getD []) "MA".data)
  let labeled := extractLabeledPhone headerText country
  if labeled.isValid && decide (labeled.confidence ≥ ⟨4, 5⟩) then labeled
  else
    match tryPatterns headerText locale.supplierPhone with
    | some m =>
      let phone := cleanPhone ((mGrp m 1).getD (mTxt headerText m))
      let validated := validateAndFormatPhone phone country
      if validated.isValid then
        ⟨validated.value, calculateConfidenceB m headerText,
          some (mTxt headerText m), some validated.country, true⟩
      else extractPhoneTail headerText country
    | none => extractPhoneTail headerText country

/-- `/^\d{1,2}[/\-.]\d{1,2}[/\-.]\d{2,4}$/`. -/
def DATE_FULL : RE :=
  rcat [.bos, repN rdigit 1 2, rcls "/-.", repN rdigit 1 2, rcls "/-.",
    repN rdigit 2 4, .eos]

/-- `/^[\d\s.,]+$/`. -/
def NUMS_ONLY : RE :=
  rcat [.bos,
    rplus (.cls (fun c => c.isDigit || isWsC c || c = '.' || c = ',')),
    .eos]

/-- `ContactExtractor.#looksLikeCompanyName` (lines 1077–1093).  The float
comparison `count > length * 0.3` agrees with the exact
`10·count > 3·length` (the product rounds back to the exact value whenever
the bound is an integer). -/
def looksLikeCompanyName (line : Str) (locale : IOcrLocale) : Bool :=
  let trimmed := jsTrim line
  if !headCharIs isUpperAccent trimmed then false
  else if decide (trimmed.length < 3) || decide (trimmed.length > 60) then
    false
  else if decide ((trimmed.filter Char.isDigit).length > 0) &&
      decide (10 * (trimmed.filter Char.isDigit).length >
        3 * trimmed.length) then false
  else if (splitWsP (lowStr trimmed)).all
      (fun w => locale.stopWords.contains w) then false
  else if reTest DATE_FULL trimmed then false
  else if reTest NUMS_ONLY trimmed then false
  else true

/-- `ContactExtractor.extractName` (lines 359–384). -/
def extractName (text : Str) (locale : IOcrLocale) : IExtractionResult :=
  match tryPatterns text locale.supplierName with
  | some m =>
    let captured := (mGrp m 1).getD (mTxt text m)
    ⟨some (jsTrim captured), calculateConfidenceB m text, some (mTxt text m)⟩
  | none =>
    let lines := (splitNl text).filter (fun l => (jsTrim l).length > 3)
    match lines.find? (fun line => looksLikeCompanyName line locale) with
    | some companyLine =>
      ⟨some (jsTrim companyLine), ⟨1, 2⟩, some companyLine⟩
    | none => bFailure

/-- `/[a-zA-Z0-9._%+-]+@[a-zA-Z0-9.-]+\.[a-zA-Z]{2,}/`. -/
def EMAIL_RE : RE :=
  rcat [rplus (.cls (fun c => isAsciiLetter c || c.isDigit || c = '.' ||
      c = '_' || c = '%' || c = '+' || c = '-')),
    rchr '@',
    rplus (.cls (fun c => isAsciiLetter c || c.isDigit || c = '.' ||
      c = '-')),
    rchr '.', repMin (.cls isAsciiLetter) 2]

/-- `ContactExtractor.extractEmail` (lines 500–514). -/
def extractEmail (text : Str) : IExtractionResult :=
  match reSearch EMAIL_RE 0 text with
  | some m =>
    ⟨some (lowStr (mTxt text m)), calculateConfidenceB m text,
      some (mTxt text m)⟩
  | none => bFailure

-- ═════════════════════════════════════════════════════════════════════════
-- C6: the five-strategy address cascade
-- ═════════════════════════════════════════════════════════════════════════

/-- The spec's wording of the address cascade: five strategies in order,
the first whose confidence clears its floor (0.7 / 0.5 / 0.5 / 0.5 / 0.4)
wins; the positional strategy counts as confidence 0 when no supplier name
is supplied; otherwise the empty result (null value, zero confidence). -/
def specAddressCascade (text : Str) (locale : IOcrLocale)
    (supplierName : Option Str) : IAddressResult :=
  let headerText := extractHeaderZone text
  let s1 := extractLabeledAddress headerText locale
  let s2 := if strTruthy supplierName then
      extractPositionalAddress headerText (supplierName.getD [])
    else emptyAddressResult
  let s3 := extractAddressByCity headerText
  let s4 := extractAddressFromDocumentLines headerText
  let s5 := extractAddressByKeywords headerText
  if s1.confidence ≥ ⟨7, 10⟩ then s1
  else if s2.confidence ≥ ⟨1, 2⟩ then s2
  else if s3.confidence ≥ ⟨1, 2⟩ then s3
  else if s4.confidence ≥ ⟨1, 2⟩ then s4
  else if s5.confidence ≥ ⟨2, 5⟩ then s5
  else emptyAddressResult

/-- C6: `extractAddress` is exactly the five-strategy floor cascade of the
spec, and when no strategy reaches its floor the result is the empty one
with `value = null` and `confidence = 0`. -/
theorem claim6_address_cascade (text : Str) (locale : IOcrLocale)
    (supplierName : Option Str) :
    (extractAddress text locale supplierName =
      specAddressCascade text locale supplierName) ∧
    ((¬ (extractLabeledAddress (extractHeaderZone text) locale).confidence
        ≥ ⟨7, 10⟩) →
      (∀ n, supplierName = some n →
        ¬ (extractPositionalAddress (extractHeaderZone text) n).confidence
          ≥ ⟨1, 2⟩) →
      (¬ (extractAddressByCity (extractHeaderZone text)).confidence
        ≥ ⟨1, 2⟩) →
      (¬ (extractAddressFromDocumentLines (extractHeaderZone text)).confidence
        ≥ ⟨1, 2⟩) →
      (¬ (extractAddressByKeywords (extractHeaderZone text)).confidence
        ≥ ⟨2, 5⟩) →
      extractAddress text locale supplierName = emptyAddressResult ∧
        emptyAddressResult.value = none ∧
        emptyAddressResult.confidence = 0) := by
  constructor
  · unfold extractAddress specAddressCascade extractAddressTail
    dsimp only
    by_cases h1 : (extractLabeledAddress (extractHeaderZone text)
        locale).confidence ≥ (⟨7, 10⟩ : Q)
    · simp [h1]
    · by_cases h2 : strTruthy supplierName = true
      · simp [h1, h2]
      · simp [h1, h2, emptyAddressResult,
          show ¬ ((0 : Q) ≥ (⟨1, 2⟩ : Q)) by decide]
  · intro h1 h2 h3 h4 h5
    refine ⟨?_, rfl, rfl⟩
    unfold extractAddress extractAddressTail
    dsimp only
    rw [if_neg h1]
    cases hs : supplierName with
    | none =>
      simp only [strTruthy, Bool.false_eq_true, if_false]
      rw [if_neg h3, if_neg h4, if_neg h5]
    | some n =>
      by_cases ht : strTruthy (some n) = true
      · simp only [ht, if_true, Option.getD_some]
        rw [if_neg (h2 n hs), if_neg h3, if_neg h4, if_neg h5]
      · simp only [ht, Bool.false_eq_true, if_false]
        try rw [if_neg h3, if_neg h4, if_neg h5]

/-- Concrete instantiation of the C6 theorem: on the empty document no
strategy reaches its floor and the returned result is the empty one. -/
theorem claim6_witness :
    extractAddress "".data FR_LOCALE none = emptyAddressResult ∧
    emptyAddressResult.value = none ∧ emptyAddressResult.confidence = 0 :=
  (claim6_address_cascade "".data FR_LOCALE none).2
    (by decide) (fun n h => Option.noConfusion h) (by decide) (by decide)
    (by decide)

-- ═════════════════════════════════════════════════════════════════════════
-- C7: failure results are explicit (null value, zero confidence)
-- ═════════════════════════════════════════════════════════════════════════

/-- Strategy 1 returns either a value or the empty result. -/
lemma extractLabeledAddress_none (text : Str) (locale : IOcrLocale)
    (h : (extractLabeledAddress text locale).value = none) :
    extractLabeledAddress text locale = emptyAddressResult := by
  unfold extractLabeledAddress at h ⊢
  split at h
  · exact Option.noConfusion h
  · rfl

/-- Strategy 2 returns either a value or the empty result. -/
lemma extractPositionalAddress_none (text : Str) (supplierName : Str)
    (h : (extractPositionalAddress text supplierName).value = none) :
    extractPositionalAddress text supplierName = emptyAddressResult := by
  unfold extractPositionalAddress at h ⊢
  dsimp only at h ⊢
  split at h
  · rfl
  · split at h
    next hempty => rw [if_pos hempty]
    next => exact Option.noConfusion h

/-- The city-detection loop only yields results carrying a value. -/
lemma eabcGo_some_value (lines : List Str) :
    ∀ fuel i r, eabcGo lines i fuel = some r → r.value.isSome = true := by
  intro fuel
  induction fuel with
  | zero => intro i r h; exact Option.noConfusion h
  | succ f ih =>
    intro i r h
    unfold eabcGo at h
    dsimp only at h
    repeat' split at h
    all_goals first
      | exact Option.noConfusion h
      | exact ih _ _ h
      | (injection h with h2; subst h2; rfl)

/-- Strategy 3 returns either a value or the empty result. -/
lemma extractAddressByCity_none (text : Str)
    (h : (extractAddressByCity text).value = none) :
    extractAddressByCity text = emptyAddressResult := by
  unfold extractAddressByCity at h ⊢
  dsimp only at h ⊢
  cases heq : eabcGo (splitNl text) 0 ((splitNl text).length + 1) with
  | some r =>
    rw [heq] at h
    have hv := eabcGo_some_value (splitNl text) _ _ _ heq
    rw [Option.getD_some] at h
    rw [h] at hv
    exact Bool.noConfusion hv
  | none => rfl

/-- The document-line loop only yields results carrying a value. -/
lemma eafdGo_some_value (lines : List Str) :
    ∀ fuel i r, eafdGo lines i fuel = some r → r.value.isSome = true := by
  intro fuel
  induction fuel with
  | zero => intro i r h; exact Option.noConfusion h
  | succ f ih =>
    intro i r h
    unfold eafdGo at h
    dsimp only at h
    repeat' split at h
    all_goals first
      | exact Option.noConfusion h
      | exact ih _ _ h
      | (injection h with h2; subst h2; rfl)

/-- Strategy 4 returns either a value or the empty result. -/
lemma extractAddressFromDocumentLines_none (text : Str)
    (h : (extractAddressFromDocumentLines text).value = none) :
    extractAddressFromDocumentLines text = emptyAddressResult := by
  unfold extractAddressFromDocumentLines at h ⊢
  dsimp only at h ⊢
  cases heq : eafdGo (splitNl text) 0 ((splitNl text).length + 1) with
  | some r =>
    rw [heq] at h
    have hv := eafdGo_some_value (splitNl text) _ _ _ heq
    rw [Option.getD_some] at h
    rw [h] at hv
    exact Bool.noConfusion hv
  | none => rfl

/-- Strategy 5 returns either a value or the empty result. -/
lemma extractAddressByKeywords_none (text : Str)
    (h : (extractAddressByKeywords text).value = none) :
    extractAddressByKeywords text = emptyAddressResult := by
  unfold extractAddressByKeywords at h ⊢
  split at h
  · dsimp only at h ⊢
    split at h
    next hcond => rw [if_pos hcond]
    next => exact Option.noConfusion h
  · rfl

/-- The strategy-3–5 tail: a null value forces zero confidence. -/
lemma extractAddressTail_none (text : Str)
    (h : (extractAddressTail text).value = none) :
    (extractAddressTail text).confidence = 0 := by
  unfold extractAddressTail at h ⊢
  dsimp only at h ⊢
  split at h
  next hc =>
    rw [extractAddressByCity_none text h] at hc
    exact absurd hc (by decide)
  next hc =>
    rw [if_neg hc]
    split at h
    next hd =>
      rw [extractAddressFromDocumentLines_none text h] at hd
      exact absurd hd (by decide)
    next hd =>
      rw [if_neg hd]
      split at h
      next hk =>
        rw [extractAddressByKeywords_none text h] at hk
        exact absurd hk (by decide)
      next hk => rw [if_neg hk]; rfl

/-- `extractAddress`: a null value forces zero confidence. -/
lemma extractAddress_none (text : Str) (locale : IOcrLocale)
    (supplierName : Option Str)
    (h : (extractAddress text locale supplierName).value = none) :
    (extractAddress text locale supplierName).confidence = 0 := by
  unfold extractAddress at h ⊢
  dsimp only at h ⊢
  split at h
  next hc =>
    rw [if_pos hc] at *
    rw [extractLabeledAddress_none _ _ h] at hc
    exact absurd hc (by decide)
  next hc =>
    rw [if_neg hc]
    split at h
    next ht =>
      rw [if_pos ht]
      split at h
      next hp =>
        rw [if_pos hp]
        rw [extractPositionalAddress_none _ _ h] at hp
        exact absurd hp (by decide)
      next hp =>
        rw [if_neg hp]
        exact extractAddressTail_none _ h
    next ht =>
      rw [if_neg ht]
      exact extractAddressTail_none _ h

/-- `#validateAndFormatPhone` reports validity exactly when it carries a
formatted value. -/
lemma vafp_shape (phone country : Str) :
    (validateAndFormatPhone phone country).isValid =
      (validateAndFormatPhone phone country).value.isSome := by
  unfold validateAndFormatPhone
  dsimp only
  repeat' split
  all_goals rfl

/-- The labeled-phone pattern loop: a null value means the empty result. -/
lemma elpGo_none (text country : Str) :
    ∀ ps, (elpGo text country ps).value = none →
      elpGo text country ps = emptyPhoneResult := by
  intro ps
  induction ps with
  | nil => intro _; rfl
  | cons p rest ih =>
    intro h
    unfold elpGo at h ⊢
    split at h
    next m heq =>
      dsimp only at h ⊢
      split at h
      next hv =>
        exfalso
        dsimp only at h
        rw [vafp_shape] at hv
        rw [h] at hv
        simp at hv
      next hv =>
        rw [if_neg hv]
        exact ih h
    next heq => exact ih h

/-- Strategy 1 of the phone cascade: null value means the empty result. -/
lemma extractLabeledPhone_none (text country : Str)
    (h : (extractLabeledPhone text country).value = none) :
    extractLabeledPhone text country = emptyPhoneResult :=
  elpGo_none text country _ h

/-- The international-phone pattern loop: a null value means the empty
result. -/
lemma eipGo_none (text : Str) :
    ∀ ps, (eipGo text ps).value = none →
      eipGo text ps = emptyPhoneResult := by
  intro ps
  induction ps with
  | nil => intro _; rfl
  | cons p rest ih =>
    intro h
    unfold eipGo at h ⊢
    split at h
    next m heq =>
      dsimp only at h ⊢
      split at h
      next hv =>
        exfalso
        dsimp only at h
        rw [vafp_shape] at hv
        rw [h] at hv
        simp at hv
      next hv =>
        rw [if_neg hv]
        exact ih h
    next heq => exact ih h

/-- Strategy 3 of the phone cascade: null value means the empty result. -/
lemma extractInternationalPhone_none (text : Str)
    (h : (extractInternationalPhone text).value = none) :
    extractInternationalPhone text = emptyPhoneResult :=
  eipGo_none text _ h

/-- The generic-phone match loop: a null value means the empty result. -/
lemma egpGo_none (text country : Str) :
    ∀ ms, (egpGo text country ms).value = none →
      egpGo text country ms = emptyPhoneResult := by
  intro ms
  induction ms with
  | nil => intro _; rfl
  | cons m rest ih =>
    intro h
    unfold egpGo at h ⊢
    dsimp only at h ⊢
    split at h
    next hv =>
      exfalso
      dsimp only at h
      rw [vafp_shape] at hv
      rw [h] at hv
      simp at hv
    next hv =>
      rw [if_neg hv]
      exact ih h

/-- Strategy 4 of the phone cascade: null value means the empty result. -/
lemma extractGenericPhone_none (text country : Str)
    (h : (extractGenericPhone text country).value = none) :
    extractGenericPhone text country = emptyPhoneResult :=
  egpGo_none text country _ h

/-- The strategy-3/4 phone tail: null value means the empty result. -/
lemma extractPhoneTail_none (headerText country : Str)
    (h : (extractPhoneTail headerText country).value = none) :
    extractPhoneTail headerText country = emptyPhoneResult := by
  unfold extractPhoneTail at h ⊢
  dsimp only at h ⊢
  split at h
  next hi => rw [if_pos hi, extractInternationalPhone_none _ h]
  next hi =>
    rw [if_neg hi]
    split at h
    next hg => rw [if_pos hg, extractGenericPhone_none _ _ h]
    next hg => rw [if_neg hg]

/-- `extractPhone`: a null value means the returned result is exactly the
empty phone result (zero confidence, invalid). -/
lemma extractPhone_none (text : Str) (locale : IOcrLocale)
    (preferredCountry : Option Str)
    (h : (extractPhone text locale preferredCountry).value = none) :
    extractPhone text locale preferredCountry = emptyPhoneResult := by
  unfold extractPhone at h ⊢
  dsimp only at h ⊢
  split at h
  next hl =>
    rw [if_pos hl]
    exact extractLabeledPhone_none _ _ h
  next hl =>
    rw [if_neg hl]
    split at h
    next m heq =>
      try dsimp only at h ⊢
      split at h
      next hv =>
        exfalso
        dsimp only at h
        rw [vafp_shape] at hv
        rw [h] at hv
        simp at hv
      next hv =>
        rw [if_neg hv]
        exact extractPhoneTail_none _ _ h
    next heq => exact extractPhoneTail_none _ _ h

/-- `extractName`: a null value means the failure result. -/
lemma extractName_none (text : Str) (locale : IOcrLocale)
    (h : (extractName text locale).value = none) :
    extractName text locale = bFailure := by
  unfold extractName at h ⊢
  split at h
  next m heq =>
    dsimp only at h
    exact Option.noConfusion h
  next heq =>
    dsimp only at h ⊢
    split at h
    next c heq2 =>
      dsimp only at h
      exact Option.noConfusion h
    next heq2 => rfl

/-- `extractEmail`: a null value means the failure result. -/
lemma extractEmail_none (text : Str)
    (h : (extractEmail text).value = none) :
    extractEmail text = bFailure := by
  unfold extractEmail at h ⊢
  split at h
  next m heq =>
    dsimp only at h
    exact Option.noConfusion h
  next heq => rfl

/-- C7: no expected-failure path signals out-of-band.  Each contact
extraction entry point is a total Lean function (so, in this embedding,
it terminates without raising on every input), and whenever nothing is
extracted — the result's `value` is `null` — the result explicitly
carries `confidence = 0`, with `isValid = false` additionally for the
phone result. -/
theorem claim7_explicit_failure_results (text : Str) (locale : IOcrLocale)
    (supplierName preferredCountry : Option Str) :
    ((extractAddress text locale supplierName).value = none →
      (extractAddress text locale supplierName).confidence = 0) ∧
    ((extractPhone text locale preferredCountry).value = none →
      (extractPhone text locale preferredCountry).confidence = 0 ∧
        (extractPhone text locale preferredCountry).isValid = false) ∧
    ((extractName text locale).value = none →
      (extractName text locale).confidence = 0) ∧
    ((extractEmail text).value = none →
      (extractEmail text).confidence = 0) := by
  refine ⟨fun h => extractAddress_none text locale supplierName h,
    fun h => ?_, fun h => ?_, fun h => ?_⟩
  · rw [extractPhone_none text locale preferredCountry h]
    exact ⟨rfl, rfl⟩
  · rw [extractName_none text locale h]
    rfl
  · rw [extractEmail_none text h]
    rfl

/-- Concrete instantiation of the C7 theorem: on the empty document every
contact extractor returns a null value, and the theorem then yields zero
confidence (and invalidity for the phone). -/
theorem claim7_witness :
    ((extractAddress "".data FR_LOCALE none).value = none ∧
      (extractAddress "".data FR_LOCALE none).confidence = 0) ∧
    ((extractPhone "".data FR_LOCALE none).value = none ∧
      (extractPhone "".data FR_LOCALE none).confidence = 0 ∧
      (extractPhone "".data FR_LOCALE none).isValid = false) ∧
    ((extractName "".data FR_LOCALE).value = none ∧
      (extractName "".data FR_LOCALE).confidence = 0) ∧
    ((extractEmail "".data).value = none ∧
      (extractEmail "".data).confidence = 0) := by
  have h := claim7_explicit_failure_results "".data FR_LOCALE none none
  exact ⟨⟨by decide, h.1 (by decide)⟩,
    ⟨by decide, h.2.1 (by decide)⟩,
    ⟨by decide, h.2.2.1 (by decide)⟩,
    ⟨by decide, h.2.2.2 (by decide)⟩⟩
